import Mathlib

/-! # The header `cpp/ggml-cpu/simd-mappings.h`

A shallow embedding of the SIMD mapping header of the CPU backend.

The header is preprocessor text: one `#if / #elif` chain that picks a vector
backend from the compiler's target-feature symbols, and inside each branch a list
of `#define`s that bind the architecture-neutral names `LM_GGML_F32_VEC_*` and
`LM_GGML_F16_VEC_*` to intrinsics of that target.  The development has two layers.

* The *header model*: the target-feature symbols (`Features`), the backend chain
  (`selectBackend`), and for every branch the `#define`s it makes, in source order
  (`Define`, `branchDefines`), with the evaluation of the integer constants
  (`constValue`), the argument count of an invocation (`arity`) and the closure of a
  name under expansion (`resolves`).
* The *lane model*: a vector register is the list of its lanes, lane 0 first, each
  lane an exact rational; every operation of every backend is a function on such
  lists, written from the replacement list of its `#define` and from the documented
  effect of the intrinsics it names.
-/

/-! ## Header model: names -/

/-- Every name the header defines with `#define` in its vector part (lines 177 to
1180), spelled as in the source. -/
inductive Name
  | DEFAULT_PG
  | LM_GGML_ENDIAN_BYTE
  | LM_GGML_F16_ARR
  | LM_GGML_F16_EPR
  | LM_GGML_F16_STEP
  | LM_GGML_F16_VEC
  | LM_GGML_F16_VEC_ADD
  | LM_GGML_F16_VEC_FMA
  | LM_GGML_F16_VEC_LOAD
  | LM_GGML_F16_VEC_MUL
  | LM_GGML_F16_VEC_REDUCE
  | LM_GGML_F16_VEC_SET1
  | LM_GGML_F16_VEC_STORE
  | LM_GGML_F16_VEC_ZERO
  | LM_GGML_F16x4
  | LM_GGML_F16x4_ADD
  | LM_GGML_F16x4_FMA
  | LM_GGML_F16x4_LOAD
  | LM_GGML_F16x4_MUL
  | LM_GGML_F16x4_REDUCE
  | LM_GGML_F16x4_SET1
  | LM_GGML_F16x4_STORE
  | LM_GGML_F16x4_ZERO
  | LM_GGML_F16x8
  | LM_GGML_F16x8_ADD
  | LM_GGML_F16x8_FMA
  | LM_GGML_F16x8_LOAD
  | LM_GGML_F16x8_MUL
  | LM_GGML_F16x8_REDUCE
  | LM_GGML_F16x8_SET1
  | LM_GGML_F16x8_STORE
  | LM_GGML_F16x8_ZERO
  | LM_GGML_F32Cx16
  | LM_GGML_F32Cx16_ADD
  | LM_GGML_F32Cx16_FMA
  | LM_GGML_F32Cx16_LOAD
  | LM_GGML_F32Cx16_MUL
  | LM_GGML_F32Cx16_REDUCE
  | LM_GGML_F32Cx16_SET1
  | LM_GGML_F32Cx16_STORE
  | LM_GGML_F32Cx16_ZERO
  | LM_GGML_F32Cx4
  | LM_GGML_F32Cx4_ADD
  | LM_GGML_F32Cx4_FMA
  | LM_GGML_F32Cx4_LOAD
  | LM_GGML_F32Cx4_MUL
  | LM_GGML_F32Cx4_REDUCE
  | LM_GGML_F32Cx4_SET1
  | LM_GGML_F32Cx4_STORE
  | LM_GGML_F32Cx4_ZERO
  | LM_GGML_F32Cx8
  | LM_GGML_F32Cx8_ADD
  | LM_GGML_F32Cx8_FMA
  | LM_GGML_F32Cx8_LOAD
  | LM_GGML_F32Cx8_MUL
  | LM_GGML_F32Cx8_REDUCE
  | LM_GGML_F32Cx8_SET1
  | LM_GGML_F32Cx8_STORE
  | LM_GGML_F32Cx8_ZERO
  | LM_GGML_F32_ARR
  | LM_GGML_F32_EPR
  | LM_GGML_F32_STEP
  | LM_GGML_F32_VEC
  | LM_GGML_F32_VEC_ADD
  | LM_GGML_F32_VEC_FMA
  | LM_GGML_F32_VEC_LOAD
  | LM_GGML_F32_VEC_MUL
  | LM_GGML_F32_VEC_REDUCE
  | LM_GGML_F32_VEC_SET1
  | LM_GGML_F32_VEC_STORE
  | LM_GGML_F32_VEC_ZERO
  | LM_GGML_F32x16
  | LM_GGML_F32x16_ADD
  | LM_GGML_F32x16_FMA
  | LM_GGML_F32x16_LOAD
  | LM_GGML_F32x16_MUL
  | LM_GGML_F32x16_REDUCE
  | LM_GGML_F32x16_SET1
  | LM_GGML_F32x16_STORE
  | LM_GGML_F32x16_ZERO
  | LM_GGML_F32x4
  | LM_GGML_F32x4_ADD
  | LM_GGML_F32x4_FMA
  | LM_GGML_F32x4_LOAD
  | LM_GGML_F32x4_MUL
  | LM_GGML_F32x4_REDUCE
  | LM_GGML_F32x4_REDUCE_ONE
  | LM_GGML_F32x4_SET1
  | LM_GGML_F32x4_STORE
  | LM_GGML_F32x4_ZERO
  | LM_GGML_F32x8
  | LM_GGML_F32x8_ADD
  | LM_GGML_F32x8_FMA
  | LM_GGML_F32x8_LOAD
  | LM_GGML_F32x8_MUL
  | LM_GGML_F32x8_REDUCE
  | LM_GGML_F32x8_SET1
  | LM_GGML_F32x8_STORE
  | LM_GGML_F32x8_ZERO
  | LM_GGML_F32xt
  | LM_GGML_F32xt_ADD
  | LM_GGML_F32xt_ADD_IMPL
  | LM_GGML_F32xt_FMA
  | LM_GGML_F32xt_FMA_IMPL
  | LM_GGML_F32xt_LOAD
  | LM_GGML_F32xt_LOAD_IMPL
  | LM_GGML_F32xt_MUL
  | LM_GGML_F32xt_MUL_IMPL
  | LM_GGML_F32xt_REDUCE
  | LM_GGML_F32xt_REDUCE_IMPL
  | LM_GGML_F32xt_REDUCE_ONE
  | LM_GGML_F32xt_REDUCE_ONE_IMPL
  | LM_GGML_F32xt_SET1
  | LM_GGML_F32xt_STORE
  | LM_GGML_F32xt_STORE_IMPL
  | LM_GGML_F32xt_ZERO
  | LM_GGML_SIMD
deriving DecidableEq, Repr

/-- Parameter list of a `#define`. -/
inductive Params
  /-- Object-like: `#define A ...`. -/
  | object
  /-- Function-like with `n` named parameters: `#define A(p1, ..., pn) ...`. -/
  | fn (n : Nat)
  /-- Function-like with `n` named parameters and a trailing `...`. -/
  | variadic (n : Nat)
deriving DecidableEq, Repr

/-- Replacement list of a `#define`, by shape. -/
inductive Body
  /-- Nothing: `#define LM_GGML_SIMD`. -/
  | empty
  /-- An integer literal. -/
  | num (n : Nat)
  /-- The quotient of two names in parentheses: `(A/B)`. -/
  | quot (a b : Name)
  /-- Exactly one name of the header: `#define A B`. -/
  | ref (m : Name)
  /-- One call `m(fixed..., __VA_ARGS__)` that hands all variadic arguments on. -/
  | fwd (m : Name) (fixed : List Name)
  /-- Target code (intrinsics, C expressions or a block).  `text` is the replacement
  list as written when it stands on one line and is empty for a block that spans
  several lines; `uses` lists the names of the header that occur in it, in order of
  first occurrence. -/
  | code (text : String) (uses : List Name)
deriving DecidableEq, Repr

/-- One `#define` directive. -/
structure Define where
  name : Name
  params : Params
  body : Body
deriving DecidableEq, Repr

/-- The names of the header that a replacement list mentions. -/
def Body.uses : Body → List Name
  | .empty => []
  | .num _ => []
  | .quot a b => [a, b]
  | .ref m => [m]
  | .fwd m fixed => m :: fixed
  | .code _ us => us

/-! ## Header model: the `#define`s of each branch, in source order -/

/-- Lines 179 to 221: the branch of `__ARM_FEATURE_SVE && __ARM_FEATURE_FMA`, full precision.  No `LM_GGML_F32_STEP` is defined here. -/
def SVE_F32 : List Define := [
  ⟨.LM_GGML_SIMD, .object, .empty⟩,
  ⟨.LM_GGML_F32_EPR, .object, .num 8⟩,
  ⟨.DEFAULT_PG, .object, .code "svptrue_b32()" []⟩,
  ⟨.LM_GGML_F32xt, .object, .code "svfloat32_t" []⟩,
  ⟨.LM_GGML_F32xt_ZERO, .object, .code "svdup_n_f32(0.0f)" []⟩,
  ⟨.LM_GGML_F32xt_SET1, .fn 1, .code "svdup_n_f32(x)" []⟩,
  ⟨.LM_GGML_F32xt_LOAD_IMPL, .variadic 2, .code "svld1_f32(pg, a)" []⟩,
  ⟨.LM_GGML_F32xt_LOAD, .variadic 0, .fwd .LM_GGML_F32xt_LOAD_IMPL [.DEFAULT_PG]⟩,
  ⟨.LM_GGML_F32xt_STORE_IMPL, .fn 3, .code "svst1_f32(pg, a, b)" []⟩,
  ⟨.LM_GGML_F32xt_STORE, .variadic 0, .fwd .LM_GGML_F32xt_STORE_IMPL [.DEFAULT_PG]⟩,
  ⟨.LM_GGML_F32xt_FMA_IMPL, .fn 4, .code "svmad_f32_m(pg, b, c, a)" []⟩,
  ⟨.LM_GGML_F32xt_FMA, .variadic 0, .fwd .LM_GGML_F32xt_FMA_IMPL [.DEFAULT_PG]⟩,
  ⟨.LM_GGML_F32xt_ADD_IMPL, .fn 3, .code "svadd_f32_m(pg, a, b)" []⟩,
  ⟨.LM_GGML_F32xt_ADD, .variadic 0, .fwd .LM_GGML_F32xt_ADD_IMPL [.DEFAULT_PG]⟩,
  ⟨.LM_GGML_F32xt_MUL_IMPL, .fn 3, .code "svmul_f32_m(pg, a, b)" []⟩,
  ⟨.LM_GGML_F32xt_MUL, .variadic 0, .fwd .LM_GGML_F32xt_MUL_IMPL [.DEFAULT_PG]⟩,
  ⟨.LM_GGML_F32xt_REDUCE_ONE_IMPL, .fn 2, .code "svaddv(pg, a)" []⟩,
  ⟨.LM_GGML_F32xt_REDUCE_ONE, .variadic 0, .fwd .LM_GGML_F32xt_REDUCE_ONE_IMPL [.DEFAULT_PG]⟩,
  ⟨.LM_GGML_F32xt_REDUCE_IMPL, .fn 10, .code "" [.DEFAULT_PG, .LM_GGML_F32xt_REDUCE_ONE]⟩,
  ⟨.LM_GGML_F32xt_REDUCE, .variadic 0, .fwd .LM_GGML_F32xt_REDUCE_IMPL [.DEFAULT_PG]⟩,
  ⟨.LM_GGML_F32_VEC, .object, .ref .LM_GGML_F32xt⟩,
  ⟨.LM_GGML_F32_VEC_ZERO, .object, .ref .LM_GGML_F32xt_ZERO⟩,
  ⟨.LM_GGML_F32_VEC_SET1, .object, .ref .LM_GGML_F32xt_SET1⟩,
  ⟨.LM_GGML_F32_VEC_LOAD, .object, .ref .LM_GGML_F32xt_LOAD⟩,
  ⟨.LM_GGML_F32_VEC_STORE, .object, .ref .LM_GGML_F32xt_STORE⟩,
  ⟨.LM_GGML_F32_VEC_FMA, .object, .ref .LM_GGML_F32xt_FMA⟩,
  ⟨.LM_GGML_F32_VEC_ADD, .object, .ref .LM_GGML_F32xt_ADD⟩,
  ⟨.LM_GGML_F32_VEC_MUL, .object, .ref .LM_GGML_F32xt_MUL⟩,
  ⟨.LM_GGML_F32_VEC_REDUCE, .object, .ref .LM_GGML_F32xt_REDUCE⟩]

/-- Lines 226 to 264: half precision inside the SVE branch when `__ARM_FEATURE_FP16_VECTOR_ARITHMETIC` is defined. -/
def SVE_F16_native : List Define := [
  ⟨.LM_GGML_F16_STEP, .object, .num 32⟩,
  ⟨.LM_GGML_F16_EPR, .object, .num 8⟩,
  ⟨.LM_GGML_F16x8, .object, .code "float16x8_t" []⟩,
  ⟨.LM_GGML_F16x8_ZERO, .object, .code "vdupq_n_f16(0.0f)" []⟩,
  ⟨.LM_GGML_F16x8_SET1, .fn 1, .code "vdupq_n_f16(x)" []⟩,
  ⟨.LM_GGML_F16x8_LOAD, .fn 1, .code "vld1q_f16((const __fp16 *)(x))" []⟩,
  ⟨.LM_GGML_F16x8_STORE, .object, .code "vst1q_f16" []⟩,
  ⟨.LM_GGML_F16x8_FMA, .fn 3, .code "vfmaq_f16(a, b, c)" []⟩,
  ⟨.LM_GGML_F16x8_ADD, .object, .code "vaddq_f16" []⟩,
  ⟨.LM_GGML_F16x8_MUL, .object, .code "vmulq_f16" []⟩,
  ⟨.LM_GGML_F16x8_REDUCE, .fn 2, .code "" [.LM_GGML_F16_ARR]⟩,
  ⟨.LM_GGML_F16_VEC, .object, .ref .LM_GGML_F16x8⟩,
  ⟨.LM_GGML_F16_VEC_ZERO, .object, .ref .LM_GGML_F16x8_ZERO⟩,
  ⟨.LM_GGML_F16_VEC_SET1, .object, .ref .LM_GGML_F16x8_SET1⟩,
  ⟨.LM_GGML_F16_VEC_LOAD, .fn 2, .code "LM_GGML_F16x8_LOAD(p)" [.LM_GGML_F16x8_LOAD]⟩,
  ⟨.LM_GGML_F16_VEC_STORE, .fn 3, .code "LM_GGML_F16x8_STORE((__fp16 *)(p), (r)[i])" [.LM_GGML_F16x8_STORE]⟩,
  ⟨.LM_GGML_F16_VEC_FMA, .object, .ref .LM_GGML_F16x8_FMA⟩,
  ⟨.LM_GGML_F16_VEC_ADD, .object, .ref .LM_GGML_F16x8_ADD⟩,
  ⟨.LM_GGML_F16_VEC_MUL, .object, .ref .LM_GGML_F16x8_MUL⟩,
  ⟨.LM_GGML_F16_VEC_REDUCE, .object, .ref .LM_GGML_F16x8_REDUCE⟩]

/-- Lines 269 to 290: half precision inside the SVE branch otherwise. -/
def SVE_F16_widened : List Define := [
  ⟨.LM_GGML_F16_STEP, .object, .num 16⟩,
  ⟨.LM_GGML_F16_EPR, .object, .num 4⟩,
  ⟨.LM_GGML_F32Cx4, .object, .code "float32x4_t" []⟩,
  ⟨.LM_GGML_F32Cx4_ZERO, .object, .code "vdupq_n_f32(0.0f)" []⟩,
  ⟨.LM_GGML_F32Cx4_SET1, .fn 1, .code "vdupq_n_f32(x)" []⟩,
  ⟨.LM_GGML_F32Cx4_LOAD, .fn 1, .code "vcvt_f32_f16(vld1_f16((const __fp16 *)(x)))" []⟩,
  ⟨.LM_GGML_F32Cx4_STORE, .fn 2, .code "vst1_f16(x, vcvt_f16_f32(y))" []⟩,
  ⟨.LM_GGML_F32Cx4_FMA, .fn 3, .code "vfmaq_f32(a, b, c)" []⟩,
  ⟨.LM_GGML_F32Cx4_ADD, .object, .code "vaddq_f32" []⟩,
  ⟨.LM_GGML_F32Cx4_MUL, .object, .code "vmulq_f32" []⟩,
  ⟨.LM_GGML_F32Cx4_REDUCE, .object, .ref .LM_GGML_F32x4_REDUCE⟩,
  ⟨.LM_GGML_F16_VEC, .object, .ref .LM_GGML_F32Cx4⟩,
  ⟨.LM_GGML_F16_VEC_ZERO, .object, .ref .LM_GGML_F32Cx4_ZERO⟩,
  ⟨.LM_GGML_F16_VEC_SET1, .object, .ref .LM_GGML_F32Cx4_SET1⟩,
  ⟨.LM_GGML_F16_VEC_LOAD, .fn 2, .code "LM_GGML_F32Cx4_LOAD(p)" [.LM_GGML_F32Cx4_LOAD]⟩,
  ⟨.LM_GGML_F16_VEC_STORE, .fn 3, .code "LM_GGML_F32Cx4_STORE((__fp16 *)(p), r[i])" [.LM_GGML_F32Cx4_STORE]⟩,
  ⟨.LM_GGML_F16_VEC_FMA, .object, .ref .LM_GGML_F32Cx4_FMA⟩,
  ⟨.LM_GGML_F16_VEC_ADD, .object, .ref .LM_GGML_F32Cx4_ADD⟩,
  ⟨.LM_GGML_F16_VEC_MUL, .object, .ref .LM_GGML_F32Cx4_MUL⟩,
  ⟨.LM_GGML_F16_VEC_REDUCE, .object, .ref .LM_GGML_F32Cx4_REDUCE⟩]

/-- Lines 295 to 336: the branch of `__ARM_NEON && __ARM_FEATURE_FMA`, full precision. -/
def NEON_F32 : List Define := [
  ⟨.LM_GGML_SIMD, .object, .empty⟩,
  ⟨.LM_GGML_F32_STEP, .object, .num 16⟩,
  ⟨.LM_GGML_F32_EPR, .object, .num 4⟩,
  ⟨.LM_GGML_F32x4, .object, .code "float32x4_t" []⟩,
  ⟨.LM_GGML_F32x4_ZERO, .object, .code "vdupq_n_f32(0.0f)" []⟩,
  ⟨.LM_GGML_F32x4_SET1, .fn 1, .code "vdupq_n_f32(x)" []⟩,
  ⟨.LM_GGML_F32x4_LOAD, .object, .code "vld1q_f32" []⟩,
  ⟨.LM_GGML_F32x4_STORE, .object, .code "vst1q_f32" []⟩,
  ⟨.LM_GGML_F32x4_FMA, .fn 3, .code "vfmaq_f32(a, b, c)" []⟩,
  ⟨.LM_GGML_F32x4_ADD, .object, .code "vaddq_f32" []⟩,
  ⟨.LM_GGML_F32x4_MUL, .object, .code "vmulq_f32" []⟩,
  ⟨.LM_GGML_F32x4_REDUCE_ONE, .fn 1, .code "vaddvq_f32(x)" []⟩,
  ⟨.LM_GGML_F32x4_REDUCE, .fn 2, .code "" [.LM_GGML_F32_ARR, .LM_GGML_F32x4_REDUCE_ONE]⟩,
  ⟨.LM_GGML_F32_VEC, .object, .ref .LM_GGML_F32x4⟩,
  ⟨.LM_GGML_F32_VEC_ZERO, .object, .ref .LM_GGML_F32x4_ZERO⟩,
  ⟨.LM_GGML_F32_VEC_SET1, .object, .ref .LM_GGML_F32x4_SET1⟩,
  ⟨.LM_GGML_F32_VEC_LOAD, .object, .ref .LM_GGML_F32x4_LOAD⟩,
  ⟨.LM_GGML_F32_VEC_STORE, .object, .ref .LM_GGML_F32x4_STORE⟩,
  ⟨.LM_GGML_F32_VEC_FMA, .object, .ref .LM_GGML_F32x4_FMA⟩,
  ⟨.LM_GGML_F32_VEC_ADD, .object, .ref .LM_GGML_F32x4_ADD⟩,
  ⟨.LM_GGML_F32_VEC_MUL, .object, .ref .LM_GGML_F32x4_MUL⟩,
  ⟨.LM_GGML_F32_VEC_REDUCE, .object, .ref .LM_GGML_F32x4_REDUCE⟩]

/-- Lines 341 to 379: half precision on NEON when `__ARM_FEATURE_FP16_VECTOR_ARITHMETIC` is defined. -/
def NEON_F16_native : List Define := [
  ⟨.LM_GGML_F16_STEP, .object, .num 32⟩,
  ⟨.LM_GGML_F16_EPR, .object, .num 8⟩,
  ⟨.LM_GGML_F16x8, .object, .code "float16x8_t" []⟩,
  ⟨.LM_GGML_F16x8_ZERO, .object, .code "vdupq_n_f16(0.0f)" []⟩,
  ⟨.LM_GGML_F16x8_SET1, .fn 1, .code "vdupq_n_f16(x)" []⟩,
  ⟨.LM_GGML_F16x8_LOAD, .fn 1, .code "vld1q_f16((const __fp16 *)(x))" []⟩,
  ⟨.LM_GGML_F16x8_STORE, .object, .code "vst1q_f16" []⟩,
  ⟨.LM_GGML_F16x8_FMA, .fn 3, .code "vfmaq_f16(a, b, c)" []⟩,
  ⟨.LM_GGML_F16x8_ADD, .object, .code "vaddq_f16" []⟩,
  ⟨.LM_GGML_F16x8_MUL, .object, .code "vmulq_f16" []⟩,
  ⟨.LM_GGML_F16x8_REDUCE, .fn 2, .code "" [.LM_GGML_F16_ARR]⟩,
  ⟨.LM_GGML_F16_VEC, .object, .ref .LM_GGML_F16x8⟩,
  ⟨.LM_GGML_F16_VEC_ZERO, .object, .ref .LM_GGML_F16x8_ZERO⟩,
  ⟨.LM_GGML_F16_VEC_SET1, .object, .ref .LM_GGML_F16x8_SET1⟩,
  ⟨.LM_GGML_F16_VEC_LOAD, .fn 2, .code "LM_GGML_F16x8_LOAD(p)" [.LM_GGML_F16x8_LOAD]⟩,
  ⟨.LM_GGML_F16_VEC_STORE, .fn 3, .code "LM_GGML_F16x8_STORE((__fp16 *)(p), (r)[i])" [.LM_GGML_F16x8_STORE]⟩,
  ⟨.LM_GGML_F16_VEC_FMA, .object, .ref .LM_GGML_F16x8_FMA⟩,
  ⟨.LM_GGML_F16_VEC_ADD, .object, .ref .LM_GGML_F16x8_ADD⟩,
  ⟨.LM_GGML_F16_VEC_MUL, .object, .ref .LM_GGML_F16x8_MUL⟩,
  ⟨.LM_GGML_F16_VEC_REDUCE, .object, .ref .LM_GGML_F16x8_REDUCE⟩]

/-- Lines 384 to 405: half precision on NEON otherwise. -/
def NEON_F16_widened : List Define := [
  ⟨.LM_GGML_F16_STEP, .object, .num 16⟩,
  ⟨.LM_GGML_F16_EPR, .object, .num 4⟩,
  ⟨.LM_GGML_F32Cx4, .object, .code "float32x4_t" []⟩,
  ⟨.LM_GGML_F32Cx4_ZERO, .object, .code "vdupq_n_f32(0.0f)" []⟩,
  ⟨.LM_GGML_F32Cx4_SET1, .fn 1, .code "vdupq_n_f32(x)" []⟩,
  ⟨.LM_GGML_F32Cx4_LOAD, .fn 1, .code "vcvt_f32_f16(vld1_f16((const __fp16 *)(x)))" []⟩,
  ⟨.LM_GGML_F32Cx4_STORE, .fn 2, .code "vst1_f16(x, vcvt_f16_f32(y))" []⟩,
  ⟨.LM_GGML_F32Cx4_FMA, .fn 3, .code "vfmaq_f32(a, b, c)" []⟩,
  ⟨.LM_GGML_F32Cx4_ADD, .object, .code "vaddq_f32" []⟩,
  ⟨.LM_GGML_F32Cx4_MUL, .object, .code "vmulq_f32" []⟩,
  ⟨.LM_GGML_F32Cx4_REDUCE, .object, .ref .LM_GGML_F32x4_REDUCE⟩,
  ⟨.LM_GGML_F16_VEC, .object, .ref .LM_GGML_F32Cx4⟩,
  ⟨.LM_GGML_F16_VEC_ZERO, .object, .ref .LM_GGML_F32Cx4_ZERO⟩,
  ⟨.LM_GGML_F16_VEC_SET1, .object, .ref .LM_GGML_F32Cx4_SET1⟩,
  ⟨.LM_GGML_F16_VEC_LOAD, .fn 2, .code "LM_GGML_F32Cx4_LOAD(p)" [.LM_GGML_F32Cx4_LOAD]⟩,
  ⟨.LM_GGML_F16_VEC_STORE, .fn 3, .code "LM_GGML_F32Cx4_STORE((__fp16 *)(p), r[i])" [.LM_GGML_F32Cx4_STORE]⟩,
  ⟨.LM_GGML_F16_VEC_FMA, .object, .ref .LM_GGML_F32Cx4_FMA⟩,
  ⟨.LM_GGML_F16_VEC_ADD, .object, .ref .LM_GGML_F32Cx4_ADD⟩,
  ⟨.LM_GGML_F16_VEC_MUL, .object, .ref .LM_GGML_F32Cx4_MUL⟩,
  ⟨.LM_GGML_F16_VEC_REDUCE, .object, .ref .LM_GGML_F32Cx4_REDUCE⟩]

/-- Lines 410 to 502: the branch of `__AVX512F__`. -/
def AVX512_all : List Define := [
  ⟨.LM_GGML_SIMD, .object, .empty⟩,
  ⟨.LM_GGML_F32_STEP, .object, .num 64⟩,
  ⟨.LM_GGML_F32_EPR, .object, .num 16⟩,
  ⟨.LM_GGML_F32x16, .object, .code "__m512" []⟩,
  ⟨.LM_GGML_F32x16_ZERO, .object, .code "_mm512_setzero_ps()" []⟩,
  ⟨.LM_GGML_F32x16_SET1, .fn 1, .code "_mm512_set1_ps(x)" []⟩,
  ⟨.LM_GGML_F32x16_LOAD, .object, .code "_mm512_loadu_ps" []⟩,
  ⟨.LM_GGML_F32x16_STORE, .object, .code "_mm512_storeu_ps" []⟩,
  ⟨.LM_GGML_F32x16_FMA, .fn 3, .code "_mm512_fmadd_ps(b, c, a)" []⟩,
  ⟨.LM_GGML_F32x16_ADD, .object, .code "_mm512_add_ps" []⟩,
  ⟨.LM_GGML_F32x16_MUL, .object, .code "_mm512_mul_ps" []⟩,
  ⟨.LM_GGML_F32x16_REDUCE, .fn 2, .code "" [.LM_GGML_F32_ARR]⟩,
  ⟨.LM_GGML_F32_VEC, .object, .ref .LM_GGML_F32x16⟩,
  ⟨.LM_GGML_F32_VEC_ZERO, .object, .ref .LM_GGML_F32x16_ZERO⟩,
  ⟨.LM_GGML_F32_VEC_SET1, .object, .ref .LM_GGML_F32x16_SET1⟩,
  ⟨.LM_GGML_F32_VEC_LOAD, .object, .ref .LM_GGML_F32x16_LOAD⟩,
  ⟨.LM_GGML_F32_VEC_STORE, .object, .ref .LM_GGML_F32x16_STORE⟩,
  ⟨.LM_GGML_F32_VEC_FMA, .object, .ref .LM_GGML_F32x16_FMA⟩,
  ⟨.LM_GGML_F32_VEC_ADD, .object, .ref .LM_GGML_F32x16_ADD⟩,
  ⟨.LM_GGML_F32_VEC_MUL, .object, .ref .LM_GGML_F32x16_MUL⟩,
  ⟨.LM_GGML_F32_VEC_REDUCE, .object, .ref .LM_GGML_F32x16_REDUCE⟩,
  ⟨.LM_GGML_F16_STEP, .object, .num 64⟩,
  ⟨.LM_GGML_F16_EPR, .object, .num 16⟩,
  ⟨.LM_GGML_F32Cx16, .object, .code "__m512" []⟩,
  ⟨.LM_GGML_F32Cx16_ZERO, .object, .code "_mm512_setzero_ps()" []⟩,
  ⟨.LM_GGML_F32Cx16_SET1, .fn 1, .code "_mm512_set1_ps(x)" []⟩,
  ⟨.LM_GGML_F32Cx16_LOAD, .fn 1, .code "_mm512_cvtph_ps(_mm256_loadu_si256((const __m256i *)(x)))" []⟩,
  ⟨.LM_GGML_F32Cx16_STORE, .fn 2, .code "_mm256_storeu_si256((__m256i *)(x), _mm512_cvtps_ph(y, 0))" []⟩,
  ⟨.LM_GGML_F32Cx16_FMA, .fn 3, .code "_mm512_fmadd_ps(b, c, a)" []⟩,
  ⟨.LM_GGML_F32Cx16_ADD, .object, .code "_mm512_add_ps" []⟩,
  ⟨.LM_GGML_F32Cx16_MUL, .object, .code "_mm512_mul_ps" []⟩,
  ⟨.LM_GGML_F32Cx16_REDUCE, .fn 2, .code "" [.LM_GGML_F32_ARR]⟩,
  ⟨.LM_GGML_F16_VEC, .object, .ref .LM_GGML_F32Cx16⟩,
  ⟨.LM_GGML_F16_VEC_ZERO, .object, .ref .LM_GGML_F32Cx16_ZERO⟩,
  ⟨.LM_GGML_F16_VEC_SET1, .object, .ref .LM_GGML_F32Cx16_SET1⟩,
  ⟨.LM_GGML_F16_VEC_LOAD, .fn 2, .code "LM_GGML_F32Cx16_LOAD(p)" [.LM_GGML_F32Cx16_LOAD]⟩,
  ⟨.LM_GGML_F16_VEC_STORE, .fn 3, .code "LM_GGML_F32Cx16_STORE(p, r[i])" [.LM_GGML_F32Cx16_STORE]⟩,
  ⟨.LM_GGML_F16_VEC_FMA, .object, .ref .LM_GGML_F32Cx16_FMA⟩,
  ⟨.LM_GGML_F16_VEC_ADD, .object, .ref .LM_GGML_F32Cx16_ADD⟩,
  ⟨.LM_GGML_F16_VEC_MUL, .object, .ref .LM_GGML_F32Cx16_MUL⟩,
  ⟨.LM_GGML_F16_VEC_REDUCE, .object, .ref .LM_GGML_F32Cx16_REDUCE⟩]

/-- Lines 505 to 516: the branch of `__AVX__`, up to the multiply-add. -/
def AVX_head : List Define := [
  ⟨.LM_GGML_SIMD, .object, .empty⟩,
  ⟨.LM_GGML_F32_STEP, .object, .num 32⟩,
  ⟨.LM_GGML_F32_EPR, .object, .num 8⟩,
  ⟨.LM_GGML_F32x8, .object, .code "__m256" []⟩,
  ⟨.LM_GGML_F32x8_ZERO, .object, .code "_mm256_setzero_ps()" []⟩,
  ⟨.LM_GGML_F32x8_SET1, .fn 1, .code "_mm256_set1_ps(x)" []⟩,
  ⟨.LM_GGML_F32x8_LOAD, .object, .code "_mm256_loadu_ps" []⟩,
  ⟨.LM_GGML_F32x8_STORE, .object, .code "_mm256_storeu_ps" []⟩]

/-- Line 518: `__FMA__` defined. -/
def AVX_FMA_fused : List Define := [
  ⟨.LM_GGML_F32x8_FMA, .fn 3, .code "_mm256_fmadd_ps(b, c, a)" []⟩]

/-- Line 520: `__FMA__` not defined. -/
def AVX_FMA_unfused : List Define := [
  ⟨.LM_GGML_F32x8_FMA, .fn 3, .code "_mm256_add_ps(_mm256_mul_ps(b, c), a)" []⟩]

/-- Lines 522 to 564. -/
def AVX_mid : List Define := [
  ⟨.LM_GGML_F32x8_ADD, .object, .code "_mm256_add_ps" []⟩,
  ⟨.LM_GGML_F32x8_MUL, .object, .code "_mm256_mul_ps" []⟩,
  ⟨.LM_GGML_F32x8_REDUCE, .fn 2, .code "" [.LM_GGML_F32_ARR]⟩,
  ⟨.LM_GGML_F32_VEC, .object, .ref .LM_GGML_F32x8⟩,
  ⟨.LM_GGML_F32_VEC_ZERO, .object, .ref .LM_GGML_F32x8_ZERO⟩,
  ⟨.LM_GGML_F32_VEC_SET1, .object, .ref .LM_GGML_F32x8_SET1⟩,
  ⟨.LM_GGML_F32_VEC_LOAD, .object, .ref .LM_GGML_F32x8_LOAD⟩,
  ⟨.LM_GGML_F32_VEC_STORE, .object, .ref .LM_GGML_F32x8_STORE⟩,
  ⟨.LM_GGML_F32_VEC_FMA, .object, .ref .LM_GGML_F32x8_FMA⟩,
  ⟨.LM_GGML_F32_VEC_ADD, .object, .ref .LM_GGML_F32x8_ADD⟩,
  ⟨.LM_GGML_F32_VEC_MUL, .object, .ref .LM_GGML_F32x8_MUL⟩,
  ⟨.LM_GGML_F32_VEC_REDUCE, .object, .ref .LM_GGML_F32x8_REDUCE⟩,
  ⟨.LM_GGML_F16_STEP, .object, .num 32⟩,
  ⟨.LM_GGML_F16_EPR, .object, .num 8⟩,
  ⟨.LM_GGML_F32Cx8, .object, .code "__m256" []⟩,
  ⟨.LM_GGML_F32Cx8_ZERO, .object, .code "_mm256_setzero_ps()" []⟩,
  ⟨.LM_GGML_F32Cx8_SET1, .fn 1, .code "_mm256_set1_ps(x)" []⟩]

/-- Lines 568 and 569: `__F16C__` defined. -/
def AVX_F16C : List Define := [
  ⟨.LM_GGML_F32Cx8_LOAD, .fn 1, .code "_mm256_cvtph_ps(_mm_loadu_si128((const __m128i *)(x)))" []⟩,
  ⟨.LM_GGML_F32Cx8_STORE, .fn 2, .code "_mm_storeu_si128((__m128i *)(x), _mm256_cvtps_ph(y, 0))" []⟩]

/-- Lines 588 and 589: `__F16C__` not defined (after the two scalar-loop functions). -/
def AVX_no_F16C : List Define := [
  ⟨.LM_GGML_F32Cx8_LOAD, .fn 1, .code "__avx_f32cx8_load(x)" []⟩,
  ⟨.LM_GGML_F32Cx8_STORE, .fn 2, .code "__avx_f32cx8_store(x, y)" []⟩]

/-- Lines 592 to 605. -/
def AVX_tail : List Define := [
  ⟨.LM_GGML_F32Cx8_FMA, .object, .ref .LM_GGML_F32x8_FMA⟩,
  ⟨.LM_GGML_F32Cx8_ADD, .object, .code "_mm256_add_ps" []⟩,
  ⟨.LM_GGML_F32Cx8_MUL, .object, .code "_mm256_mul_ps" []⟩,
  ⟨.LM_GGML_F32Cx8_REDUCE, .object, .ref .LM_GGML_F32x8_REDUCE⟩,
  ⟨.LM_GGML_F16_VEC, .object, .ref .LM_GGML_F32Cx8⟩,
  ⟨.LM_GGML_F16_VEC_ZERO, .object, .ref .LM_GGML_F32Cx8_ZERO⟩,
  ⟨.LM_GGML_F16_VEC_SET1, .object, .ref .LM_GGML_F32Cx8_SET1⟩,
  ⟨.LM_GGML_F16_VEC_LOAD, .fn 2, .code "LM_GGML_F32Cx8_LOAD(p)" [.LM_GGML_F32Cx8_LOAD]⟩,
  ⟨.LM_GGML_F16_VEC_STORE, .fn 3, .code "LM_GGML_F32Cx8_STORE(p, r[i])" [.LM_GGML_F32Cx8_STORE]⟩,
  ⟨.LM_GGML_F16_VEC_FMA, .object, .ref .LM_GGML_F32Cx8_FMA⟩,
  ⟨.LM_GGML_F16_VEC_ADD, .object, .ref .LM_GGML_F32Cx8_ADD⟩,
  ⟨.LM_GGML_F16_VEC_MUL, .object, .ref .LM_GGML_F32Cx8_MUL⟩,
  ⟨.LM_GGML_F16_VEC_REDUCE, .object, .ref .LM_GGML_F32Cx8_REDUCE⟩]

/-- Lines 609 to 677: the branch of `__POWER9_VECTOR__`. -/
def POWER9_all : List Define := [
  ⟨.LM_GGML_SIMD, .object, .empty⟩,
  ⟨.LM_GGML_F32_STEP, .object, .num 32⟩,
  ⟨.LM_GGML_F32_EPR, .object, .num 4⟩,
  ⟨.LM_GGML_F32x4, .object, .code "vector float" []⟩,
  ⟨.LM_GGML_F32x4_ZERO, .object, .code "\x7b0.0f\x7d" []⟩,
  ⟨.LM_GGML_F32x4_SET1, .object, .code "vec_splats" []⟩,
  ⟨.LM_GGML_F32x4_LOAD, .fn 1, .code "vec_xl(0, p)" []⟩,
  ⟨.LM_GGML_F32x4_STORE, .fn 2, .code "vec_xst(r, 0, p)" []⟩,
  ⟨.LM_GGML_F32x4_FMA, .fn 3, .code "vec_madd(b, c, a)" []⟩,
  ⟨.LM_GGML_F32x4_ADD, .object, .code "vec_add" []⟩,
  ⟨.LM_GGML_F32x4_MUL, .object, .code "vec_mul" []⟩,
  ⟨.LM_GGML_F32x4_REDUCE, .fn 2, .code "" [.LM_GGML_F32_ARR]⟩,
  ⟨.LM_GGML_F32_VEC, .object, .ref .LM_GGML_F32x4⟩,
  ⟨.LM_GGML_F32_VEC_ZERO, .object, .ref .LM_GGML_F32x4_ZERO⟩,
  ⟨.LM_GGML_F32_VEC_SET1, .object, .ref .LM_GGML_F32x4_SET1⟩,
  ⟨.LM_GGML_F32_VEC_LOAD, .object, .ref .LM_GGML_F32x4_LOAD⟩,
  ⟨.LM_GGML_F32_VEC_STORE, .object, .ref .LM_GGML_F32x4_STORE⟩,
  ⟨.LM_GGML_F32_VEC_FMA, .object, .ref .LM_GGML_F32x4_FMA⟩,
  ⟨.LM_GGML_F32_VEC_ADD, .object, .ref .LM_GGML_F32x4_ADD⟩,
  ⟨.LM_GGML_F32_VEC_MUL, .object, .ref .LM_GGML_F32x4_MUL⟩,
  ⟨.LM_GGML_F32_VEC_REDUCE, .object, .ref .LM_GGML_F32x4_REDUCE⟩,
  ⟨.LM_GGML_F16_STEP, .object, .ref .LM_GGML_F32_STEP⟩,
  ⟨.LM_GGML_F16_EPR, .object, .ref .LM_GGML_F32_EPR⟩,
  ⟨.LM_GGML_F16_VEC, .object, .ref .LM_GGML_F32x4⟩,
  ⟨.LM_GGML_F16_VEC_ZERO, .object, .ref .LM_GGML_F32x4_ZERO⟩,
  ⟨.LM_GGML_F16_VEC_SET1, .object, .ref .LM_GGML_F32x4_SET1⟩,
  ⟨.LM_GGML_F16_VEC_FMA, .object, .ref .LM_GGML_F32x4_FMA⟩,
  ⟨.LM_GGML_F16_VEC_ADD, .object, .ref .LM_GGML_F32x4_ADD⟩,
  ⟨.LM_GGML_F16_VEC_MUL, .object, .ref .LM_GGML_F32x4_MUL⟩,
  ⟨.LM_GGML_F16_VEC_REDUCE, .object, .ref .LM_GGML_F32x4_REDUCE⟩,
  ⟨.LM_GGML_F16_VEC_LOAD, .fn 2, .code "" [.LM_GGML_F16_EPR]⟩,
  ⟨.LM_GGML_ENDIAN_BYTE, .fn 1, .code "lm_ggml_endian_byte(i)" []⟩,
  ⟨.LM_GGML_F16_VEC_STORE, .fn 3, .code "" [.LM_GGML_ENDIAN_BYTE, .LM_GGML_F16_EPR]⟩]

/-- Lines 681 to 789: the branch of `__wasm_simd128__`. -/
def WASM_all : List Define := [
  ⟨.LM_GGML_SIMD, .object, .empty⟩,
  ⟨.LM_GGML_F32_STEP, .object, .num 16⟩,
  ⟨.LM_GGML_F32_EPR, .object, .num 4⟩,
  ⟨.LM_GGML_F32x4, .object, .code "v128_t" []⟩,
  ⟨.LM_GGML_F32x4_ZERO, .object, .code "wasm_f32x4_splat(0.0f)" []⟩,
  ⟨.LM_GGML_F32x4_SET1, .fn 1, .code "wasm_f32x4_splat(x)" []⟩,
  ⟨.LM_GGML_F32x4_LOAD, .object, .code "wasm_v128_load" []⟩,
  ⟨.LM_GGML_F32x4_STORE, .object, .code "wasm_v128_store" []⟩,
  ⟨.LM_GGML_F32x4_FMA, .fn 3, .code "wasm_f32x4_add(wasm_f32x4_mul(b, c), a)" []⟩,
  ⟨.LM_GGML_F32x4_ADD, .object, .code "wasm_f32x4_add" []⟩,
  ⟨.LM_GGML_F32x4_MUL, .object, .code "wasm_f32x4_mul" []⟩,
  ⟨.LM_GGML_F32x4_REDUCE, .fn 2, .code "" [.LM_GGML_F32_ARR]⟩,
  ⟨.LM_GGML_F32_VEC, .object, .ref .LM_GGML_F32x4⟩,
  ⟨.LM_GGML_F32_VEC_ZERO, .object, .ref .LM_GGML_F32x4_ZERO⟩,
  ⟨.LM_GGML_F32_VEC_SET1, .object, .ref .LM_GGML_F32x4_SET1⟩,
  ⟨.LM_GGML_F32_VEC_LOAD, .object, .ref .LM_GGML_F32x4_LOAD⟩,
  ⟨.LM_GGML_F32_VEC_STORE, .object, .ref .LM_GGML_F32x4_STORE⟩,
  ⟨.LM_GGML_F32_VEC_FMA, .object, .ref .LM_GGML_F32x4_FMA⟩,
  ⟨.LM_GGML_F32_VEC_ADD, .object, .ref .LM_GGML_F32x4_ADD⟩,
  ⟨.LM_GGML_F32_VEC_MUL, .object, .ref .LM_GGML_F32x4_MUL⟩,
  ⟨.LM_GGML_F32_VEC_REDUCE, .object, .ref .LM_GGML_F32x4_REDUCE⟩,
  ⟨.LM_GGML_F16_STEP, .object, .num 16⟩,
  ⟨.LM_GGML_F16_EPR, .object, .num 4⟩,
  ⟨.LM_GGML_F16x4, .object, .code "v128_t" []⟩,
  ⟨.LM_GGML_F16x4_ZERO, .object, .code "wasm_f32x4_splat(0.0f)" []⟩,
  ⟨.LM_GGML_F16x4_SET1, .fn 1, .code "wasm_f32x4_splat(x)" []⟩,
  ⟨.LM_GGML_F16x4_LOAD, .fn 1, .code "__wasm_f16x4_load(x)" []⟩,
  ⟨.LM_GGML_F16x4_STORE, .fn 2, .code "__wasm_f16x4_store(x, y)" []⟩,
  ⟨.LM_GGML_F16x4_FMA, .object, .ref .LM_GGML_F32x4_FMA⟩,
  ⟨.LM_GGML_F16x4_ADD, .object, .code "wasm_f32x4_add" []⟩,
  ⟨.LM_GGML_F16x4_MUL, .object, .code "wasm_f32x4_mul" []⟩,
  ⟨.LM_GGML_F16x4_REDUCE, .fn 2, .code "" [.LM_GGML_F16_ARR]⟩,
  ⟨.LM_GGML_F16_VEC, .object, .ref .LM_GGML_F16x4⟩,
  ⟨.LM_GGML_F16_VEC_ZERO, .object, .ref .LM_GGML_F16x4_ZERO⟩,
  ⟨.LM_GGML_F16_VEC_SET1, .object, .ref .LM_GGML_F16x4_SET1⟩,
  ⟨.LM_GGML_F16_VEC_LOAD, .fn 2, .code "LM_GGML_F16x4_LOAD(p)" [.LM_GGML_F16x4_LOAD]⟩,
  ⟨.LM_GGML_F16_VEC_STORE, .fn 3, .code "LM_GGML_F16x4_STORE(p, r[i])" [.LM_GGML_F16x4_STORE]⟩,
  ⟨.LM_GGML_F16_VEC_FMA, .object, .ref .LM_GGML_F16x4_FMA⟩,
  ⟨.LM_GGML_F16_VEC_ADD, .object, .ref .LM_GGML_F16x4_ADD⟩,
  ⟨.LM_GGML_F16_VEC_MUL, .object, .ref .LM_GGML_F16x4_MUL⟩,
  ⟨.LM_GGML_F16_VEC_REDUCE, .object, .ref .LM_GGML_F16x4_REDUCE⟩]

/-- Lines 793 to 804: the branch of `__SSE3__`, up to the multiply-add. -/
def SSE3_head : List Define := [
  ⟨.LM_GGML_SIMD, .object, .empty⟩,
  ⟨.LM_GGML_F32_STEP, .object, .num 32⟩,
  ⟨.LM_GGML_F32_EPR, .object, .num 4⟩,
  ⟨.LM_GGML_F32x4, .object, .code "__m128" []⟩,
  ⟨.LM_GGML_F32x4_ZERO, .object, .code "_mm_setzero_ps()" []⟩,
  ⟨.LM_GGML_F32x4_SET1, .fn 1, .code "_mm_set1_ps(x)" []⟩,
  ⟨.LM_GGML_F32x4_LOAD, .object, .code "_mm_loadu_ps" []⟩,
  ⟨.LM_GGML_F32x4_STORE, .object, .code "_mm_storeu_ps" []⟩]

/-- Line 807: `__FMA__` defined. -/
def SSE3_FMA_fused : List Define := [
  ⟨.LM_GGML_F32x4_FMA, .fn 3, .code "_mm_fmadd_ps(b, c, a)" []⟩]

/-- Line 809: `__FMA__` not defined. -/
def SSE3_FMA_unfused : List Define := [
  ⟨.LM_GGML_F32x4_FMA, .fn 3, .code "_mm_add_ps(_mm_mul_ps(b, c), a)" []⟩]

/-- Lines 811 to 887. -/
def SSE3_tail : List Define := [
  ⟨.LM_GGML_F32x4_ADD, .object, .code "_mm_add_ps" []⟩,
  ⟨.LM_GGML_F32x4_MUL, .object, .code "_mm_mul_ps" []⟩,
  ⟨.LM_GGML_F32x4_REDUCE, .fn 2, .code "" [.LM_GGML_F32_ARR]⟩,
  ⟨.LM_GGML_F32_VEC, .object, .ref .LM_GGML_F32x4⟩,
  ⟨.LM_GGML_F32_VEC_ZERO, .object, .ref .LM_GGML_F32x4_ZERO⟩,
  ⟨.LM_GGML_F32_VEC_SET1, .object, .ref .LM_GGML_F32x4_SET1⟩,
  ⟨.LM_GGML_F32_VEC_LOAD, .object, .ref .LM_GGML_F32x4_LOAD⟩,
  ⟨.LM_GGML_F32_VEC_STORE, .object, .ref .LM_GGML_F32x4_STORE⟩,
  ⟨.LM_GGML_F32_VEC_FMA, .object, .ref .LM_GGML_F32x4_FMA⟩,
  ⟨.LM_GGML_F32_VEC_ADD, .object, .ref .LM_GGML_F32x4_ADD⟩,
  ⟨.LM_GGML_F32_VEC_MUL, .object, .ref .LM_GGML_F32x4_MUL⟩,
  ⟨.LM_GGML_F32_VEC_REDUCE, .object, .ref .LM_GGML_F32x4_REDUCE⟩,
  ⟨.LM_GGML_F16_STEP, .object, .num 32⟩,
  ⟨.LM_GGML_F16_EPR, .object, .num 4⟩,
  ⟨.LM_GGML_F32Cx4, .object, .code "__m128" []⟩,
  ⟨.LM_GGML_F32Cx4_ZERO, .object, .code "_mm_setzero_ps()" []⟩,
  ⟨.LM_GGML_F32Cx4_SET1, .fn 1, .code "_mm_set1_ps(x)" []⟩,
  ⟨.LM_GGML_F32Cx4_LOAD, .fn 1, .code "__sse_f16x4_load(x)" []⟩,
  ⟨.LM_GGML_F32Cx4_STORE, .fn 2, .code "__sse_f16x4_store(x, y)" []⟩,
  ⟨.LM_GGML_F32Cx4_FMA, .object, .ref .LM_GGML_F32x4_FMA⟩,
  ⟨.LM_GGML_F32Cx4_ADD, .object, .code "_mm_add_ps" []⟩,
  ⟨.LM_GGML_F32Cx4_MUL, .object, .code "_mm_mul_ps" []⟩,
  ⟨.LM_GGML_F32Cx4_REDUCE, .object, .ref .LM_GGML_F32x4_REDUCE⟩,
  ⟨.LM_GGML_F16_VEC, .object, .ref .LM_GGML_F32Cx4⟩,
  ⟨.LM_GGML_F16_VEC_ZERO, .object, .ref .LM_GGML_F32Cx4_ZERO⟩,
  ⟨.LM_GGML_F16_VEC_SET1, .object, .ref .LM_GGML_F32Cx4_SET1⟩,
  ⟨.LM_GGML_F16_VEC_LOAD, .fn 2, .code "LM_GGML_F32Cx4_LOAD(p)" [.LM_GGML_F32Cx4_LOAD]⟩,
  ⟨.LM_GGML_F16_VEC_STORE, .fn 3, .code "LM_GGML_F32Cx4_STORE(p, r[i])" [.LM_GGML_F32Cx4_STORE]⟩,
  ⟨.LM_GGML_F16_VEC_FMA, .object, .ref .LM_GGML_F32Cx4_FMA⟩,
  ⟨.LM_GGML_F16_VEC_ADD, .object, .ref .LM_GGML_F32Cx4_ADD⟩,
  ⟨.LM_GGML_F16_VEC_MUL, .object, .ref .LM_GGML_F32Cx4_MUL⟩,
  ⟨.LM_GGML_F16_VEC_REDUCE, .object, .ref .LM_GGML_F32Cx4_REDUCE⟩]

/-- Lines 891 to 973: the branch of `__loongarch_asx`. -/
def LASX_all : List Define := [
  ⟨.LM_GGML_SIMD, .object, .empty⟩,
  ⟨.LM_GGML_F32_STEP, .object, .num 32⟩,
  ⟨.LM_GGML_F32_EPR, .object, .num 8⟩,
  ⟨.LM_GGML_F32x8, .object, .code "__m256" []⟩,
  ⟨.LM_GGML_F32x8_ZERO, .object, .code "(__m256)__lasx_xvldi(0)" []⟩,
  ⟨.LM_GGML_F32x8_SET1, .fn 1, .code "(__m256)__lasx_xvreplfr2vr_s((x))" []⟩,
  ⟨.LM_GGML_F32x8_LOAD, .fn 1, .code "(__m256)__lasx_xvld((x), 0)" []⟩,
  ⟨.LM_GGML_F32x8_STORE, .fn 2, .code "__lasx_xvst((y), (x), 0)" []⟩,
  ⟨.LM_GGML_F32x8_FMA, .fn 3, .code "__lasx_xvfmadd_s(b, c, a)" []⟩,
  ⟨.LM_GGML_F32x8_ADD, .object, .code "__lasx_xvfadd_s" []⟩,
  ⟨.LM_GGML_F32x8_MUL, .object, .code "__lasx_xvfmul_s" []⟩,
  ⟨.LM_GGML_F32x8_REDUCE, .fn 2, .code "" [.LM_GGML_F32_ARR]⟩,
  ⟨.LM_GGML_F32_VEC, .object, .ref .LM_GGML_F32x8⟩,
  ⟨.LM_GGML_F32_VEC_ZERO, .object, .ref .LM_GGML_F32x8_ZERO⟩,
  ⟨.LM_GGML_F32_VEC_SET1, .object, .ref .LM_GGML_F32x8_SET1⟩,
  ⟨.LM_GGML_F32_VEC_LOAD, .object, .ref .LM_GGML_F32x8_LOAD⟩,
  ⟨.LM_GGML_F32_VEC_STORE, .object, .ref .LM_GGML_F32x8_STORE⟩,
  ⟨.LM_GGML_F32_VEC_FMA, .object, .ref .LM_GGML_F32x8_FMA⟩,
  ⟨.LM_GGML_F32_VEC_ADD, .object, .ref .LM_GGML_F32x8_ADD⟩,
  ⟨.LM_GGML_F32_VEC_MUL, .object, .ref .LM_GGML_F32x8_MUL⟩,
  ⟨.LM_GGML_F32_VEC_REDUCE, .object, .ref .LM_GGML_F32x8_REDUCE⟩,
  ⟨.LM_GGML_F16_STEP, .object, .num 32⟩,
  ⟨.LM_GGML_F16_EPR, .object, .num 8⟩,
  ⟨.LM_GGML_F32Cx8, .object, .code "__m256" []⟩,
  ⟨.LM_GGML_F32Cx8_ZERO, .object, .code "(__m256)__lasx_xvldi(0)" []⟩,
  ⟨.LM_GGML_F32Cx8_SET1, .fn 1, .code "(__m256)__lasx_xvreplgr2vr_w((x))" []⟩,
  ⟨.LM_GGML_F32Cx8_LOAD, .fn 1, .code "__lasx_f32cx8_load(x)" []⟩,
  ⟨.LM_GGML_F32Cx8_STORE, .fn 2, .code "__lasx_f32cx8_store(x, y)" []⟩,
  ⟨.LM_GGML_F32Cx8_FMA, .object, .ref .LM_GGML_F32x8_FMA⟩,
  ⟨.LM_GGML_F32Cx8_ADD, .object, .code "__lasx_xvfadd_s" []⟩,
  ⟨.LM_GGML_F32Cx8_MUL, .object, .code "__lasx_xvfmul_s" []⟩,
  ⟨.LM_GGML_F32Cx8_REDUCE, .object, .ref .LM_GGML_F32x8_REDUCE⟩,
  ⟨.LM_GGML_F16_VEC, .object, .ref .LM_GGML_F32Cx8⟩,
  ⟨.LM_GGML_F16_VEC_ZERO, .object, .ref .LM_GGML_F32Cx8_ZERO⟩,
  ⟨.LM_GGML_F16_VEC_SET1, .object, .ref .LM_GGML_F32Cx8_SET1⟩,
  ⟨.LM_GGML_F16_VEC_LOAD, .fn 2, .code "LM_GGML_F32Cx8_LOAD(p)" [.LM_GGML_F32Cx8_LOAD]⟩,
  ⟨.LM_GGML_F16_VEC_STORE, .fn 3, .code "LM_GGML_F32Cx8_STORE(p, r[i])" [.LM_GGML_F32Cx8_STORE]⟩,
  ⟨.LM_GGML_F16_VEC_FMA, .object, .ref .LM_GGML_F32Cx8_FMA⟩,
  ⟨.LM_GGML_F16_VEC_ADD, .object, .ref .LM_GGML_F32Cx8_ADD⟩,
  ⟨.LM_GGML_F16_VEC_MUL, .object, .ref .LM_GGML_F32Cx8_MUL⟩,
  ⟨.LM_GGML_F16_VEC_REDUCE, .object, .ref .LM_GGML_F32Cx8_REDUCE⟩]

/-- Lines 977 to 1071: the branch of `__loongarch_sx`. -/
def LSX_all : List Define := [
  ⟨.LM_GGML_SIMD, .object, .empty⟩,
  ⟨.LM_GGML_F32_STEP, .object, .num 32⟩,
  ⟨.LM_GGML_F32_EPR, .object, .num 4⟩,
  ⟨.LM_GGML_F32x4, .object, .code "__m128" []⟩,
  ⟨.LM_GGML_F32x4_ZERO, .object, .code "__lsx_vldi(0)" []⟩,
  ⟨.LM_GGML_F32x4_SET1, .fn 1, .code "__lsx_vinsgr2vr_w(__lsx_vldi(0),(x), 0)" []⟩,
  ⟨.LM_GGML_F32x4_LOAD, .fn 1, .code "__lsx_vld((x), 0)" []⟩,
  ⟨.LM_GGML_F32x4_STORE, .fn 2, .code "__lsx_vst(y, x, 0)" []⟩,
  ⟨.LM_GGML_F32x4_FMA, .fn 3, .code "__lsx_vfmadd_s(b, c, a)" []⟩,
  ⟨.LM_GGML_F32x4_ADD, .object, .code "__lsx_vfadd_s" []⟩,
  ⟨.LM_GGML_F32x4_MUL, .object, .code "__lsx_vfmul_s" []⟩,
  ⟨.LM_GGML_F32x4_REDUCE, .fn 2, .code "" [.LM_GGML_F32_ARR]⟩,
  ⟨.LM_GGML_F32_VEC, .object, .ref .LM_GGML_F32x4⟩,
  ⟨.LM_GGML_F32_VEC_ZERO, .object, .ref .LM_GGML_F32x4_ZERO⟩,
  ⟨.LM_GGML_F32_VEC_SET1, .object, .ref .LM_GGML_F32x4_SET1⟩,
  ⟨.LM_GGML_F32_VEC_LOAD, .object, .ref .LM_GGML_F32x4_LOAD⟩,
  ⟨.LM_GGML_F32_VEC_STORE, .object, .ref .LM_GGML_F32x4_STORE⟩,
  ⟨.LM_GGML_F32_VEC_FMA, .object, .ref .LM_GGML_F32x4_FMA⟩,
  ⟨.LM_GGML_F32_VEC_ADD, .object, .ref .LM_GGML_F32x4_ADD⟩,
  ⟨.LM_GGML_F32_VEC_MUL, .object, .ref .LM_GGML_F32x4_MUL⟩,
  ⟨.LM_GGML_F32_VEC_REDUCE, .object, .ref .LM_GGML_F32x4_REDUCE⟩,
  ⟨.LM_GGML_F16_STEP, .object, .num 32⟩,
  ⟨.LM_GGML_F16_EPR, .object, .num 4⟩,
  ⟨.LM_GGML_F32Cx4, .object, .code "__m128" []⟩,
  ⟨.LM_GGML_F32Cx4_ZERO, .object, .code "__lsx_vldi(0)" []⟩,
  ⟨.LM_GGML_F32Cx4_SET1, .fn 1, .code "__lsx_vinsgr2vr_w(__lsx_vldi(0),(x), 0)" []⟩,
  ⟨.LM_GGML_F32Cx4_LOAD, .fn 1, .code "__lsx_f16x4_load(x)" []⟩,
  ⟨.LM_GGML_F32Cx4_STORE, .fn 2, .code "__lsx_f16x4_store(x, y)" []⟩,
  ⟨.LM_GGML_F32Cx4_FMA, .object, .ref .LM_GGML_F32x4_FMA⟩,
  ⟨.LM_GGML_F32Cx4_ADD, .object, .code "__lsx_vfadd_s" []⟩,
  ⟨.LM_GGML_F32Cx4_MUL, .object, .code "__lsx_vfmul_s" []⟩,
  ⟨.LM_GGML_F32Cx4_REDUCE, .object, .ref .LM_GGML_F32x4_REDUCE⟩,
  ⟨.LM_GGML_F16_VEC, .object, .ref .LM_GGML_F32Cx4⟩,
  ⟨.LM_GGML_F16_VEC_ZERO, .object, .ref .LM_GGML_F32Cx4_ZERO⟩,
  ⟨.LM_GGML_F16_VEC_SET1, .object, .ref .LM_GGML_F32Cx4_SET1⟩,
  ⟨.LM_GGML_F16_VEC_LOAD, .fn 2, .code "LM_GGML_F32Cx4_LOAD(p)" [.LM_GGML_F32Cx4_LOAD]⟩,
  ⟨.LM_GGML_F16_VEC_STORE, .fn 3, .code "LM_GGML_F32Cx4_STORE(p, r[i])" [.LM_GGML_F32Cx4_STORE]⟩,
  ⟨.LM_GGML_F16_VEC_FMA, .object, .ref .LM_GGML_F32Cx4_FMA⟩,
  ⟨.LM_GGML_F16_VEC_ADD, .object, .ref .LM_GGML_F32Cx4_ADD⟩,
  ⟨.LM_GGML_F16_VEC_MUL, .object, .ref .LM_GGML_F32Cx4_MUL⟩,
  ⟨.LM_GGML_F16_VEC_REDUCE, .object, .ref .LM_GGML_F32Cx4_REDUCE⟩]

/-- Lines 1075 to 1171: the branch of `__VXE__ || __VXE2__`. -/
def VXE_all : List Define := [
  ⟨.LM_GGML_SIMD, .object, .empty⟩,
  ⟨.LM_GGML_F32_STEP, .object, .num 32⟩,
  ⟨.LM_GGML_F32_EPR, .object, .num 4⟩,
  ⟨.LM_GGML_F32x4, .object, .code "float32x4_t" []⟩,
  ⟨.LM_GGML_F32x4_ZERO, .object, .code "vec_splats(0.0f)" []⟩,
  ⟨.LM_GGML_F32x4_SET1, .object, .code "vec_splats" []⟩,
  ⟨.LM_GGML_F32x4_LOAD, .fn 1, .code "vec_xl(0, p)" []⟩,
  ⟨.LM_GGML_F32x4_STORE, .fn 2, .code "vec_xst(r, 0, p)" []⟩,
  ⟨.LM_GGML_F32x4_FMA, .fn 3, .code "vec_madd(b, c, a)" []⟩,
  ⟨.LM_GGML_F32x4_ADD, .object, .code "vec_add" []⟩,
  ⟨.LM_GGML_F32x4_MUL, .object, .code "vec_mul" []⟩,
  ⟨.LM_GGML_F32x4_REDUCE, .fn 2, .code "" [.LM_GGML_F32_ARR]⟩,
  ⟨.LM_GGML_F32_VEC, .object, .ref .LM_GGML_F32x4⟩,
  ⟨.LM_GGML_F32_VEC_ZERO, .object, .ref .LM_GGML_F32x4_ZERO⟩,
  ⟨.LM_GGML_F32_VEC_SET1, .object, .ref .LM_GGML_F32x4_SET1⟩,
  ⟨.LM_GGML_F32_VEC_LOAD, .object, .ref .LM_GGML_F32x4_LOAD⟩,
  ⟨.LM_GGML_F32_VEC_STORE, .object, .ref .LM_GGML_F32x4_STORE⟩,
  ⟨.LM_GGML_F32_VEC_FMA, .object, .ref .LM_GGML_F32x4_FMA⟩,
  ⟨.LM_GGML_F32_VEC_ADD, .object, .ref .LM_GGML_F32x4_ADD⟩,
  ⟨.LM_GGML_F32_VEC_MUL, .object, .ref .LM_GGML_F32x4_MUL⟩,
  ⟨.LM_GGML_F32_VEC_REDUCE, .object, .ref .LM_GGML_F32x4_REDUCE⟩,
  ⟨.LM_GGML_F16_STEP, .object, .ref .LM_GGML_F32_STEP⟩,
  ⟨.LM_GGML_F16_EPR, .object, .ref .LM_GGML_F32_EPR⟩,
  ⟨.LM_GGML_F16_VEC, .object, .ref .LM_GGML_F32x4⟩,
  ⟨.LM_GGML_F16_VEC_ZERO, .object, .ref .LM_GGML_F32x4_ZERO⟩,
  ⟨.LM_GGML_F16_VEC_SET1, .object, .ref .LM_GGML_F32x4_SET1⟩,
  ⟨.LM_GGML_F16_VEC_LOAD, .fn 2, .code "__lzs_f16cx4_load(p)" []⟩,
  ⟨.LM_GGML_F16_VEC_STORE, .fn 3, .code "__lzs_f16cx4_store(p, r[i])" []⟩,
  ⟨.LM_GGML_F16_VEC_FMA, .object, .ref .LM_GGML_F32x4_FMA⟩,
  ⟨.LM_GGML_F16_VEC_ADD, .object, .ref .LM_GGML_F32x4_ADD⟩,
  ⟨.LM_GGML_F16_VEC_MUL, .object, .ref .LM_GGML_F32x4_MUL⟩,
  ⟨.LM_GGML_F16_VEC_REDUCE, .object, .ref .LM_GGML_F32x4_REDUCE⟩]

/-- Lines 1178 and 1179, made when `LM_GGML_SIMD` is defined. -/
def ARR_defines : List Define := [
  ⟨.LM_GGML_F32_ARR, .object, .quot .LM_GGML_F32_STEP .LM_GGML_F32_EPR⟩,
  ⟨.LM_GGML_F16_ARR, .object, .quot .LM_GGML_F16_STEP .LM_GGML_F16_EPR⟩]

/-! ## Header model: target features and the backend chain -/

/-- The compiler's target-feature symbols that the header tests, named as in the
source without the surrounding underscores; `true` means the symbol is defined.
`CUDACC_VER_MAJOR` is the value of `__CUDACC_VER_MAJOR__` (0 when undefined, as
the preprocessor reads an undefined name in `#if`). -/
structure Features where
  ARM_FEATURE_SVE : Bool
  ARM_FEATURE_FMA : Bool
  ARM_NEON : Bool
  ARM_FEATURE_FP16_VECTOR_ARITHMETIC : Bool
  AVX512F : Bool
  AVX : Bool
  FMA : Bool
  F16C : Bool
  POWER9_VECTOR : Bool
  wasm_simd128 : Bool
  SSE3 : Bool
  loongarch_asx : Bool
  loongarch_sx : Bool
  VXE : Bool
  VXE2 : Bool
  NNPA : Bool
  riscv : Bool
  riscv_zfhmin : Bool
  CUDACC : Bool
  CUDACC_VER_MAJOR : Nat
  MUSACC : Bool
  MSC_VER : Bool
deriving DecidableEq, Repr

/-- The ten branches of the chain that starts at line 177. -/
inductive Backend
  | SVE
  | NEON
  | AVX512
  | AVX
  | POWER9
  | WASM
  | SSE3
  | LASX
  | LSX
  | VXE
deriving DecidableEq, Repr, Fintype

/-- The `#if / #elif` chain of lines 177, 293, 408, 503, 607, 679, 791, 889, 975 and
1073: the first condition that holds names the branch whose text is kept; `none`
when no condition holds (the chain has no `#else`). -/
def selectBackend (t : Features) : Option Backend :=
  if t.ARM_FEATURE_SVE && t.ARM_FEATURE_FMA then some .SVE
  else if t.ARM_NEON && t.ARM_FEATURE_FMA then some .NEON
  else if t.AVX512F then some .AVX512
  else if t.AVX then some .AVX
  else if t.POWER9_VECTOR then some .POWER9
  else if t.wasm_simd128 then some .WASM
  else if t.SSE3 then some .SSE3
  else if t.loongarch_asx then some .LASX
  else if t.loongarch_sx then some .LSX
  else if t.VXE || t.VXE2 then some .VXE
  else none

/-- The `#define`s a branch makes, in source order.  The nested conditionals inside
the branches test `__ARM_FEATURE_FP16_VECTOR_ARITHMETIC` (lines 225 and 340),
`__FMA__` (lines 517 and 805) and `__F16C__` (line 566). -/
def branchDefines (b : Backend) (fp16va fma f16c : Bool) : List Define :=
  match b with
  | .SVE => SVE_F32 ++ (if fp16va then SVE_F16_native else SVE_F16_widened)
  | .NEON => NEON_F32 ++ (if fp16va then NEON_F16_native else NEON_F16_widened)
  | .AVX512 => AVX512_all
  | .AVX =>
      AVX_head ++ (if fma then AVX_FMA_fused else AVX_FMA_unfused) ++ AVX_mid
        ++ (if f16c then AVX_F16C else AVX_no_F16C) ++ AVX_tail
  | .POWER9 => POWER9_all
  | .WASM => WASM_all
  | .SSE3 => SSE3_head ++ (if fma then SSE3_FMA_fused else SSE3_FMA_unfused) ++ SSE3_tail
  | .LASX => LASX_all
  | .LSX => LSX_all
  | .VXE => VXE_all

/-- The definition in force for a name: the header never defines a name twice on
one path, so the first entry is the only one. -/
def lookup (env : List Define) (n : Name) : Option Define :=
  env.find? (fun d => d.name = n)

/-- Whether `defined(n)` holds; the preprocessor's `#ifdef`. -/
def isDefined (env : List Define) (n : Name) : Bool :=
  (lookup env n).isSome

/-- Lines 1177 to 1180: the two register counts are defined exactly when
`LM_GGML_SIMD` is. -/
def withARR (env : List Define) : List Define :=
  env ++ (if isDefined env .LM_GGML_SIMD then ARR_defines else [])

/-- All `#define`s of the vector part of the header (lines 177 to 1180) for a
branch and a setting of its nested conditionals. -/
def branchEnv (b : Backend) (fp16va fma f16c : Bool) : List Define :=
  withARR (branchDefines b fp16va fma f16c)

/-- All `#define`s of the vector part of the header for a target. -/
def simdEnv (t : Features) : List Define :=
  match selectBackend t with
  | none => withARR []
  | some b => branchEnv b t.ARM_FEATURE_FP16_VECTOR_ARITHMETIC t.FMA t.F16C

/-- The integer a name expands to, when its expansion is an integer expression
made of literals, other such names and the quotient form; `none` when the name or a
name it mentions is undefined, when the divisor is zero, or when the expansion is
not of this form.  `fuel` bounds the depth of nested expansion. -/
def constValue (env : List Define) : Nat → Name → Option Nat
  | 0, _ => none
  | fuel + 1, n =>
    match lookup env n with
    | none => none
    | some d =>
      match d.params, d.body with
      | .object, .num k => some k
      | .object, .ref m => constValue env fuel m
      | .object, .quot a b =>
        match constValue env fuel a, constValue env fuel b with
        | some x, some y => if y = 0 then none else some (x / y)
        | _, _ => none
      | _, _ => none

/-- The number of arguments an invocation `n(...)` must carry: the named
parameters of a function-like definition; for an object-like alias the count of the
name it stands for; for a variadic forwarder the count of its target less the
arguments the forwarder fixes.  `none` when this is not determined by the header
(an undefined name, an alias of an intrinsic). -/
def arity (env : List Define) : Nat → Name → Option Nat
  | 0, _ => none
  | fuel + 1, n =>
    match lookup env n with
    | none => none
    | some d =>
      match d.params, d.body with
      | .fn k, _ => some k
      | .object, .ref m => arity env fuel m
      | .variadic k, .fwd m fixed =>
        match arity env fuel m with
        | some a => if fixed.length ≤ a then some (k + (a - fixed.length)) else none
        | none => none
      | _, _ => none

/-- Whether a name is defined and every name of the header met while expanding it
is defined too, so that its expansion ends in target code.  `false` when `fuel`
runs out. -/
def resolves (env : List Define) : Nat → Name → Bool
  | 0, _ => false
  | fuel + 1, n =>
    match lookup env n with
    | none => false
    | some d => d.body.uses.all (fun m => resolves env fuel m)

/-- Depth bound used for every expansion below; the longest chain in the header
(`LM_GGML_F16_VEC_REDUCE` to `LM_GGML_F32_STEP` on POWER9) has six names. -/
def expansionFuel : Nat := 12

/-- Value of `LM_GGML_F32_STEP` for a target. -/
def LM_GGML_F32_STEP (t : Features) : Option Nat :=
  constValue (simdEnv t) expansionFuel .LM_GGML_F32_STEP

/-- Value of `LM_GGML_F32_EPR` for a target. -/
def LM_GGML_F32_EPR (t : Features) : Option Nat :=
  constValue (simdEnv t) expansionFuel .LM_GGML_F32_EPR

/-- Value of `LM_GGML_F16_STEP` for a target. -/
def LM_GGML_F16_STEP (t : Features) : Option Nat :=
  constValue (simdEnv t) expansionFuel .LM_GGML_F16_STEP

/-- Value of `LM_GGML_F16_EPR` for a target. -/
def LM_GGML_F16_EPR (t : Features) : Option Nat :=
  constValue (simdEnv t) expansionFuel .LM_GGML_F16_EPR

/-- Value of `LM_GGML_F32_ARR` (line 1178) for a target. -/
def LM_GGML_F32_ARR (t : Features) : Option Nat :=
  constValue (simdEnv t) expansionFuel .LM_GGML_F32_ARR

/-- Value of `LM_GGML_F16_ARR` (line 1179) for a target. -/
def LM_GGML_F16_ARR (t : Features) : Option Nat :=
  constValue (simdEnv t) expansionFuel .LM_GGML_F16_ARR

/-! ## Lane model: registers and the intrinsics the header names

A register is the list of its lanes, lane 0 first.  Lane values are rationals and
lane arithmetic is exact.  Each intrinsic below is written from its documented
effect on lanes; the vendor headers that declare them are not part of the
repository. -/

/-- A vector register: its lanes, lane 0 first. -/
abbrev Reg := List ℚ

/-- Lane-wise sum of two registers. -/
def laneAdd (a b : Reg) : Reg := List.zipWith (· + ·) a b

/-- Lane-wise product of two registers. -/
def laneMul (a b : Reg) : Reg := List.zipWith (· * ·) a b

/-- Lane `k` of a register, as C reads `r[k]` of a vector value. -/
def lane (r : Reg) (k : Nat) : ℚ := r.getD k 0

/-- The loop `for (int i = 0; i < offset; ++i) { x[i] = add(x[i], x[offset+i]); }`
that every array-form reduce runs three times; `x` is the register array, updated
in place. -/
def addUpperHalf (add : Reg → Reg → Reg) (offset : Nat) (x : List Reg) : List Reg :=
  (List.range offset).foldl
    (fun x i => x.set i (add (x.getD i []) (x.getD (offset + i) []))) x

/-- The three halving stages shared by the array-form reduces: `offset` starts at
`ARR >> 1` and is shifted right once before the second and the third loop. -/
def halvingStages (add : Reg → Reg → Reg) (ARR : Nat) (x : List Reg) : List Reg :=
  let offset := ARR >>> 1
  let x := addUpperHalf add offset x
  let offset := offset >>> 1
  let x := addUpperHalf add offset x
  let offset := offset >>> 1
  addUpperHalf add offset x

/-! ### ARM NEON -/

/-- `vdupq_n_f32`: four lanes, each the scalar. -/
def vdupq_n_f32 (x : ℚ) : Reg := List.replicate 4 x

/-- `vaddq_f32`. -/
def vaddq_f32 (a b : Reg) : Reg := laneAdd a b

/-- `vmulq_f32`. -/
def vmulq_f32 (a b : Reg) : Reg := laneMul a b

/-- `vfmaq_f32(a, b, c)`: `a + b * c` in every lane. -/
def vfmaq_f32 (a b c : Reg) : Reg := laneAdd a (laneMul b c)

/-- `vaddvq_f32`: the sum across the lanes. -/
def vaddvq_f32 (x : Reg) : ℚ := x.sum

/-- `vaddq_f16`. -/
def vaddq_f16 (a b : Reg) : Reg := laneAdd a b

/-- `vmulq_f16`. -/
def vmulq_f16 (a b : Reg) : Reg := laneMul a b

/-- `vfmaq_f16(a, b, c)`: `a + b * c` in every lane. -/
def vfmaq_f16 (a b c : Reg) : Reg := laneAdd a (laneMul b c)

/-! ### ARM SVE -/

/-- `svptrue_b32()`: the predicate with every 32-bit lane active. -/
def svptrue_b32 : Nat → Bool := fun _ => true

/-- `svdup_n_f32` on a vector of `vl` lanes. -/
def svdup_n_f32 (vl : Nat) (x : ℚ) : Reg := List.replicate vl x

/-- Merging predication (`_m`): an active lane takes the computed value, an
inactive lane keeps the lane of the first operand. -/
def svmerge (pg : Nat → Bool) (computed op1 : Reg) : Reg :=
  (List.range op1.length).map (fun k => if pg k then computed.getD k 0 else op1.getD k 0)

/-- `svadd_f32_m(pg, op1, op2)`. -/
def svadd_f32_m (pg : Nat → Bool) (op1 op2 : Reg) : Reg :=
  svmerge pg (laneAdd op1 op2) op1

/-- `svmul_f32_m(pg, op1, op2)`. -/
def svmul_f32_m (pg : Nat → Bool) (op1 op2 : Reg) : Reg :=
  svmerge pg (laneMul op1 op2) op1

/-- `svmad_f32_m(pg, op1, op2, op3)`: `op1 * op2 + op3` in every active lane. -/
def svmad_f32_m (pg : Nat → Bool) (op1 op2 op3 : Reg) : Reg :=
  svmerge pg (laneAdd (laneMul op1 op2) op3) op1

/-- `svaddv(pg, op)`: the sum of the active lanes. -/
def svaddv (pg : Nat → Bool) (op : Reg) : ℚ :=
  ((List.range op.length).map (fun k => if pg k then op.getD k 0 else 0)).sum

/-! ### x86: AVX512F, AVX, SSE3 -/

/-- `_mm512_set1_ps`: sixteen lanes, each the scalar. -/
def _mm512_set1_ps (x : ℚ) : Reg := List.replicate 16 x

/-- `_mm512_add_ps`. -/
def _mm512_add_ps (a b : Reg) : Reg := laneAdd a b

/-- `_mm512_mul_ps`. -/
def _mm512_mul_ps (a b : Reg) : Reg := laneMul a b

/-- `_mm512_fmadd_ps(a, b, c)`: `a * b + c` in every lane. -/
def _mm512_fmadd_ps (a b c : Reg) : Reg := laneAdd (laneMul a b) c

/-- `_mm512_reduce_add_ps`: the sum across the sixteen lanes. -/
def _mm512_reduce_add_ps (a : Reg) : ℚ := a.sum

/-- `_mm256_set1_ps`: eight lanes, each the scalar. -/
def _mm256_set1_ps (x : ℚ) : Reg := List.replicate 8 x

/-- `_mm256_add_ps`. -/
def _mm256_add_ps (a b : Reg) : Reg := laneAdd a b

/-- `_mm256_mul_ps`. -/
def _mm256_mul_ps (a b : Reg) : Reg := laneMul a b

/-- `_mm256_fmadd_ps(a, b, c)`: `a * b + c` in every lane. -/
def _mm256_fmadd_ps (a b c : Reg) : Reg := laneAdd (laneMul a b) c

/-- `_mm256_castps256_ps128`: the low four lanes. -/
def _mm256_castps256_ps128 (a : Reg) : Reg := a.take 4

/-- `_mm256_extractf128_ps(a, imm)`: the low four lanes for `imm = 0`, the high
four otherwise. -/
def _mm256_extractf128_ps (a : Reg) (imm : Nat) : Reg :=
  if imm % 2 = 0 then a.take 4 else (a.drop 4).take 4

/-- `_mm_set1_ps`: four lanes, each the scalar. -/
def _mm_set1_ps (x : ℚ) : Reg := List.replicate 4 x

/-- `_mm_add_ps`. -/
def _mm_add_ps (a b : Reg) : Reg := laneAdd a b

/-- `_mm_mul_ps`. -/
def _mm_mul_ps (a b : Reg) : Reg := laneMul a b

/-- `_mm_fmadd_ps(a, b, c)`: `a * b + c` in every lane. -/
def _mm_fmadd_ps (a b c : Reg) : Reg := laneAdd (laneMul a b) c

/-- `_mm_hadd_ps(a, b)`: the sums of adjacent pairs, those of `a` in the low two
lanes and those of `b` in the high two. -/
def _mm_hadd_ps (a b : Reg) : Reg :=
  [lane a 0 + lane a 1, lane a 2 + lane a 3, lane b 0 + lane b 1, lane b 2 + lane b 3]

/-- `_mm_cvtss_f32`: lane 0. -/
def _mm_cvtss_f32 (a : Reg) : ℚ := lane a 0

/-! ### POWER9 (AltiVec / VSX) and s390x (z/Architecture vector built-ins) -/

/-- `vec_splats`: four lanes, each the scalar. -/
def vec_splats (x : ℚ) : Reg := List.replicate 4 x

/-- `vec_add`. -/
def vec_add (a b : Reg) : Reg := laneAdd a b

/-- `vec_mul`. -/
def vec_mul (a b : Reg) : Reg := laneMul a b

/-- `vec_madd(a, b, c)`: `a * b + c` in every lane. -/
def vec_madd (a b c : Reg) : Reg := laneAdd (laneMul a b) c

/-- `vec_extract(a, k)`: lane `k`. -/
def vec_extract (a : Reg) (k : Nat) : ℚ := lane a k

/-- `vec_reve`: the lanes in reverse order. -/
def vec_reve (a : Reg) : Reg := a.reverse

/-! ### WebAssembly SIMD128 -/

/-- `wasm_f32x4_splat`: four lanes, each the scalar. -/
def wasm_f32x4_splat (x : ℚ) : Reg := List.replicate 4 x

/-- `wasm_f32x4_add`. -/
def wasm_f32x4_add (a b : Reg) : Reg := laneAdd a b

/-- `wasm_f32x4_mul`. -/
def wasm_f32x4_mul (a b : Reg) : Reg := laneMul a b

/-- `wasm_f32x4_extract_lane(a, k)`: lane `k`. -/
def wasm_f32x4_extract_lane (a : Reg) (k : Nat) : ℚ := lane a k

/-! ### Bit patterns

The LoongArch bindings pass lanes through integer instructions and through
general registers, so the 32-bit pattern of a lane matters there.  A lane is
carried as the value it has when read as a float; `f32_bits` and `f32_of_bits`
give the IEEE-754 binary32 reading in both directions. -/

/-- The binary32 pattern (sign bit, 8-bit biased exponent, 23-bit fraction) of a
value: `0` for zero, the subnormal encoding below `2^-126`, the infinity pattern
above the finite range, and otherwise the normal encoding with the fraction
truncated to 23 bits (exact for every value a float can hold). -/
def f32_bits (q : ℚ) : Nat :=
  if q = 0 then 0
  else
    let s : Nat := if q < 0 then 2 ^ 31 else 0
    let a : ℚ := |q|
    let e : Int := Int.log 2 a
    if e < -126 then s + ⌊a * 2 ^ 149⌋.toNat
    else if 127 < e then s + 255 * 2 ^ 23
    else s + (e + 127).toNat * 2 ^ 23 + (⌊a * (2 : ℚ) ^ (23 - e)⌋.toNat - 2 ^ 23)

/-- The value of a binary32 pattern whose exponent field is not 255: subnormal
for exponent field 0, normal otherwise.  Patterns with exponent field 255 encode
infinities and NaNs, which are no lane values of this model; the finite formula is
continued on them and nothing below evaluates it there. -/
def f32_of_bits (w : Nat) : ℚ :=
  let s : Nat := w / 2 ^ 31 % 2
  let e : Nat := w / 2 ^ 23 % 256
  let m : Nat := w % 2 ^ 23
  let mag : ℚ :=
    if e = 0 then (m : ℚ) / 2 ^ 149
    else ((2 ^ 23 + m : Nat) : ℚ) * (2 : ℚ) ^ ((e : Int) - 150)
  if s = 1 then -mag else mag

/-- The 32-bit two's-complement pattern of a C `int`. -/
def int_bits (n : Int) : Nat := (n % 2 ^ 32).toNat

/-- The C `int` a 32-bit pattern stands for. -/
def int_of_bits (w : Nat) : Int :=
  if w % 2 ^ 32 < 2 ^ 31 then ((w % 2 ^ 32 : Nat) : Int) else ((w % 2 ^ 32 : Nat) : Int) - 2 ^ 32

/-- C conversion of a floating value to `int` (the implicit conversion applied to a
`float` argument passed for an `int` parameter): truncation toward zero. -/
def c_float_to_int (x : ℚ) : Int := if 0 ≤ x then ⌊x⌋ else ⌈x⌉

/-- C conversion of an `int` to `lm_ggml_float`: the same number. -/
def c_int_to_float (n : Int) : ℚ := n

/-! ### Half and single precision as bit patterns

A `lm_ggml_fp16_t` is the 16 bits of an IEEE 754 binary16 value (1 sign bit, 5
exponent bits, 10 fraction bits) and a `float` the 32 bits of a binary32 value
(1, 8, 23); both are natural numbers here, so that infinities and NaN encodings
are values like any other. -/

/-- The position of the highest set bit of `m`, for `0 < m < 2 ^ fuel`. -/
def highestBit : Nat → Nat → Nat
  | 0, _ => 0
  | fuel + 1, m => if m < 2 then 0 else highestBit fuel (m / 2) + 1

/-- The integer nearest to `n / 2 ^ shift`; a value half way between two integers
goes to the larger one when `tiesAway` holds and to the even one otherwise. -/
def roundNearest (tiesAway : Bool) (n shift : Nat) : Nat :=
  let fl := n / 2 ^ shift
  let rem := n % 2 ^ shift
  let half := 2 ^ shift / 2
  if half < rem then fl + 1
  else if rem = half ∧ shift ≠ 0 ∧ (tiesAway = true ∨ fl % 2 = 1) then fl + 1
  else fl

/-- Whether a binary16 pattern encodes a NaN: exponent field 31, fraction not 0. -/
def isNaN16 (h : Nat) : Bool :=
  h / 2 ^ 10 % 32 = 31 ∧ h % 2 ^ 10 ≠ 0

/-- Whether a binary32 pattern encodes a NaN: exponent field 255, fraction not
0. -/
def isNaN32 (w : Nat) : Bool :=
  w / 2 ^ 23 % 256 = 255 ∧ w % 2 ^ 23 ≠ 0

/-- IEEE 754 conversion of a binary16 value to binary32, which is exact: what a
hardware conversion instruction and the C conversion `(float)` of a `__fp16`
compute.  A subnormal half becomes a normal single; an infinity stays an infinity
and a NaN a NaN with its fraction bits kept. -/
def binary16_to_binary32 (h : Nat) : Nat :=
  let s := h / 2 ^ 15 % 2
  let e := h / 2 ^ 10 % 32
  let m := h % 2 ^ 10
  if e = 31 then s * 2 ^ 31 + 255 * 2 ^ 23 + m * 2 ^ 13
  else if e = 0 then
    if m = 0 then s * 2 ^ 31
    else
      let k := highestBit 10 m
      s * 2 ^ 31 + (k + 103) * 2 ^ 23 + (m * 2 ^ (23 - k) - 2 ^ 23)
  else s * 2 ^ 31 + (e + 112) * 2 ^ 23 + m * 2 ^ 13

/-- IEEE 754 conversion of a binary32 value to binary16 with rounding to nearest,
ties to even (the default rounding mode): what a hardware conversion instruction
and the C conversion of a `float` to `__fp16` compute.  A value too large becomes
an infinity, a NaN becomes the quiet NaN with the same sign. -/
def binary32_to_binary16 (w : Nat) : Nat :=
  let s := w / 2 ^ 31 % 2
  let e := w / 2 ^ 23 % 256
  let m := w % 2 ^ 23
  if e = 255 then
    if m = 0 then s * 2 ^ 15 + 31 * 2 ^ 10 else s * 2 ^ 15 + 0x7E00
  else if e = 0 then s * 2 ^ 15
  else if 113 ≤ e then
    let r := (e - 113) * 2 ^ 10 + roundNearest false (2 ^ 23 + m) 13
    if 31 * 2 ^ 10 ≤ r then s * 2 ^ 15 + 31 * 2 ^ 10 else s * 2 ^ 15 + r
  else s * 2 ^ 15 + roundNearest false (2 ^ 23 + m) (126 - e)

/-! ### The half-precision broadcast of ARM NEON -/

/-- C conversion of a `float` to `float16_t` (the implicit conversion applied to a
`float` argument passed for a `float16_t` parameter): the binary16 value nearest to
the argument, ties to even, carried as the value it has. -/
def c_float_to_float16 (x : ℚ) : ℚ :=
  f32_of_bits (binary16_to_binary32 (binary32_to_binary16 (f32_bits x)))

/-- `vdupq_n_f16`: takes a `float16_t`, so the scalar is converted to half precision
first; eight lanes, each that half. -/
def vdupq_n_f16 (x : ℚ) : Reg := List.replicate 8 (c_float_to_float16 x)

/-! ### LoongArch LSX and LASX -/

/-- `__lsx_vldi(0)`, the only immediate the header passes: all 128 bits zero, so
each of the four lanes reads 0.0. -/
def __lsx_vldi_0 : Reg := [0, 0, 0, 0]

/-- `__lsx_vinsgr2vr_w(a, b, idx)`: `a` with the 32-bit lane `idx` replaced by the
bits of the `int` `b`. -/
def __lsx_vinsgr2vr_w (a : Reg) (b : Int) (idx : Nat) : Reg :=
  a.set idx (f32_of_bits (int_bits b))

/-- `__lsx_vfadd_s`. -/
def __lsx_vfadd_s (a b : Reg) : Reg := laneAdd a b

/-- `__lsx_vfmul_s`. -/
def __lsx_vfmul_s (a b : Reg) : Reg := laneMul a b

/-- `__lsx_vfmadd_s(a, b, c)`: `a * b + c` in every lane. -/
def __lsx_vfmadd_s (a b c : Reg) : Reg := laneAdd (laneMul a b) c

/-- `__lsx_vsrli_d(a, 32)`, the only shift count the header passes: each 64-bit
element (lanes `2k` and `2k+1`, the even lane in the low half) is shifted right by
32 bits with zero fill, so the odd lane moves into the even lane and the odd lane
becomes all zero. -/
def __lsx_vsrli_d_32 (a : Reg) : Reg := [lane a 1, 0, lane a 3, 0]

/-- `__lsx_vpickev_w(a, b)`: the even lanes of `b` in the low half, the even lanes
of `a` in the high half. -/
def __lsx_vpickev_w (a b : Reg) : Reg := [lane b 0, lane b 2, lane a 0, lane a 2]

/-- `__lsx_vshuf4i_w(a, imm)`: lane `i` of the result is lane `(imm >> 2i) & 3` of
`a`. -/
def __lsx_vshuf4i_w (a : Reg) (imm : Nat) : Reg :=
  (List.range 4).map (fun i => lane a ((imm >>> (2 * i)) % 4))

/-- `__lsx_vpickve2gr_w(a, idx)`: the 32 bits of lane `idx`, as a signed `int`. -/
def __lsx_vpickve2gr_w (a : Reg) (idx : Nat) : Int := int_of_bits (f32_bits (lane a idx))

/-- `__lasx_xvldi(0)`: all 256 bits zero, so each of the eight lanes reads 0.0. -/
def __lasx_xvldi_0 : Reg := [0, 0, 0, 0, 0, 0, 0, 0]

/-- Modelled from the spec: `__lasx_xvreplfr2vr_s` is a helper of the repository
declared in `ggml-cpu-impl.h`, which is not among the sources; it is the float
broadcast ("broadcast(scalar): every lane = scalar") on eight lanes. -/
def __lasx_xvreplfr2vr_s (val : ℚ) : Reg := List.replicate 8 val

/-- `__lasx_xvreplgr2vr_w(val)`: every 32-bit lane holds the bits of the `int`
`val`. -/
def __lasx_xvreplgr2vr_w (val : Int) : Reg := List.replicate 8 (f32_of_bits (int_bits val))

/-- `__lasx_xvfadd_s`. -/
def __lasx_xvfadd_s (a b : Reg) : Reg := laneAdd a b

/-- `__lasx_xvfmul_s`. -/
def __lasx_xvfmul_s (a b : Reg) : Reg := laneMul a b

/-- `__lasx_xvfmadd_s(a, b, c)`: `a * b + c` in every lane. -/
def __lasx_xvfmadd_s (a b c : Reg) : Reg := laneAdd (laneMul a b) c

/-! ## Lane model: the operations of each branch

Each definition carries the name of the `#define` it embeds and follows its
replacement list.  A reduce is a statement block that assigns to `res` and to
elements of `x`; it returns the pair of `res` and the array as the block leaves
it.  The register count `LM_GGML_F32_ARR` is read when the block is expanded, so
it is a parameter.  The cast `(lm_ggml_float)` of a floating value keeps the
value. -/

namespace SVE

/-- Line 183. -/
def DEFAULT_PG : Nat → Bool := svptrue_b32

/-- Line 187. -/
def LM_GGML_F32xt_SET1 (vl : Nat) (x : ℚ) : Reg := svdup_n_f32 vl x

/-- Lines 192 and 193. -/
def LM_GGML_F32xt_FMA (a b c : Reg) : Reg := svmad_f32_m DEFAULT_PG b c a

/-- Lines 198 and 199. -/
def LM_GGML_F32xt_REDUCE_ONE (a : Reg) : ℚ := svaddv DEFAULT_PG a

/-- Lines 200 to 211: the reduce of this branch takes the result and eight
registers by name, not an array; it returns `res` and the registers it assigned
(`sum1`, `sum3`, `sum5`, `sum7`). -/
def LM_GGML_F32xt_REDUCE (sum1 sum2 sum3 sum4 sum5 sum6 sum7 sum8 : Reg) :
    ℚ × Reg × Reg × Reg × Reg :=
  let sum1 := svadd_f32_m DEFAULT_PG sum1 sum2
  let sum3 := svadd_f32_m DEFAULT_PG sum3 sum4
  let sum5 := svadd_f32_m DEFAULT_PG sum5 sum6
  let sum7 := svadd_f32_m DEFAULT_PG sum7 sum8
  let sum1 := svadd_f32_m DEFAULT_PG sum1 sum3
  let sum5 := svadd_f32_m DEFAULT_PG sum5 sum7
  let sum1 := svadd_f32_m DEFAULT_PG sum1 sum5
  (LM_GGML_F32xt_REDUCE_ONE sum1, sum1, sum3, sum5, sum7)

end SVE

namespace NEON

/-- Line 304. -/
def LM_GGML_F32x4_SET1 (x : ℚ) : Reg := vdupq_n_f32 x

/-- Line 307. -/
def LM_GGML_F32x4_FMA (a b c : Reg) : Reg := vfmaq_f32 a b c

/-- Line 310. -/
def LM_GGML_F32x4_REDUCE_ONE (x : Reg) : ℚ := vaddvq_f32 x

/-- Lines 311 to 326. -/
def LM_GGML_F32x4_REDUCE (F32_ARR : Nat) (x : List Reg) : ℚ × List Reg :=
  let x := halvingStages vaddq_f32 F32_ARR x
  (LM_GGML_F32x4_REDUCE_ONE (x.getD 0 []), x)

/-- Lines 231 and 346 (the same text in the SVE and the NEON branch). -/
def LM_GGML_F16x8_SET1 (x : ℚ) : Reg := vdupq_n_f16 x

/-- Lines 274 and 389 (the same text in the SVE and the NEON branch). -/
def LM_GGML_F32Cx4_SET1 (x : ℚ) : Reg := vdupq_n_f32 x

end NEON

namespace AVX512

/-- Line 419. -/
def LM_GGML_F32x16_SET1 (x : ℚ) : Reg := _mm512_set1_ps x

/-- Line 423. -/
def LM_GGML_F32x16_FMA (a b c : Reg) : Reg := _mm512_fmadd_ps b c a

/-- Lines 426 to 441. -/
def LM_GGML_F32x16_REDUCE (F32_ARR : Nat) (x : List Reg) : ℚ × List Reg :=
  let x := halvingStages _mm512_add_ps F32_ARR x
  (_mm512_reduce_add_ps (x.getD 0 []), x)

/-- Line 466. -/
def LM_GGML_F32Cx16_SET1 (x : ℚ) : Reg := _mm512_set1_ps x

end AVX512

namespace AVX

/-- Line 514. -/
def LM_GGML_F32x8_SET1 (x : ℚ) : Reg := _mm256_set1_ps x

/-- Lines 517 to 521; `fma` says whether `__FMA__` is defined. -/
def LM_GGML_F32x8_FMA (fma : Bool) (a b c : Reg) : Reg :=
  if fma then _mm256_fmadd_ps b c a else _mm256_add_ps (_mm256_mul_ps b c) a

/-- Lines 524 to 542. -/
def LM_GGML_F32x8_REDUCE (F32_ARR : Nat) (x : List Reg) : ℚ × List Reg :=
  let x := halvingStages _mm256_add_ps F32_ARR x
  let t0 := _mm_add_ps (_mm256_castps256_ps128 (x.getD 0 []))
                       (_mm256_extractf128_ps (x.getD 0 []) 1)
  let t1 := _mm_hadd_ps t0 t0
  (_mm_cvtss_f32 (_mm_hadd_ps t1 t1), x)

/-- Line 564. -/
def LM_GGML_F32Cx8_SET1 (x : ℚ) : Reg := _mm256_set1_ps x

end AVX

namespace POWER9

/-- Line 618. -/
def LM_GGML_F32x4_SET1 (x : ℚ) : Reg := vec_splats x

/-- Line 621. -/
def LM_GGML_F32x4_FMA (a b c : Reg) : Reg := vec_madd b c a

/-- Lines 624 to 642. -/
def LM_GGML_F32x4_REDUCE (F32_ARR : Nat) (x : List Reg) : ℚ × List Reg :=
  let x := halvingStages vec_add F32_ARR x
  (vec_extract (x.getD 0 []) 0 +
   vec_extract (x.getD 0 []) 1 +
   vec_extract (x.getD 0 []) 2 +
   vec_extract (x.getD 0 []) 3, x)

end POWER9

namespace WASM

/-- Line 690. -/
def LM_GGML_F32x4_SET1 (x : ℚ) : Reg := wasm_f32x4_splat x

/-- Line 693. -/
def LM_GGML_F32x4_FMA (a b c : Reg) : Reg := wasm_f32x4_add (wasm_f32x4_mul b c) a

/-- Lines 696 to 714. -/
def LM_GGML_F32x4_REDUCE (F32_ARR : Nat) (x : List Reg) : ℚ × List Reg :=
  let x := halvingStages wasm_f32x4_add F32_ARR x
  (wasm_f32x4_extract_lane (x.getD 0 []) 0 +
   wasm_f32x4_extract_lane (x.getD 0 []) 1 +
   wasm_f32x4_extract_lane (x.getD 0 []) 2 +
   wasm_f32x4_extract_lane (x.getD 0 []) 3, x)

/-- Line 755. -/
def LM_GGML_F16x4_SET1 (x : ℚ) : Reg := wasm_f32x4_splat x

end WASM

namespace SSE3

/-- Line 802. -/
def LM_GGML_F32x4_SET1 (x : ℚ) : Reg := _mm_set1_ps x

/-- Lines 805 to 810; `fma` says whether `__FMA__` is defined. -/
def LM_GGML_F32x4_FMA (fma : Bool) (a b c : Reg) : Reg :=
  if fma then _mm_fmadd_ps b c a else _mm_add_ps (_mm_mul_ps b c) a

/-- Lines 813 to 829. -/
def LM_GGML_F32x4_REDUCE (F32_ARR : Nat) (x : List Reg) : ℚ × List Reg :=
  let x := halvingStages _mm_add_ps F32_ARR x
  let t0 := _mm_hadd_ps (x.getD 0 []) (x.getD 0 [])
  (_mm_cvtss_f32 (_mm_hadd_ps t0 t0), x)

/-- Line 871. -/
def LM_GGML_F32Cx4_SET1 (x : ℚ) : Reg := _mm_set1_ps x

end SSE3

namespace LASX

/-- Line 899. -/
def LM_GGML_F32x8_SET1 (x : ℚ) : Reg := __lasx_xvreplfr2vr_s x

/-- Line 902. -/
def LM_GGML_F32x8_FMA (a b c : Reg) : Reg := __lasx_xvfmadd_s b c a

/-- Lines 905 to 921; `tmp_p[k]` reads lane `k` of `x[0]`. -/
def LM_GGML_F32x8_REDUCE (F32_ARR : Nat) (x : List Reg) : ℚ × List Reg :=
  let x := halvingStages __lasx_xvfadd_s F32_ARR x
  let tmp_p := x.getD 0 []
  (lane tmp_p 0 + lane tmp_p 1 + lane tmp_p 2 + lane tmp_p 3 + lane tmp_p 4 + lane tmp_p 5
    + lane tmp_p 6 + lane tmp_p 7, x)

/-- Line 943: the argument `x` is a `float` and the parameter of
`__lasx_xvreplgr2vr_w` an `int`. -/
def LM_GGML_F32Cx8_SET1 (x : ℚ) : Reg := __lasx_xvreplgr2vr_w (c_float_to_int x)

end LASX

namespace LSX

/-- Line 986: the argument `x` is a `float` and the second parameter of
`__lsx_vinsgr2vr_w` an `int`. -/
def LM_GGML_F32x4_SET1 (x : ℚ) : Reg := __lsx_vinsgr2vr_w __lsx_vldi_0 (c_float_to_int x) 0

/-- Line 989. -/
def LM_GGML_F32x4_FMA (a b c : Reg) : Reg := __lsx_vfmadd_s b c a

/-- Lines 992 to 1014. -/
def LM_GGML_F32x4_REDUCE (F32_ARR : Nat) (x : List Reg) : ℚ × List Reg :=
  let x := halvingStages __lsx_vfadd_s F32_ARR x
  let tmp := __lsx_vsrli_d_32 (x.getD 0 [])
  let tmp := __lsx_vfadd_s tmp (x.getD 0 [])
  let tmp := __lsx_vpickev_w __lsx_vldi_0 tmp
  let t0 := __lsx_vshuf4i_w tmp 0x88
  let tmp := __lsx_vsrli_d_32 t0
  let tmp := __lsx_vfadd_s tmp t0
  let tmp := __lsx_vpickev_w __lsx_vldi_0 tmp
  (c_int_to_float (__lsx_vpickve2gr_w (__lsx_vshuf4i_w tmp 0x88) 0), x)

/-- Line 1055. -/
def LM_GGML_F32Cx4_SET1 (x : ℚ) : Reg := __lsx_vinsgr2vr_w __lsx_vldi_0 (c_float_to_int x) 0

end LSX

namespace VXE

/-- Line 1084. -/
def LM_GGML_F32x4_SET1 (x : ℚ) : Reg := vec_splats x

/-- Line 1087. -/
def LM_GGML_F32x4_FMA (a b c : Reg) : Reg := vec_madd b c a

/-- Lines 1090 to 1106; `+` on two vector values is lane-wise. -/
def LM_GGML_F32x4_REDUCE (F32_ARR : Nat) (x : List Reg) : ℚ × List Reg :=
  let x := halvingStages vec_add F32_ARR x
  let tmp := laneAdd (x.getD 0 []) (vec_reve (x.getD 0 []))
  (lane tmp 0 + lane tmp 1, x)

end VXE

/-! ## Lane model: half-precision memory and the scalar-loop conversions

A half-precision array in memory is a map from element addresses to 16-bit
patterns; a pointer is an element address.  The two conversion names
`LM_GGML_CPU_FP16_TO_FP32` and `LM_GGML_CPU_FP32_TO_FP16` are bound in the scalar
part of the header to routines that are not in this file, so the functions below
take them as parameters. -/

/-- An element address. -/
abbrev Addr := Int

/-- Memory holding `lm_ggml_fp16_t` elements: the 16-bit pattern at each address. -/
abbrev HalfMem := Addr → Nat

/-- Unaligned load of `n` consecutive floats from a local `float` array into a
register (`_mm256_loadu_ps`, `_mm_loadu_ps`, `wasm_v128_load`, `__lsx_vld(p, 0)`,
`vec_xl(0, p)`). -/
def loadLanes (n : Nat) (p : List ℚ) : Reg := p.take n

/-- Unaligned store of the `n` lanes of a register over the first `n` elements of a
local `float` array (`_mm256_storeu_ps`, `_mm_storeu_ps`, `wasm_v128_store`,
`__lsx_vst(y, p, 0)`, `vec_xst(y, 0, p)`). -/
def storeLanes (n : Nat) (p : List ℚ) (y : Reg) : List ℚ :=
  (List.range n).foldl (fun p k => p.set k (lane y k)) p

/-- A local array `float tmp[n];` before anything is written to it.  Its content
is indeterminate in C; every element is assigned before it is read. -/
def localArray (n : Nat) : List ℚ := List.replicate n 0

namespace AVX

/-- Lines 571 to 579, compiled when `__F16C__` is not defined. -/
def __avx_f32cx8_load (FP16_TO_FP32 : Nat → ℚ) (mem : HalfMem) (x : Addr) : Reg :=
  let tmp := localArray 8
  let tmp := (List.range 8).foldl (fun tmp (i : Nat) => tmp.set i (FP16_TO_FP32 (mem (x + i)))) tmp
  loadLanes 8 tmp

/-- Lines 580 to 587, compiled when `__F16C__` is not defined. -/
def __avx_f32cx8_store (FP32_TO_FP16 : ℚ → Nat) (mem : HalfMem) (x : Addr) (y : Reg) :
    HalfMem :=
  let arr := localArray 8
  let arr := storeLanes 8 arr y
  (List.range 8).foldl
    (fun mem (i : Nat) => Function.update mem (x + i) (FP32_TO_FP16 (arr.getD i 0))) mem

end AVX

namespace SSE3

/-- Lines 847 to 856. -/
def __sse_f16x4_load (FP16_TO_FP32 : Nat → ℚ) (mem : HalfMem) (x : Addr) : Reg :=
  let tmp := localArray 4
  let tmp := tmp.set 0 (FP16_TO_FP32 (mem (x + 0)))
  let tmp := tmp.set 1 (FP16_TO_FP32 (mem (x + 1)))
  let tmp := tmp.set 2 (FP16_TO_FP32 (mem (x + 2)))
  let tmp := tmp.set 3 (FP16_TO_FP32 (mem (x + 3)))
  loadLanes 4 tmp

/-- Lines 858 to 867. -/
def __sse_f16x4_store (FP32_TO_FP16 : ℚ → Nat) (mem : HalfMem) (x : Addr) (y : Reg) :
    HalfMem :=
  let arr := localArray 4
  let arr := storeLanes 4 arr y
  let mem := Function.update mem (x + 0) (FP32_TO_FP16 (arr.getD 0 0))
  let mem := Function.update mem (x + 1) (FP32_TO_FP16 (arr.getD 1 0))
  let mem := Function.update mem (x + 2) (FP32_TO_FP16 (arr.getD 2 0))
  Function.update mem (x + 3) (FP32_TO_FP16 (arr.getD 3 0))

end SSE3

namespace WASM

/-- Lines 731 to 740. -/
def __wasm_f16x4_load (FP16_TO_FP32 : Nat → ℚ) (mem : HalfMem) (p : Addr) : Reg :=
  let tmp := localArray 4
  let tmp := tmp.set 0 (FP16_TO_FP32 (mem (p + 0)))
  let tmp := tmp.set 1 (FP16_TO_FP32 (mem (p + 1)))
  let tmp := tmp.set 2 (FP16_TO_FP32 (mem (p + 2)))
  let tmp := tmp.set 3 (FP16_TO_FP32 (mem (p + 3)))
  loadLanes 4 tmp

/-- Lines 742 to 751. -/
def __wasm_f16x4_store (FP32_TO_FP16 : ℚ → Nat) (mem : HalfMem) (p : Addr) (x : Reg) :
    HalfMem :=
  let tmp := localArray 4
  let tmp := storeLanes 4 tmp x
  let mem := Function.update mem (p + 0) (FP32_TO_FP16 (tmp.getD 0 0))
  let mem := Function.update mem (p + 1) (FP32_TO_FP16 (tmp.getD 1 0))
  let mem := Function.update mem (p + 2) (FP32_TO_FP16 (tmp.getD 2 0))
  Function.update mem (p + 3) (FP32_TO_FP16 (tmp.getD 3 0))

end WASM

namespace LSX

/-- Lines 1031 to 1040. -/
def __lsx_f16x4_load (FP16_TO_FP32 : Nat → ℚ) (mem : HalfMem) (x : Addr) : Reg :=
  let tmp := localArray 4
  let tmp := tmp.set 0 (FP16_TO_FP32 (mem (x + 0)))
  let tmp := tmp.set 1 (FP16_TO_FP32 (mem (x + 1)))
  let tmp := tmp.set 2 (FP16_TO_FP32 (mem (x + 2)))
  let tmp := tmp.set 3 (FP16_TO_FP32 (mem (x + 3)))
  loadLanes 4 tmp

/-- Lines 1042 to 1051. -/
def __lsx_f16x4_store (FP32_TO_FP16 : ℚ → Nat) (mem : HalfMem) (x : Addr) (y : Reg) :
    HalfMem :=
  let arr := localArray 4
  let arr := storeLanes 4 arr y
  let mem := Function.update mem (x + 0) (FP32_TO_FP16 (arr.getD 0 0))
  let mem := Function.update mem (x + 1) (FP32_TO_FP16 (arr.getD 1 0))
  let mem := Function.update mem (x + 2) (FP32_TO_FP16 (arr.getD 2 0))
  Function.update mem (x + 3) (FP32_TO_FP16 (arr.getD 3 0))

end LSX

namespace VXE

/-- Lines 1122 to 1138, the part compiled when `__NNPA__` is not defined (lines
1128 to 1136). -/
def __lzs_f16cx4_load (FP16_TO_FP32 : Nat → ℚ) (mem : HalfMem) (x : Addr) : Reg :=
  let tmp := localArray 4
  let tmp := (List.range 4).foldl (fun tmp (i : Nat) => tmp.set i (FP16_TO_FP32 (mem (x + i)))) tmp
  loadLanes 4 tmp

/-- Lines 1140 to 1161, the part compiled when `__NNPA__` is not defined (lines
1151 to 1159). -/
def __lzs_f16cx4_store (FP32_TO_FP16 : ℚ → Nat) (mem : HalfMem) (x : Addr) (v_y : Reg) :
    HalfMem :=
  let arr := localArray 4
  let arr := storeLanes 4 arr v_y
  (List.range 4).foldl
    (fun mem (i : Nat) => Function.update mem (x + i) (FP32_TO_FP16 (arr.getD i 0))) mem

end VXE

/-- The five convert-on-load/store kinds that convert element by element in a
scalar loop. -/
inductive ScalarLoopKind
  | avx_f32cx8
  | sse_f16x4
  | wasm_f16x4
  | lsx_f16x4
  | lzs_f16cx4
deriving DecidableEq, Repr, Fintype

/-- The number of elements a kind loads or stores: `LM_GGML_F16_EPR` of its branch
(lines 558, 845, 729, 1029 and 1120). -/
def ScalarLoopKind.EPR : ScalarLoopKind → Nat
  | .avx_f32cx8 => 8
  | .sse_f16x4 => 4
  | .wasm_f16x4 => 4
  | .lsx_f16x4 => 4
  | .lzs_f16cx4 => 4

/-- The load function of a kind. -/
def ScalarLoopKind.load (kind : ScalarLoopKind) (FP16_TO_FP32 : Nat → ℚ) (mem : HalfMem)
    (x : Addr) : Reg :=
  match kind with
  | .avx_f32cx8 => AVX.__avx_f32cx8_load FP16_TO_FP32 mem x
  | .sse_f16x4 => SSE3.__sse_f16x4_load FP16_TO_FP32 mem x
  | .wasm_f16x4 => WASM.__wasm_f16x4_load FP16_TO_FP32 mem x
  | .lsx_f16x4 => LSX.__lsx_f16x4_load FP16_TO_FP32 mem x
  | .lzs_f16cx4 => VXE.__lzs_f16cx4_load FP16_TO_FP32 mem x

/-- The store function of a kind. -/
def ScalarLoopKind.store (kind : ScalarLoopKind) (FP32_TO_FP16 : ℚ → Nat) (mem : HalfMem)
    (x : Addr) (y : Reg) : HalfMem :=
  match kind with
  | .avx_f32cx8 => AVX.__avx_f32cx8_store FP32_TO_FP16 mem x y
  | .sse_f16x4 => SSE3.__sse_f16x4_store FP32_TO_FP16 mem x y
  | .wasm_f16x4 => WASM.__wasm_f16x4_store FP32_TO_FP16 mem x y
  | .lsx_f16x4 => LSX.__lsx_f16x4_store FP32_TO_FP16 mem x y
  | .lzs_f16cx4 => VXE.__lzs_f16cx4_store FP32_TO_FP16 mem x y

/-! ## The façade names, as bound for a target

The façade names are object-like aliases (`#define LM_GGML_F32_VEC_FMA
LM_GGML_F32x8_FMA` and the like); each function below follows the alias its branch
makes and is `none` when the name has no binding of that shape for the target. -/

/-- `LM_GGML_F32_VEC_FMA(a, b, c)` (lines 218, 333, 450, 550, 649, 721, 837, 929,
1021 and 1113). -/
def LM_GGML_F32_VEC_FMA (t : Features) (a b c : Reg) : Option Reg :=
  match selectBackend t with
  | none => none
  | some .SVE => some (SVE.LM_GGML_F32xt_FMA a b c)
  | some .NEON => some (NEON.LM_GGML_F32x4_FMA a b c)
  | some .AVX512 => some (AVX512.LM_GGML_F32x16_FMA a b c)
  | some .AVX => some (AVX.LM_GGML_F32x8_FMA t.FMA a b c)
  | some .POWER9 => some (POWER9.LM_GGML_F32x4_FMA a b c)
  | some .WASM => some (WASM.LM_GGML_F32x4_FMA a b c)
  | some .SSE3 => some (SSE3.LM_GGML_F32x4_FMA t.FMA a b c)
  | some .LASX => some (LASX.LM_GGML_F32x8_FMA a b c)
  | some .LSX => some (LSX.LM_GGML_F32x4_FMA a b c)
  | some .VXE => some (VXE.LM_GGML_F32x4_FMA a b c)

/-- `LM_GGML_F32_VEC_SET1(x)` (lines 215, 330, 447, 547, 646, 718, 834, 926, 1018
and 1110).  `vl` is the number of 32-bit lanes of a scalable vector, used by the
SVE branch only. -/
def LM_GGML_F32_VEC_SET1 (t : Features) (vl : Nat) (x : ℚ) : Option Reg :=
  match selectBackend t with
  | none => none
  | some .SVE => some (SVE.LM_GGML_F32xt_SET1 vl x)
  | some .NEON => some (NEON.LM_GGML_F32x4_SET1 x)
  | some .AVX512 => some (AVX512.LM_GGML_F32x16_SET1 x)
  | some .AVX => some (AVX.LM_GGML_F32x8_SET1 x)
  | some .POWER9 => some (POWER9.LM_GGML_F32x4_SET1 x)
  | some .WASM => some (WASM.LM_GGML_F32x4_SET1 x)
  | some .SSE3 => some (SSE3.LM_GGML_F32x4_SET1 x)
  | some .LASX => some (LASX.LM_GGML_F32x8_SET1 x)
  | some .LSX => some (LSX.LM_GGML_F32x4_SET1 x)
  | some .VXE => some (VXE.LM_GGML_F32x4_SET1 x)

/-- `LM_GGML_F16_VEC_SET1(x)` (lines 258, 284, 373, 399, 495, 599, 659, 783, 881,
967, 1065 and 1165). -/
def LM_GGML_F16_VEC_SET1 (t : Features) (x : ℚ) : Option Reg :=
  match selectBackend t with
  | none => none
  | some .SVE | some .NEON =>
    if t.ARM_FEATURE_FP16_VECTOR_ARITHMETIC then some (NEON.LM_GGML_F16x8_SET1 x)
    else some (NEON.LM_GGML_F32Cx4_SET1 x)
  | some .AVX512 => some (AVX512.LM_GGML_F32Cx16_SET1 x)
  | some .AVX => some (AVX.LM_GGML_F32Cx8_SET1 x)
  | some .POWER9 => some (POWER9.LM_GGML_F32x4_SET1 x)
  | some .WASM => some (WASM.LM_GGML_F16x4_SET1 x)
  | some .SSE3 => some (SSE3.LM_GGML_F32Cx4_SET1 x)
  | some .LASX => some (LASX.LM_GGML_F32Cx8_SET1 x)
  | some .LSX => some (LSX.LM_GGML_F32Cx4_SET1 x)
  | some .VXE => some (VXE.LM_GGML_F32x4_SET1 x)

/-- `LM_GGML_F32_VEC_REDUCE(res, x)` for the branches whose reduce takes the
register array `x` (lines 336, 453, 553, 652, 724, 840, 932, 1024 and 1116): the
value left in `res` and the array as the block leaves it.  The block reads
`LM_GGML_F32_ARR`.  `none` on the SVE branch, whose reduce takes its registers by
name (`SVE.LM_GGML_F32xt_REDUCE`), and when no branch is selected. -/
def LM_GGML_F32_VEC_REDUCE (t : Features) (x : List Reg) : Option (ℚ × List Reg) :=
  match selectBackend t, LM_GGML_F32_ARR t with
  | some .NEON, some arr => some (NEON.LM_GGML_F32x4_REDUCE arr x)
  | some .AVX512, some arr => some (AVX512.LM_GGML_F32x16_REDUCE arr x)
  | some .AVX, some arr => some (AVX.LM_GGML_F32x8_REDUCE arr x)
  | some .POWER9, some arr => some (POWER9.LM_GGML_F32x4_REDUCE arr x)
  | some .WASM, some arr => some (WASM.LM_GGML_F32x4_REDUCE arr x)
  | some .SSE3, some arr => some (SSE3.LM_GGML_F32x4_REDUCE arr x)
  | some .LASX, some arr => some (LASX.LM_GGML_F32x8_REDUCE arr x)
  | some .LSX, some arr => some (LSX.LM_GGML_F32x4_REDUCE arr x)
  | some .VXE, some arr => some (VXE.LM_GGML_F32x4_REDUCE arr x)
  | _, _ => none

/-- The two precisions of the façade. -/
inductive Precision
  | F32
  | F16
deriving DecidableEq, Repr, Fintype

/-- `LM_GGML_F32_STEP` or `LM_GGML_F16_STEP`. -/
def STEP (t : Features) : Precision → Option Nat
  | .F32 => LM_GGML_F32_STEP t
  | .F16 => LM_GGML_F16_STEP t

/-- `LM_GGML_F32_EPR` or `LM_GGML_F16_EPR`. -/
def EPR (t : Features) : Precision → Option Nat
  | .F32 => LM_GGML_F32_EPR t
  | .F16 => LM_GGML_F16_EPR t

/-- `LM_GGML_F32_ARR` or `LM_GGML_F16_ARR`. -/
def ARR (t : Features) : Precision → Option Nat
  | .F32 => LM_GGML_F32_ARR t
  | .F16 => LM_GGML_F16_ARR t

/-- The sixteen façade operation names. -/
def facadeNames : List Name :=
  [.LM_GGML_F32_VEC_ZERO, .LM_GGML_F32_VEC_SET1, .LM_GGML_F32_VEC_LOAD, .LM_GGML_F32_VEC_STORE,
   .LM_GGML_F32_VEC_FMA, .LM_GGML_F32_VEC_ADD, .LM_GGML_F32_VEC_MUL, .LM_GGML_F32_VEC_REDUCE,
   .LM_GGML_F16_VEC_ZERO, .LM_GGML_F16_VEC_SET1, .LM_GGML_F16_VEC_LOAD, .LM_GGML_F16_VEC_STORE,
   .LM_GGML_F16_VEC_FMA, .LM_GGML_F16_VEC_ADD, .LM_GGML_F16_VEC_MUL, .LM_GGML_F16_VEC_REDUCE]

/-! ## Concrete targets used in the examples below -/

/-- A target with no feature symbol defined. -/
def noFeatures : Features :=
  { ARM_FEATURE_SVE := false, ARM_FEATURE_FMA := false, ARM_NEON := false,
    ARM_FEATURE_FP16_VECTOR_ARITHMETIC := false, AVX512F := false, AVX := false, FMA := false,
    F16C := false, POWER9_VECTOR := false, wasm_simd128 := false, SSE3 := false,
    loongarch_asx := false, loongarch_sx := false, VXE := false, VXE2 := false, NNPA := false,
    riscv := false, riscv_zfhmin := false, CUDACC := false, CUDACC_VER_MAJOR := 0,
    MUSACC := false, MSC_VER := false }

/-- An SVE target without half-precision vector arithmetic. -/
def sveTarget : Features :=
  { noFeatures with ARM_FEATURE_SVE := true, ARM_FEATURE_FMA := true, ARM_NEON := true }

/-- An x86 target with AVX512F, AVX, FMA, F16C and SSE3. -/
def avx512Target : Features :=
  { noFeatures with AVX512F := true, AVX := true, FMA := true, F16C := true, SSE3 := true }

/-- An x86 target with AVX and SSE3 and neither FMA nor F16C. -/
def avxTarget : Features :=
  { noFeatures with AVX := true, SSE3 := true }

/-- A LoongArch target with LSX only. -/
def lsxTarget : Features :=
  { noFeatures with loongarch_sx := true }

/-- A LoongArch target with LASX and LSX. -/
def lasxTarget : Features :=
  { noFeatures with loongarch_asx := true, loongarch_sx := true }

/-! ## Concrete inputs used in the examples below -/

/-- Eight registers of four lanes whose only non-zero lane is lane 2 of register 0. -/
def lsxReduceInput : List Reg :=
  [[0, 0, 1, 0], [0, 0, 0, 0], [0, 0, 0, 0], [0, 0, 0, 0],
   [0, 0, 0, 0], [0, 0, 0, 0], [0, 0, 0, 0], [0, 0, 0, 0]]

/-- Eight registers of four lanes whose only non-zero lane is lane 0 of register 0. -/
def lsxReduceInput0 : List Reg :=
  [[1, 0, 0, 0], [0, 0, 0, 0], [0, 0, 0, 0], [0, 0, 0, 0],
   [0, 0, 0, 0], [0, 0, 0, 0], [0, 0, 0, 0], [0, 0, 0, 0]]

/-- A half-to-single conversion given on two patterns, `0x3C00` (1.0) and `0xC000`
(-2.0); every other pattern is read as 0.0.  It stands in for
`LM_GGML_CPU_FP16_TO_FP32` in examples. -/
def exampleToFull (h : Nat) : ℚ :=
  if h = 0x3C00 then 1 else if h = 0xC000 then -2 else 0

/-- A single-to-half conversion given on two values, 1.0 and -2.0; every other
value is written as pattern 0.  It stands in for `LM_GGML_CPU_FP32_TO_FP16` in
examples. -/
def exampleToHalf (q : ℚ) : Nat :=
  if q = 1 then 0x3C00 else if q = -2 then 0xC000 else 0

/-- A half-precision array holding `0x3C00, 0xC000, 0x3C00, 0xC000, ...` from
address 0 on. -/
def exampleHalfMem : HalfMem := fun p => if p % 2 = 0 then 0x3C00 else 0xC000

/-! ## Properties of a target's definitions, as predicates -/

/-- All four constants `LM_GGML_F32_STEP`, `LM_GGML_F32_EPR`, `LM_GGML_F16_STEP` and
`LM_GGML_F16_EPR` are defined for the target, and both register counts
`LM_GGML_F32_ARR` and `LM_GGML_F16_ARR` expand to a number. -/
def stepAndEprDefined (t : Features) : Bool :=
  isDefined (simdEnv t) .LM_GGML_F32_STEP && isDefined (simdEnv t) .LM_GGML_F32_EPR &&
    isDefined (simdEnv t) .LM_GGML_F16_STEP && isDefined (simdEnv t) .LM_GGML_F16_EPR &&
    (LM_GGML_F32_ARR t).isSome && (LM_GGML_F16_ARR t).isSome

/-- Every one of the sixteen façade names is defined for the target and expands,
through the names it mentions, to target code. -/
def facadeResolves (t : Features) : Bool :=
  facadeNames.all (fun n => resolves (simdEnv t) expansionFuel n)

/-- A target on which an SVE predicate, an x86 predicate and others hold at once;
only the order of the chain decides. -/
def everyFeatureTarget : Features :=
  { noFeatures with ARM_FEATURE_SVE := true, ARM_FEATURE_FMA := true, ARM_NEON := true,
                    AVX512F := true, AVX := true, SSE3 := true, POWER9_VECTOR := true }

/-- A NEON target that also reports the three x86 extensions. -/
def neonAndX86Target : Features :=
  { noFeatures with ARM_FEATURE_FMA := true, ARM_NEON := true,
                    AVX512F := true, AVX := true, SSE3 := true }

/-! ## The conditions of the backend chain, one by one -/

/-- The condition that guards each branch of the chain (lines 177, 293, 408, 503,
607, 679, 791, 889, 975 and 1073), taken alone. -/
def backendPredicate (bk : Backend) (t : Features) : Bool :=
  match bk with
  | .SVE => t.ARM_FEATURE_SVE && t.ARM_FEATURE_FMA
  | .NEON => t.ARM_NEON && t.ARM_FEATURE_FMA
  | .AVX512 => t.AVX512F
  | .AVX => t.AVX
  | .POWER9 => t.POWER9_VECTOR
  | .WASM => t.wasm_simd128
  | .SSE3 => t.SSE3
  | .LASX => t.loongarch_asx
  | .LSX => t.loongarch_sx
  | .VXE => t.VXE || t.VXE2

/-- No ARM condition of the chain holds. -/
def noArmPredicate (t : Features) : Bool :=
  !backendPredicate .SVE t && !backendPredicate .NEON t

/-- One of the three x86 conditions holds. -/
def x86Predicate (t : Features) : Bool :=
  backendPredicate .AVX512 t || backendPredicate .AVX t || backendPredicate .SSE3 t

/-- One of the five other conditions (POWER9, WASM, LASX, LSX, s390x) holds. -/
def otherPredicate (t : Features) : Bool :=
  backendPredicate .POWER9 t || backendPredicate .WASM t || backendPredicate .LASX t
    || backendPredicate .LSX t || backendPredicate .VXE t

/-- Whether the selected branch is one of the three x86 branches. -/
def boundToX86 (t : Features) : Bool :=
  selectBackend t = some .AVX512 || selectBackend t = some .AVX || selectBackend t = some .SSE3

/-- A target on which the SSE3 and the POWER9 condition both hold. -/
def sse3Power9Target : Features :=
  { noFeatures with SSE3 := true, POWER9_VECTOR := true }

/-- A target on which the SSE3 and the WASM condition both hold. -/
def sse3WasmTarget : Features :=
  { noFeatures with SSE3 := true, wasm_simd128 := true }

/-- A target on which the SSE3 and the LSX condition both hold. -/
def sse3LsxTarget : Features :=
  { noFeatures with SSE3 := true, loongarch_sx := true }

/-- The names whose absence the header promises when no branch is selected: the
sixteen façade names, the four STEP and EPR constants and the two register
counts. -/
def simdNames : List Name :=
  facadeNames ++ [.LM_GGML_F32_STEP, .LM_GGML_F32_EPR, .LM_GGML_F16_STEP, .LM_GGML_F16_EPR,
    .LM_GGML_F32_ARR, .LM_GGML_F16_ARR]

/-! ## Header model: the scalar conversion names (lines 38 to 163)

The first chain of the header picks a conversion routine for the target and binds
up to four function-like names to it; two guarded definitions after the chain
supply what the chain left undefined. -/

/-- The four names this part of the header defines. -/
inductive ConvName
  | LM_GGML_CPU_COMPUTE_FP16_TO_FP32
  | LM_GGML_CPU_COMPUTE_FP32_TO_FP16
  | LM_GGML_CPU_FP16_TO_FP32
  | LM_GGML_CPU_FP32_TO_FP16
deriving DecidableEq, Repr, Fintype

/-- What the replacement list of a conversion name calls: another conversion name
(`alias`), a routine or intrinsic named as in the source, or the name
`LM_GGML_COMPUTE_FP32_TO_FP16`, which this header uses and does not define. -/
inductive ConvBody
  /-- `n(x)` for another conversion name `n`. -/
  | alias (n : ConvName)
  /-- Line 39. -/
  | neon_compute_fp16_to_fp32
  /-- Line 40. -/
  | neon_compute_fp32_to_fp16
  /-- Line 58: `_mm_cvtss_f32(_mm_cvtph_ps(_mm_cvtsi32_si128(x)))`. -/
  | msvc_mm_cvtph_ps
  /-- Line 59: `_mm_extract_epi16(_mm_cvtps_ph(_mm_set_ss(x), 0), 0)`. -/
  | msvc_mm_cvtps_ph
  /-- Line 61: `_cvtsh_ss(x)`. -/
  | cvtsh_ss
  /-- Line 62: `_cvtss_sh(x, 0)`. -/
  | cvtss_sh
  /-- Line 65. -/
  | power_compute_fp16_to_fp32
  /-- Line 66. -/
  | power_compute_fp32_to_fp16
  /-- Line 118. -/
  | riscv_compute_fp16_to_fp32
  /-- Line 119. -/
  | riscv_compute_fp32_to_fp16
  /-- Line 123. -/
  | nnpa_compute_fp16_to_fp32
  /-- Line 124. -/
  | nnpa_compute_fp32_to_fp16
  /-- Line 158: the table lookup. -/
  | lm_ggml_lookup_fp16_to_fp32
  /-- Line 162: a name defined outside this header. -/
  | LM_GGML_COMPUTE_FP32_TO_FP16
deriving DecidableEq, Repr

/-- One `#define name(x) body(x)` of the scalar part. -/
structure ConvDefine where
  name : ConvName
  body : ConvBody
deriving DecidableEq, Repr

/-- The five branches of the chain that starts at line 38. -/
inductive ConvBranch
  | NEON
  | F16C
  | POWER9
  | RISCV
  | NNPA
deriving DecidableEq, Repr, Fintype

/-- The `#if / #elif` chain of lines 38, 56, 64, 95 and 122; `none` when no
condition holds (the chain has no `#else`). -/
def selectConvBranch (t : Features) : Option ConvBranch :=
  if t.ARM_NEON && !(t.CUDACC && decide (t.CUDACC_VER_MAJOR ≤ 11)) && !t.MUSACC then some .NEON
  else if t.F16C then some .F16C
  else if t.POWER9_VECTOR then some .POWER9
  else if t.riscv && t.riscv_zfhmin then some .RISCV
  else if t.NNPA then some .NNPA
  else none

/-- The `#define`s a branch of the chain makes, in source order; `msc` says
whether `_MSC_VER` is defined (line 57). -/
def convBranchDefines (b : ConvBranch) (msc : Bool) : List ConvDefine :=
  match b with
  | .NEON =>
    [⟨.LM_GGML_CPU_COMPUTE_FP16_TO_FP32, .neon_compute_fp16_to_fp32⟩,
     ⟨.LM_GGML_CPU_COMPUTE_FP32_TO_FP16, .neon_compute_fp32_to_fp16⟩,
     ⟨.LM_GGML_CPU_FP16_TO_FP32, .alias .LM_GGML_CPU_COMPUTE_FP16_TO_FP32⟩]
  | .F16C =>
    if msc then
      [⟨.LM_GGML_CPU_COMPUTE_FP16_TO_FP32, .msvc_mm_cvtph_ps⟩,
       ⟨.LM_GGML_CPU_COMPUTE_FP32_TO_FP16, .msvc_mm_cvtps_ph⟩]
    else
      [⟨.LM_GGML_CPU_COMPUTE_FP16_TO_FP32, .cvtsh_ss⟩,
       ⟨.LM_GGML_CPU_COMPUTE_FP32_TO_FP16, .cvtss_sh⟩]
  | .POWER9 =>
    [⟨.LM_GGML_CPU_COMPUTE_FP16_TO_FP32, .power_compute_fp16_to_fp32⟩,
     ⟨.LM_GGML_CPU_COMPUTE_FP32_TO_FP16, .power_compute_fp32_to_fp16⟩,
     ⟨.LM_GGML_CPU_FP16_TO_FP32, .alias .LM_GGML_CPU_COMPUTE_FP16_TO_FP32⟩,
     ⟨.LM_GGML_CPU_FP32_TO_FP16, .alias .LM_GGML_CPU_COMPUTE_FP32_TO_FP16⟩]
  | .RISCV =>
    [⟨.LM_GGML_CPU_COMPUTE_FP16_TO_FP32, .riscv_compute_fp16_to_fp32⟩,
     ⟨.LM_GGML_CPU_COMPUTE_FP32_TO_FP16, .riscv_compute_fp32_to_fp16⟩,
     ⟨.LM_GGML_CPU_FP16_TO_FP32, .alias .LM_GGML_CPU_COMPUTE_FP16_TO_FP32⟩,
     ⟨.LM_GGML_CPU_FP32_TO_FP16, .alias .LM_GGML_CPU_COMPUTE_FP32_TO_FP16⟩]
  | .NNPA =>
    [⟨.LM_GGML_CPU_COMPUTE_FP16_TO_FP32, .nnpa_compute_fp16_to_fp32⟩,
     ⟨.LM_GGML_CPU_COMPUTE_FP32_TO_FP16, .nnpa_compute_fp32_to_fp16⟩,
     ⟨.LM_GGML_CPU_FP16_TO_FP32, .alias .LM_GGML_CPU_COMPUTE_FP16_TO_FP32⟩,
     ⟨.LM_GGML_CPU_FP32_TO_FP16, .alias .LM_GGML_CPU_COMPUTE_FP32_TO_FP16⟩]

/-- Whether a conversion name has a definition so far; the preprocessor's
`defined(n)`. -/
def convDefined (env : List ConvDefine) (n : ConvName) : Bool :=
  env.any (fun d => d.name = n)

/-- Lines 151 to 159: the table lookup is bound when the chain left
`LM_GGML_CPU_FP16_TO_FP32` undefined. -/
def withLookupFallback (env : List ConvDefine) : List ConvDefine :=
  env ++ (if !convDefined env .LM_GGML_CPU_FP16_TO_FP32 then
    [⟨.LM_GGML_CPU_FP16_TO_FP32, .lm_ggml_lookup_fp16_to_fp32⟩] else [])

/-- Lines 161 to 163: `LM_GGML_COMPUTE_FP32_TO_FP16` is bound when
`LM_GGML_CPU_FP32_TO_FP16` is still undefined. -/
def withComputeFallback (env : List ConvDefine) : List ConvDefine :=
  env ++ (if !convDefined env .LM_GGML_CPU_FP32_TO_FP16 then
    [⟨.LM_GGML_CPU_FP32_TO_FP16, .LM_GGML_COMPUTE_FP32_TO_FP16⟩] else [])

/-- All `#define`s of the scalar part for a selected branch. -/
def convEnvOf (b : Option ConvBranch) (msc : Bool) : List ConvDefine :=
  withComputeFallback (withLookupFallback
    (match b with
     | none => []
     | some b => convBranchDefines b msc))

/-- All `#define`s of the scalar part of the header (lines 38 to 163) for a target,
in source order. -/
def convEnv (t : Features) : List ConvDefine :=
  convEnvOf (selectConvBranch t) t.MSC_VER

/-- How many `#define`s of a name the preprocessor meets. -/
def definitionCount (env : List ConvDefine) (n : ConvName) : Nat :=
  (env.filter (fun d => d.name = n)).length

/-- The routine a conversion name ends at when its aliases are followed; `none`
for an undefined name or when `fuel` runs out. -/
def convResolve (env : List ConvDefine) : Nat → ConvName → Option ConvBody
  | 0, _ => none
  | fuel + 1, n =>
    match env.find? (fun d => d.name = n) with
    | none => none
    | some d =>
      match d.body with
      | .alias m => convResolve env fuel m
      | b => some b

/-- The routine `LM_GGML_CPU_FP16_TO_FP32` is bound to on a target. -/
def boundFP16_TO_FP32 (t : Features) : Option ConvBody :=
  convResolve (convEnv t) 4 .LM_GGML_CPU_FP16_TO_FP32

/-- The routine `LM_GGML_CPU_FP32_TO_FP16` is bound to on a target. -/
def boundFP32_TO_FP16 (t : Features) : Option ConvBody :=
  convResolve (convEnv t) 4 .LM_GGML_CPU_FP32_TO_FP16

/-- One of the hardware conversion strategies is available: the condition of one
of the five branches of the chain holds. -/
def hardwareConversionAvailable (t : Features) : Bool :=
  (t.ARM_NEON && !(t.CUDACC && decide (t.CUDACC_VER_MAJOR ≤ 11)) && !t.MUSACC)
    || t.F16C || t.POWER9_VECTOR || (t.riscv && t.riscv_zfhmin) || t.NNPA

/-- An x86 target with F16C (and AVX). -/
def f16cTarget : Features :=
  { noFeatures with AVX := true, F16C := true }

/-- An ARM target with NEON. -/
def neonTarget : Features :=
  { noFeatures with ARM_NEON := true, ARM_FEATURE_FMA := true }

/-- An ARM target with NEON and half-precision vector arithmetic. -/
def neonFp16Target : Features :=
  { neonTarget with ARM_FEATURE_FP16_VECTOR_ARITHMETIC := true }

/-- An s390x target with VXE and NNPA. -/
def nnpaTarget : Features :=
  { noFeatures with VXE := true, NNPA := true }

/-- A POWER9 target. -/
def power9Target : Features :=
  { noFeatures with POWER9_VECTOR := true }

/-! ## The table lookup (lines 144 to 156) -/

/-- The declared length of `lm_ggml_table_f32_f16` (line 146): `1 << 16`. -/
def lm_ggml_table_f32_f16_length : Nat := 1 <<< 16

/-- Lines 152 to 156.  `f` is the value of the `lm_ggml_fp16_t` argument as 16
bits; `memcpy` copies those bits into the `uint16_t s`; the array read is `none`
when the index is outside the array.  The element type of the table is left
open. -/
def lm_ggml_lookup_fp16_to_fp32 {α : Type} (lm_ggml_table_f32_f16 : List α) (f : Nat) :
    Option α :=
  let s := f % 2 ^ 16
  lm_ggml_table_f32_f16[s]?

/-! ### The conversion routines of the NEON, POWER9 and RISC-V branches -/

/-- Lines 44 to 48: the bits of `h` are read as a `__fp16` and converted to
`float`. -/
def neon_compute_fp16_to_fp32 (h : Nat) : Nat := binary16_to_binary32 h

/-- Lines 50 to 55: `f` is converted to `__fp16`, whose bits are returned. -/
def neon_compute_fp32_to_fp16 (f : Nat) : Nat := binary32_to_binary16 f

/-- Lines 71 to 82: `xscvhpdp` converts the half to double precision and `frsp`
rounds the double to single; both steps are exact on a half-precision value. -/
def power_compute_fp16_to_fp32 (h : Nat) : Nat := binary16_to_binary32 h

/-- Lines 84 to 94: `xscvdphp` rounds the operand to half precision. -/
def power_compute_fp32_to_fp16 (f : Nat) : Nat := binary32_to_binary16 f

/-- Lines 96 to 105: `fcvt.s.h`. -/
def riscv_compute_fp16_to_fp32 (h : Nat) : Nat := binary16_to_binary32 h

/-- Lines 107 to 116: `fcvt.h.s`. -/
def riscv_compute_fp32_to_fp16 (f : Nat) : Nat := binary32_to_binary16 f

/-! ### The NNPA branch (lines 122 to 141)

The NNPA conversion instructions of s390x go through the 16-bit format DLFloat16:
1 sign bit, 6 exponent bits with bias 31 and 9 fraction bits, no subnormal
numbers, and one encoding (all exponent and fraction bits set) for both NaN and
infinity.  A binary16 value has 10 fraction bits, so its conversion to DLFloat16
rounds.  The rounding of a tie is a parameter `tiesAway` of the model. -/

namespace NNPA

/-- One lane of `vec_convert_from_fp16`: binary16 to DLFloat16.  A normal half
keeps its exponent and has its fraction rounded to 9 bits; a subnormal half has at
most 10 significant bits and is converted exactly; infinities and NaNs become the
NaN-infinity encoding. -/
def binary16_to_dlfloat16 (tiesAway : Bool) (h : Nat) : Nat :=
  let s := h / 2 ^ 15 % 2
  let e := h / 2 ^ 10 % 32
  let m := h % 2 ^ 10
  if e = 31 then s * 2 ^ 15 + 0x7FFF
  else if e = 0 then
    if m = 0 then s * 2 ^ 15
    else
      let k := highestBit 10 m
      s * 2 ^ 15 + (k + 7) * 2 ^ 9 + (m * 2 ^ (9 - k) - 2 ^ 9)
  else s * 2 ^ 15 + (e + 15) * 2 ^ 9 + roundNearest tiesAway (2 ^ 10 + m) 1

/-- One lane of `vec_extend_to_fp32_hi`: DLFloat16 to binary32, exact; the
NaN-infinity encoding becomes a NaN. -/
def dlfloat16_to_binary32 (d : Nat) : Nat :=
  let s := d / 2 ^ 15 % 2
  let e := d / 2 ^ 9 % 64
  let f := d % 2 ^ 9
  if e = 63 ∧ f = 511 then s * 2 ^ 31 + 0x7FC00000
  else if e = 0 ∧ f = 0 then s * 2 ^ 31
  else s * 2 ^ 31 + (e + 96) * 2 ^ 23 + f * 2 ^ 14

/-- One lane of `vec_round_from_fp32`: binary32 to DLFloat16, the fraction rounded
to 9 bits; a value below the DLFloat16 range becomes zero, a value above it, an
infinity or a NaN becomes the NaN-infinity encoding. -/
def binary32_to_dlfloat16 (tiesAway : Bool) (w : Nat) : Nat :=
  let s := w / 2 ^ 31 % 2
  let e := w / 2 ^ 23 % 256
  let m := w % 2 ^ 23
  if e = 255 then s * 2 ^ 15 + 0x7FFF
  else if e < 96 then s * 2 ^ 15
  else
    let r := (e - 96) * 2 ^ 9 + roundNearest tiesAway (2 ^ 23 + m) 14 - 2 ^ 9
    if 0x7FFF ≤ r then s * 2 ^ 15 + 0x7FFF else s * 2 ^ 15 + r

/-- One lane of `vec_convert_to_fp16`: DLFloat16 to binary16.  A value in the
normal range of binary16 is converted exactly (its fraction gets a 0 as 10th bit);
a smaller one is rounded to a subnormal, a larger one becomes an infinity and the
NaN-infinity encoding a NaN. -/
def dlfloat16_to_binary16 (tiesAway : Bool) (d : Nat) : Nat :=
  let s := d / 2 ^ 15 % 2
  let e := d / 2 ^ 9 % 64
  let f := d % 2 ^ 9
  if e = 63 ∧ f = 511 then s * 2 ^ 15 + 0x7E00
  else if e = 0 ∧ f = 0 then s * 2 ^ 15
  else if 46 < e then s * 2 ^ 15 + 31 * 2 ^ 10
  else if 17 ≤ e then s * 2 ^ 15 + (e - 16) * 2 ^ 10 + f * 2
  else s * 2 ^ 15 + roundNearest tiesAway (2 ^ 9 + f) (16 - e)

/-- `vec_splats(x)` for a vector of `n` lanes. -/
def vec_splats (n : Nat) (x : Nat) : List Nat := List.replicate n x

/-- `vec_convert_from_fp16(v, 0)`: eight halves to eight DLFloat16. -/
def vec_convert_from_fp16 (tiesAway : Bool) (v : List Nat) : List Nat :=
  v.map (binary16_to_dlfloat16 tiesAway)

/-- `vec_extend_to_fp32_hi(v, 0)`: the first four of eight DLFloat16 to four
singles. -/
def vec_extend_to_fp32_hi (v : List Nat) : List Nat :=
  (v.take 4).map dlfloat16_to_binary32

/-- `vec_round_from_fp32(a, b, 0)`: the four singles of `a`, then the four of `b`,
to eight DLFloat16. -/
def vec_round_from_fp32 (tiesAway : Bool) (a b : List Nat) : List Nat :=
  (a ++ b).map (binary32_to_dlfloat16 tiesAway)

/-- `vec_convert_to_fp16(v, 0)`: eight DLFloat16 to eight halves. -/
def vec_convert_to_fp16 (tiesAway : Bool) (v : List Nat) : List Nat :=
  v.map (dlfloat16_to_binary16 tiesAway)

/-- `vec_extract(v, k)`. -/
def vec_extract (v : List Nat) (k : Nat) : Nat := v.getD k 0

/-- Lines 129 to 133. -/
def nnpa_compute_fp16_to_fp32 (tiesAway : Bool) (h : Nat) : Nat :=
  let v_h := vec_splats 8 h
  let v_hd := vec_convert_from_fp16 tiesAway v_h
  (vec_extend_to_fp32_hi v_hd).getD 0 0

/-- Lines 135 to 141; `0.0f` is the pattern 0. -/
def nnpa_compute_fp32_to_fp16 (tiesAway : Bool) (f : Nat) : Nat :=
  let v_f := vec_splats 4 f
  let v_zero := vec_splats 4 0
  let v_hd := vec_round_from_fp32 tiesAway v_f v_zero
  let v_h := vec_convert_to_fp16 tiesAway v_hd
  vec_extract v_h 0

end NNPA

/-! ### What the header takes from outside -/

/-- Modelled from the spec: the conversion table, a 65536-entry array that maps
every half-precision bit pattern to its single-precision value.  The array is
declared at line 146 and filled by code outside this header; entry `h` is taken to
be the binary32 pattern of the value the binary16 pattern `h` encodes. -/
def lm_ggml_table_f32_f16 : List Nat :=
  (List.range (1 <<< 16)).map binary16_to_binary32

/-- Modelled from the spec: the single-to-half conversion
`LM_GGML_COMPUTE_FP32_TO_FP16`, which line 162 uses and another header defines.
The spec asks for a total conversion to the binary16 layout that gives back every
half-precision value; it is taken to round to nearest, ties to even, and to turn
every NaN into a NaN. -/
def LM_GGML_COMPUTE_FP32_TO_FP16 (f : Nat) : Nat := binary32_to_binary16 f

/-! ### The two conversion names on a target -/

/-- The call `LM_GGML_CPU_FP16_TO_FP32(x)` on target `t`: the routine the name is
bound to, applied to the pattern `x`. -/
def LM_GGML_CPU_FP16_TO_FP32 (t : Features) (tiesAway : Bool) (x : Nat) : Option Nat :=
  match boundFP16_TO_FP32 t with
  | some .neon_compute_fp16_to_fp32 => some (neon_compute_fp16_to_fp32 x)
  | some .power_compute_fp16_to_fp32 => some (power_compute_fp16_to_fp32 x)
  | some .riscv_compute_fp16_to_fp32 => some (riscv_compute_fp16_to_fp32 x)
  | some .nnpa_compute_fp16_to_fp32 => some (NNPA.nnpa_compute_fp16_to_fp32 tiesAway x)
  | some .lm_ggml_lookup_fp16_to_fp32 => lm_ggml_lookup_fp16_to_fp32 lm_ggml_table_f32_f16 x
  | _ => none

/-- The call `LM_GGML_CPU_FP32_TO_FP16(x)` on target `t`. -/
def LM_GGML_CPU_FP32_TO_FP16 (t : Features) (tiesAway : Bool) (x : Nat) : Option Nat :=
  match boundFP32_TO_FP16 t with
  | some .power_compute_fp32_to_fp16 => some (power_compute_fp32_to_fp16 x)
  | some .riscv_compute_fp32_to_fp16 => some (riscv_compute_fp32_to_fp16 x)
  | some .nnpa_compute_fp32_to_fp16 => some (NNPA.nnpa_compute_fp32_to_fp16 tiesAway x)
  | some .LM_GGML_COMPUTE_FP32_TO_FP16 => some (LM_GGML_COMPUTE_FP32_TO_FP16 x)
  | _ => none

/-- Half to single and back on target `t`. -/
def roundTrip (t : Features) (tiesAway : Bool) (h : Nat) : Option Nat :=
  (LM_GGML_CPU_FP16_TO_FP32 t tiesAway h).bind (LM_GGML_CPU_FP32_TO_FP16 t tiesAway)

/-- Every number below `n` passes the test `p`. -/
def allBelow (p : Nat → Bool) : Nat → Bool
  | 0 => true
  | n + 1 => p n && allBelow p n

/-- The round trip through the two IEEE conversions at one pattern: a pattern that
is no NaN comes back, a NaN stays a NaN in both formats. -/
def roundTripOK (h : Nat) : Bool :=
  if isNaN16 h then
    isNaN32 (binary16_to_binary32 h) && isNaN16 (binary32_to_binary16 (binary16_to_binary32 h))
  else binary32_to_binary16 (binary16_to_binary32 h) = h

/-! ## Header model: where an alias ends -/

/-- The `#define` a name stands for when object-like aliases (`#define A B`) are
followed to the first definition that is not one; `none` for an undefined name or
when `fuel` runs out. -/
def aliasLeaf (env : List Define) : Nat → Name → Option Define
  | 0, _ => none
  | fuel + 1, n =>
    match lookup env n with
    | none => none
    | some d =>
      match d.params, d.body with
      | .object, .ref m => aliasLeaf env fuel m
      | _, _ => some d

/-- Two names end, through their aliases, at definitions with the same parameter
list and the same replacement list. -/
def expandsAlike (env : List Define) (a b : Name) : Bool :=
  match aliasLeaf env expansionFuel a, aliasLeaf env expansionFuel b with
  | some da, some db => decide (da.params = db.params ∧ da.body = db.body)
  | _, _ => false

/-! ## Lane model: add, multiply and the half-precision kinds

A register of a half-precision kind is a list of lanes like any other; what the
lanes hold (halves on the kinds with half arithmetic, singles elsewhere) does not
change the exact lane arithmetic. -/

/-- `vget_low_f16(a)`: the lower four of eight lanes. -/
def vget_low_f16 (a : Reg) : Reg := a.take 4

/-- `vget_high_f16(a)`: the upper four of eight lanes. -/
def vget_high_f16 (a : Reg) : Reg := a.drop 4

/-- `vcvt_f32_f16(a)` on the values of four lanes: widening keeps every value. -/
def vcvt_f32_f16 (a : Reg) : Reg := a

namespace SVE

/-- Lines 194 and 195. -/
def LM_GGML_F32xt_ADD (a b : Reg) : Reg := svadd_f32_m DEFAULT_PG a b

/-- Lines 196 and 197. -/
def LM_GGML_F32xt_MUL (a b : Reg) : Reg := svmul_f32_m DEFAULT_PG a b

end SVE

namespace NEON

/-- Line 308. -/
def LM_GGML_F32x4_ADD (a b : Reg) : Reg := vaddq_f32 a b

/-- Line 309. -/
def LM_GGML_F32x4_MUL (a b : Reg) : Reg := vmulq_f32 a b

/-- Lines 234 and 349 (the same text in the SVE and the NEON branch). -/
def LM_GGML_F16x8_FMA (a b c : Reg) : Reg := vfmaq_f16 a b c

/-- Lines 235 and 350. -/
def LM_GGML_F16x8_ADD (a b : Reg) : Reg := vaddq_f16 a b

/-- Lines 236 and 351. -/
def LM_GGML_F16x8_MUL (a b : Reg) : Reg := vmulq_f16 a b

/-- Lines 237 to 254 and 352 to 369. -/
def LM_GGML_F16x8_REDUCE (F16_ARR : Nat) (x : List Reg) : ℚ × List Reg :=
  let x := halvingStages vaddq_f16 F16_ARR x
  let t0 := vcvt_f32_f16 (vget_low_f16 (x.getD 0 []))
  let t1 := vcvt_f32_f16 (vget_high_f16 (x.getD 0 []))
  (vaddvq_f32 (vaddq_f32 t0 t1), x)

/-- Lines 277 and 392. -/
def LM_GGML_F32Cx4_FMA (a b c : Reg) : Reg := vfmaq_f32 a b c

/-- Lines 278 and 393. -/
def LM_GGML_F32Cx4_ADD (a b : Reg) : Reg := vaddq_f32 a b

/-- Lines 279 and 394. -/
def LM_GGML_F32Cx4_MUL (a b : Reg) : Reg := vmulq_f32 a b

/-- Line 395: an alias of `LM_GGML_F32x4_REDUCE` of the NEON branch.  (Line 280 makes
the same alias inside the SVE branch, where `LM_GGML_F32x4_REDUCE` has no
definition.) -/
def LM_GGML_F32Cx4_REDUCE (F32_ARR : Nat) (x : List Reg) : ℚ × List Reg :=
  LM_GGML_F32x4_REDUCE F32_ARR x

end NEON

namespace AVX512

/-- Line 424. -/
def LM_GGML_F32x16_ADD (a b : Reg) : Reg := _mm512_add_ps a b

/-- Line 425. -/
def LM_GGML_F32x16_MUL (a b : Reg) : Reg := _mm512_mul_ps a b

/-- Line 473. -/
def LM_GGML_F32Cx16_FMA (a b c : Reg) : Reg := _mm512_fmadd_ps b c a

/-- Line 474. -/
def LM_GGML_F32Cx16_ADD (a b : Reg) : Reg := _mm512_add_ps a b

/-- Line 475. -/
def LM_GGML_F32Cx16_MUL (a b : Reg) : Reg := _mm512_mul_ps a b

/-- Lines 476 to 491; the block reads `LM_GGML_F32_ARR`. -/
def LM_GGML_F32Cx16_REDUCE (F32_ARR : Nat) (x : List Reg) : ℚ × List Reg :=
  let x := halvingStages _mm512_add_ps F32_ARR x
  (_mm512_reduce_add_ps (x.getD 0 []), x)

end AVX512

namespace AVX

/-- Line 522. -/
def LM_GGML_F32x8_ADD (a b : Reg) : Reg := _mm256_add_ps a b

/-- Line 523. -/
def LM_GGML_F32x8_MUL (a b : Reg) : Reg := _mm256_mul_ps a b

/-- Line 592. -/
def LM_GGML_F32Cx8_FMA (fma : Bool) (a b c : Reg) : Reg := LM_GGML_F32x8_FMA fma a b c

/-- Line 593. -/
def LM_GGML_F32Cx8_ADD (a b : Reg) : Reg := _mm256_add_ps a b

/-- Line 594. -/
def LM_GGML_F32Cx8_MUL (a b : Reg) : Reg := _mm256_mul_ps a b

/-- Line 595. -/
def LM_GGML_F32Cx8_REDUCE (F32_ARR : Nat) (x : List Reg) : ℚ × List Reg :=
  LM_GGML_F32x8_REDUCE F32_ARR x

end AVX

namespace POWER9

/-- Line 622. -/
def LM_GGML_F32x4_ADD (a b : Reg) : Reg := vec_add a b

/-- Line 623. -/
def LM_GGML_F32x4_MUL (a b : Reg) : Reg := vec_mul a b

end POWER9

namespace WASM

/-- Line 694. -/
def LM_GGML_F32x4_ADD (a b : Reg) : Reg := wasm_f32x4_add a b

/-- Line 695. -/
def LM_GGML_F32x4_MUL (a b : Reg) : Reg := wasm_f32x4_mul a b

/-- Line 758. -/
def LM_GGML_F16x4_FMA (a b c : Reg) : Reg := LM_GGML_F32x4_FMA a b c

/-- Line 759. -/
def LM_GGML_F16x4_ADD (a b : Reg) : Reg := wasm_f32x4_add a b

/-- Line 760. -/
def LM_GGML_F16x4_MUL (a b : Reg) : Reg := wasm_f32x4_mul a b

/-- Lines 761 to 779; the block reads `LM_GGML_F16_ARR`. -/
def LM_GGML_F16x4_REDUCE (F16_ARR : Nat) (x : List Reg) : ℚ × List Reg :=
  let x := halvingStages wasm_f32x4_add F16_ARR x
  (wasm_f32x4_extract_lane (x.getD 0 []) 0 +
   wasm_f32x4_extract_lane (x.getD 0 []) 1 +
   wasm_f32x4_extract_lane (x.getD 0 []) 2 +
   wasm_f32x4_extract_lane (x.getD 0 []) 3, x)

end WASM

namespace SSE3

/-- Line 811. -/
def LM_GGML_F32x4_ADD (a b : Reg) : Reg := _mm_add_ps a b

/-- Line 812. -/
def LM_GGML_F32x4_MUL (a b : Reg) : Reg := _mm_mul_ps a b

/-- Line 874. -/
def LM_GGML_F32Cx4_FMA (fma : Bool) (a b c : Reg) : Reg := LM_GGML_F32x4_FMA fma a b c

/-- Line 875. -/
def LM_GGML_F32Cx4_ADD (a b : Reg) : Reg := _mm_add_ps a b

/-- Line 876. -/
def LM_GGML_F32Cx4_MUL (a b : Reg) : Reg := _mm_mul_ps a b

/-- Line 877. -/
def LM_GGML_F32Cx4_REDUCE (F32_ARR : Nat) (x : List Reg) : ℚ × List Reg :=
  LM_GGML_F32x4_REDUCE F32_ARR x

end SSE3

namespace LASX

/-- Line 903. -/
def LM_GGML_F32x8_ADD (a b : Reg) : Reg := __lasx_xvfadd_s a b

/-- Line 904. -/
def LM_GGML_F32x8_MUL (a b : Reg) : Reg := __lasx_xvfmul_s a b

/-- Line 960. -/
def LM_GGML_F32Cx8_FMA (a b c : Reg) : Reg := LM_GGML_F32x8_FMA a b c

/-- Line 961. -/
def LM_GGML_F32Cx8_ADD (a b : Reg) : Reg := __lasx_xvfadd_s a b

/-- Line 962. -/
def LM_GGML_F32Cx8_MUL (a b : Reg) : Reg := __lasx_xvfmul_s a b

/-- Line 963. -/
def LM_GGML_F32Cx8_REDUCE (F32_ARR : Nat) (x : List Reg) : ℚ × List Reg :=
  LM_GGML_F32x8_REDUCE F32_ARR x

end LASX

namespace LSX

/-- Line 990. -/
def LM_GGML_F32x4_ADD (a b : Reg) : Reg := __lsx_vfadd_s a b

/-- Line 991. -/
def LM_GGML_F32x4_MUL (a b : Reg) : Reg := __lsx_vfmul_s a b

/-- Line 1058. -/
def LM_GGML_F32Cx4_FMA (a b c : Reg) : Reg := LM_GGML_F32x4_FMA a b c

/-- Line 1059. -/
def LM_GGML_F32Cx4_ADD (a b : Reg) : Reg := __lsx_vfadd_s a b

/-- Line 1060. -/
def LM_GGML_F32Cx4_MUL (a b : Reg) : Reg := __lsx_vfmul_s a b

/-- Line 1061. -/
def LM_GGML_F32Cx4_REDUCE (F32_ARR : Nat) (x : List Reg) : ℚ × List Reg :=
  LM_GGML_F32x4_REDUCE F32_ARR x

end LSX

namespace VXE

/-- Line 1088. -/
def LM_GGML_F32x4_ADD (a b : Reg) : Reg := vec_add a b

/-- Line 1089. -/
def LM_GGML_F32x4_MUL (a b : Reg) : Reg := vec_mul a b

end VXE

/-- `LM_GGML_F32_VEC_ADD(a, b)` (lines 219, 334, 451, 551, 650, 722, 838, 930, 1022
and 1114). -/
def LM_GGML_F32_VEC_ADD (t : Features) (a b : Reg) : Option Reg :=
  match selectBackend t with
  | none => none
  | some .SVE => some (SVE.LM_GGML_F32xt_ADD a b)
  | some .NEON => some (NEON.LM_GGML_F32x4_ADD a b)
  | some .AVX512 => some (AVX512.LM_GGML_F32x16_ADD a b)
  | some .AVX => some (AVX.LM_GGML_F32x8_ADD a b)
  | some .POWER9 => some (POWER9.LM_GGML_F32x4_ADD a b)
  | some .WASM => some (WASM.LM_GGML_F32x4_ADD a b)
  | some .SSE3 => some (SSE3.LM_GGML_F32x4_ADD a b)
  | some .LASX => some (LASX.LM_GGML_F32x8_ADD a b)
  | some .LSX => some (LSX.LM_GGML_F32x4_ADD a b)
  | some .VXE => some (VXE.LM_GGML_F32x4_ADD a b)

/-- `LM_GGML_F32_VEC_MUL(a, b)` (lines 220, 335, 452, 552, 651, 723, 839, 931, 1023
and 1115). -/
def LM_GGML_F32_VEC_MUL (t : Features) (a b : Reg) : Option Reg :=
  match selectBackend t with
  | none => none
  | some .SVE => some (SVE.LM_GGML_F32xt_MUL a b)
  | some .NEON => some (NEON.LM_GGML_F32x4_MUL a b)
  | some .AVX512 => some (AVX512.LM_GGML_F32x16_MUL a b)
  | some .AVX => some (AVX.LM_GGML_F32x8_MUL a b)
  | some .POWER9 => some (POWER9.LM_GGML_F32x4_MUL a b)
  | some .WASM => some (WASM.LM_GGML_F32x4_MUL a b)
  | some .SSE3 => some (SSE3.LM_GGML_F32x4_MUL a b)
  | some .LASX => some (LASX.LM_GGML_F32x8_MUL a b)
  | some .LSX => some (LSX.LM_GGML_F32x4_MUL a b)
  | some .VXE => some (VXE.LM_GGML_F32x4_MUL a b)

/-- `LM_GGML_F16_VEC_ADD(a, b)` (lines 262, 288, 377, 403, 499, 603, 661, 787, 885,
971, 1069 and 1169). -/
def LM_GGML_F16_VEC_ADD (t : Features) (a b : Reg) : Option Reg :=
  match selectBackend t with
  | none => none
  | some .SVE | some .NEON =>
    if t.ARM_FEATURE_FP16_VECTOR_ARITHMETIC then some (NEON.LM_GGML_F16x8_ADD a b)
    else some (NEON.LM_GGML_F32Cx4_ADD a b)
  | some .AVX512 => some (AVX512.LM_GGML_F32Cx16_ADD a b)
  | some .AVX => some (AVX.LM_GGML_F32Cx8_ADD a b)
  | some .POWER9 => some (POWER9.LM_GGML_F32x4_ADD a b)
  | some .WASM => some (WASM.LM_GGML_F16x4_ADD a b)
  | some .SSE3 => some (SSE3.LM_GGML_F32Cx4_ADD a b)
  | some .LASX => some (LASX.LM_GGML_F32Cx8_ADD a b)
  | some .LSX => some (LSX.LM_GGML_F32Cx4_ADD a b)
  | some .VXE => some (VXE.LM_GGML_F32x4_ADD a b)

/-- `LM_GGML_F16_VEC_MUL(a, b)` (lines 263, 289, 378, 404, 500, 604, 662, 788, 886,
972, 1070 and 1170). -/
def LM_GGML_F16_VEC_MUL (t : Features) (a b : Reg) : Option Reg :=
  match selectBackend t with
  | none => none
  | some .SVE | some .NEON =>
    if t.ARM_FEATURE_FP16_VECTOR_ARITHMETIC then some (NEON.LM_GGML_F16x8_MUL a b)
    else some (NEON.LM_GGML_F32Cx4_MUL a b)
  | some .AVX512 => some (AVX512.LM_GGML_F32Cx16_MUL a b)
  | some .AVX => some (AVX.LM_GGML_F32Cx8_MUL a b)
  | some .POWER9 => some (POWER9.LM_GGML_F32x4_MUL a b)
  | some .WASM => some (WASM.LM_GGML_F16x4_MUL a b)
  | some .SSE3 => some (SSE3.LM_GGML_F32Cx4_MUL a b)
  | some .LASX => some (LASX.LM_GGML_F32Cx8_MUL a b)
  | some .LSX => some (LSX.LM_GGML_F32Cx4_MUL a b)
  | some .VXE => some (VXE.LM_GGML_F32x4_MUL a b)

/-- `LM_GGML_F16_VEC_FMA(a, b, c)` (lines 261, 287, 376, 402, 498, 602, 660, 786,
884, 970, 1068 and 1168). -/
def LM_GGML_F16_VEC_FMA (t : Features) (a b c : Reg) : Option Reg :=
  match selectBackend t with
  | none => none
  | some .SVE | some .NEON =>
    if t.ARM_FEATURE_FP16_VECTOR_ARITHMETIC then some (NEON.LM_GGML_F16x8_FMA a b c)
    else some (NEON.LM_GGML_F32Cx4_FMA a b c)
  | some .AVX512 => some (AVX512.LM_GGML_F32Cx16_FMA a b c)
  | some .AVX => some (AVX.LM_GGML_F32Cx8_FMA t.FMA a b c)
  | some .POWER9 => some (POWER9.LM_GGML_F32x4_FMA a b c)
  | some .WASM => some (WASM.LM_GGML_F16x4_FMA a b c)
  | some .SSE3 => some (SSE3.LM_GGML_F32Cx4_FMA t.FMA a b c)
  | some .LASX => some (LASX.LM_GGML_F32Cx8_FMA a b c)
  | some .LSX => some (LSX.LM_GGML_F32Cx4_FMA a b c)
  | some .VXE => some (VXE.LM_GGML_F32x4_FMA a b c)

/-- `LM_GGML_F16_VEC_REDUCE(res, x)` (lines 264, 290, 379, 405, 502, 605, 663, 789,
887, 973, 1071 and 1171): the value left in `res` and the array as the block leaves
it.  Each block reads the register count its text names.  `none` when no branch is
selected and on the SVE branch without half-precision vector arithmetic, where the
alias of line 280 ends at the undefined `LM_GGML_F32x4_REDUCE`. -/
def LM_GGML_F16_VEC_REDUCE (t : Features) (x : List Reg) : Option (ℚ × List Reg) :=
  match selectBackend t with
  | none => none
  | some .SVE =>
    if t.ARM_FEATURE_FP16_VECTOR_ARITHMETIC then
      (LM_GGML_F16_ARR t).map (fun arr => NEON.LM_GGML_F16x8_REDUCE arr x)
    else none
  | some .NEON =>
    if t.ARM_FEATURE_FP16_VECTOR_ARITHMETIC then
      (LM_GGML_F16_ARR t).map (fun arr => NEON.LM_GGML_F16x8_REDUCE arr x)
    else (LM_GGML_F32_ARR t).map (fun arr => NEON.LM_GGML_F32Cx4_REDUCE arr x)
  | some .AVX512 => (LM_GGML_F32_ARR t).map (fun arr => AVX512.LM_GGML_F32Cx16_REDUCE arr x)
  | some .AVX => (LM_GGML_F32_ARR t).map (fun arr => AVX.LM_GGML_F32Cx8_REDUCE arr x)
  | some .POWER9 => (LM_GGML_F32_ARR t).map (fun arr => POWER9.LM_GGML_F32x4_REDUCE arr x)
  | some .WASM => (LM_GGML_F16_ARR t).map (fun arr => WASM.LM_GGML_F16x4_REDUCE arr x)
  | some .SSE3 => (LM_GGML_F32_ARR t).map (fun arr => SSE3.LM_GGML_F32Cx4_REDUCE arr x)
  | some .LASX => (LM_GGML_F32_ARR t).map (fun arr => LASX.LM_GGML_F32Cx8_REDUCE arr x)
  | some .LSX => (LM_GGML_F32_ARR t).map (fun arr => LSX.LM_GGML_F32Cx4_REDUCE arr x)
  | some .VXE => (LM_GGML_F32_ARR t).map (fun arr => VXE.LM_GGML_F32x4_REDUCE arr x)

/-- A WASM target. -/
def wasmTarget : Features :=
  { noFeatures with wasm_simd128 := true }

/-! ## Loads and stores of the two precisions

What the loads and stores do with element values is fixed by conversions that lie
outside this header (the two conversion names of the scalar part) or inside the
machine (the widening and narrowing instructions, the POWER9 pack and extract
built-ins); they are collected in one record and taken as given. -/

/-- The conversions a load or store applies to an element. -/
structure Conversions where
  /-- The name `LM_GGML_CPU_FP16_TO_FP32` on a half-precision pattern. -/
  FP16_TO_FP32 : Nat → ℚ
  /-- The name `LM_GGML_CPU_FP32_TO_FP16` on a single-precision value. -/
  FP32_TO_FP16 : ℚ → Nat
  /-- The value of a half-precision pattern, which the widening instructions
  (`vcvt_f32_f16`, `_mm512_cvtph_ps`, `_mm256_cvtph_ps`, `__lasx_xvfcvtl_s_h`) return
  exactly. -/
  half_value : Nat → ℚ
  /-- The half-precision value the narrowing instructions (`vcvt_f16_f32`,
  `_mm512_cvtps_ph`, `_mm256_cvtps_ph`, `__lasx_xvfcvt_h_s`) round a value to. -/
  round_to_half : ℚ → ℚ
  /-- The pattern of a half-precision value. -/
  half_bits : ℚ → Nat
  /-- `vec_extract_fp32_from_shorth` on the eight halves of a vector, in memory
  order. -/
  vec_extract_fp32_from_shorth : List Nat → Reg
  /-- `vec_extract_fp32_from_shortl` on the eight halves of a vector, in memory
  order. -/
  vec_extract_fp32_from_shortl : List Nat → Reg
  /-- `vec_pack_to_short_fp32(a, b)`: eight halves, in the order `vec_xst` writes
  them. -/
  vec_pack_to_short_fp32 : Reg → Reg → List Nat
  /-- Whether the first byte of a `uint16_t` is its low byte. -/
  littleEndian : Bool
  /-- How the NNPA conversions round a tie. -/
  tiesAway : Bool

/-- Memory as the caller hands it over: `some v` at an element the caller has made
valid, `none` at every other address.  Reading an address that is not valid has no
defined result. -/
abbrev CheckedMem (α : Type) := Addr → Option α

/-- A read of the `n` consecutive elements from `p` on: their values, or `none` when
one of them is not valid. -/
def readElems {α : Type} (mem : CheckedMem α) (p : Addr) : Nat → Option (List α)
  | 0 => some []
  | n + 1 =>
    match mem p, readElems mem (p + 1) n with
    | some v, some vs => some (v :: vs)
    | _, _ => none

/-- A predicated read of `n` lanes, lane numbers from `k` on: lane `j` reads the
element at `base + j` when the predicate holds at `j`, and is 0 without a read
otherwise. -/
def readActive (pg : Nat → Bool) (mem : CheckedMem ℚ) (base : Addr) : Nat → Nat → Option Reg
  | _, 0 => some []
  | k, n + 1 =>
    match (if pg k then mem (base + k) else some 0), readActive pg mem base (k + 1) n with
    | some v, some vs => some (v :: vs)
    | _, _ => none

/-- A write of `n` consecutive elements from `p` on: element `k` receives
`vals[k]`; every other address keeps what it holds. -/
def writeElems (n : Nat) (mem : HalfMem) (p : Addr) (vals : List Nat) : HalfMem :=
  fun a => if p ≤ a ∧ a < p + n then vals.getD (a - p).toNat 0 else mem a

namespace Checked

/-! ### Load intrinsics on memory with validity -/

/-- `svld1_f32(pg, base)` on a machine whose vectors hold `vl` singles. -/
def svld1_f32 (vl : Nat) (pg : Nat → Bool) (mem : CheckedMem ℚ) (base : Addr) : Option Reg :=
  readActive pg mem base 0 vl

/-- `vld1q_f32(p)`: four singles. -/
def vld1q_f32 (mem : CheckedMem ℚ) (p : Addr) : Option Reg := readElems mem p 4

/-- `_mm512_loadu_ps(p)`: sixteen singles. -/
def _mm512_loadu_ps (mem : CheckedMem ℚ) (p : Addr) : Option Reg := readElems mem p 16

/-- `_mm256_loadu_ps(p)`: eight singles. -/
def _mm256_loadu_ps (mem : CheckedMem ℚ) (p : Addr) : Option Reg := readElems mem p 8

/-- `_mm_loadu_ps(p)`: four singles. -/
def _mm_loadu_ps (mem : CheckedMem ℚ) (p : Addr) : Option Reg := readElems mem p 4

/-- `wasm_v128_load(p)` at a `float` pointer: 16 bytes, four singles. -/
def wasm_v128_load (mem : CheckedMem ℚ) (p : Addr) : Option Reg := readElems mem p 4

/-- `vec_xl(0, p)`: 16 bytes from `p` on, which are `n = 4` singles at a `float`
pointer and `n = 8` halves at a `lm_ggml_fp16_t` pointer. -/
def vec_xl {α : Type} (n : Nat) (mem : CheckedMem α) (p : Addr) : Option (List α) :=
  readElems mem p n

/-- `__lasx_xvld(p, 0)` at a `float` pointer: 32 bytes, eight singles. -/
def __lasx_xvld (mem : CheckedMem ℚ) (p : Addr) : Option Reg := readElems mem p 8

/-- `__lsx_vld(p, 0)` at a `float` pointer: 16 bytes, four singles. -/
def __lsx_vld (mem : CheckedMem ℚ) (p : Addr) : Option Reg := readElems mem p 4

/-- `vld1q_f16(p)`: eight halves, a register of half-precision values. -/
def vld1q_f16 (c : Conversions) (mem : CheckedMem Nat) (p : Addr) : Option Reg :=
  (readElems mem p 8).map (List.map c.half_value)

/-- `vld1_f16(p)`: four halves, a register of half-precision values. -/
def vld1_f16 (c : Conversions) (mem : CheckedMem Nat) (p : Addr) : Option Reg :=
  (readElems mem p 4).map (List.map c.half_value)

/-- `_mm256_loadu_si256(p)` at a half-precision pointer: 32 bytes, sixteen
patterns. -/
def _mm256_loadu_si256 (mem : CheckedMem Nat) (p : Addr) : Option (List Nat) :=
  readElems mem p 16

/-- `_mm_loadu_si128(p)` at a half-precision pointer: 16 bytes, eight patterns. -/
def _mm_loadu_si128 (mem : CheckedMem Nat) (p : Addr) : Option (List Nat) :=
  readElems mem p 8

/-- `_mm512_cvtph_ps(a)` and `_mm256_cvtph_ps(a)`: every pattern widened. -/
def _mm_cvtph_ps (c : Conversions) (a : List Nat) : Reg := a.map c.half_value

/-- `__lasx_xvpermi_d(a, imm)` on the four 64-bit elements of a 256-bit vector:
element `k` of the result is the element of `a` that bits `2k` and `2k+1` of `imm`
select. -/
def __lasx_xvpermi_d {α : Type} (a : List (List α)) (imm : Nat) : List (List α) :=
  [a.getD (imm % 4) [], a.getD (imm / 4 % 4) [], a.getD (imm / 16 % 4) [],
   a.getD (imm / 64 % 4) []]

/-- `__lasx_xvfcvtl_s_h(a)`: the lower four halves of each 128-bit half of `a`
(64-bit elements 0 and 2), widened. -/
def __lasx_xvfcvtl_s_h (c : Conversions) (a : List (List Nat)) : Reg :=
  (a.getD 0 [] ++ a.getD 2 []).map c.half_value

/-! ### The half-precision loads, branch by branch -/

/-- Lines 232 and 347: `vld1q_f16((const __fp16 *)(x))`. -/
def LM_GGML_F16x8_LOAD (c : Conversions) (mem : CheckedMem Nat) (x : Addr) : Option Reg :=
  vld1q_f16 c mem x

/-- Lines 275 and 390: `vcvt_f32_f16(vld1_f16((const __fp16 *)(x)))`. -/
def LM_GGML_F32Cx4_LOAD (c : Conversions) (mem : CheckedMem Nat) (x : Addr) : Option Reg :=
  (vld1_f16 c mem x).map vcvt_f32_f16

/-- Line 470: `_mm512_cvtph_ps(_mm256_loadu_si256((const __m256i *)(x)))`. -/
def LM_GGML_F32Cx16_LOAD (c : Conversions) (mem : CheckedMem Nat) (x : Addr) : Option Reg :=
  (_mm256_loadu_si256 mem x).map (_mm_cvtph_ps c)

/-- Lines 571 to 579: the loop reads `x[0]` to `x[7]` in this order and converts
each with `LM_GGML_CPU_FP16_TO_FP32`. -/
def __avx_f32cx8_load (c : Conversions) (mem : CheckedMem Nat) (x : Addr) : Option Reg :=
  (readElems mem x 8).map (fun h => loadLanes 8 (h.map c.FP16_TO_FP32))

/-- Line 568 when `__F16C__` is defined, else line 588. -/
def LM_GGML_F32Cx8_LOAD (f16c : Bool) (c : Conversions) (mem : CheckedMem Nat) (x : Addr) :
    Option Reg :=
  if f16c then (_mm_loadu_si128 mem x).map (_mm_cvtph_ps c) else __avx_f32cx8_load c mem x

/-- Lines 665 to 667 of the POWER9 branch: `(i & 0x1) ?
vec_extract_fp32_from_shorth(vec_xl(0, p - LM_GGML_F16_EPR)) :
vec_extract_fp32_from_shortl(vec_xl(0, p))`. -/
def POWER9_F16_VEC_LOAD (F16_EPR : Nat) (c : Conversions) (mem : CheckedMem Nat) (p : Addr)
    (i : Nat) : Option Reg :=
  if i % 2 = 1 then (vec_xl 8 mem (p - F16_EPR)).map c.vec_extract_fp32_from_shorth
  else (vec_xl 8 mem p).map c.vec_extract_fp32_from_shortl

/-- Lines 731 to 740: reads `p[0]` to `p[3]`. -/
def __wasm_f16x4_load (c : Conversions) (mem : CheckedMem Nat) (p : Addr) : Option Reg :=
  (readElems mem p 4).map (fun h => loadLanes 4 (h.map c.FP16_TO_FP32))

/-- Lines 847 to 856: reads `x[0]` to `x[3]`. -/
def __sse_f16x4_load (c : Conversions) (mem : CheckedMem Nat) (x : Addr) : Option Reg :=
  (readElems mem x 4).map (fun h => loadLanes 4 (h.map c.FP16_TO_FP32))

/-- Lines 945 to 950: `memcpy` fills the lower 16 bytes of `a` with eight halves
(64-bit elements 0 and 1; elements 2 and 3 are not written, and the permutation
with `0 | (1 << 4)` selects neither). -/
def __lasx_f32cx8_load (c : Conversions) (mem : CheckedMem Nat) (x : Addr) : Option Reg :=
  (readElems mem x 8).map (fun h =>
    let a := [h.take 4, h.drop 4, [], []]
    let a := __lasx_xvpermi_d a (0 ||| (1 <<< 4))
    __lasx_xvfcvtl_s_h c a)

/-- Lines 1031 to 1040: reads `x[0]` to `x[3]`. -/
def __lsx_f16x4_load (c : Conversions) (mem : CheckedMem Nat) (x : Addr) : Option Reg :=
  (readElems mem x 4).map (fun h => loadLanes 4 (h.map c.FP16_TO_FP32))

/-- Lines 1122 to 1138.  With `__NNPA__` (lines 1124 to 1126) `vec_xl` reads eight
halves, of which the first four are converted; without it (lines 1128 to 1136) the
loop reads `x[0]` to `x[3]`. -/
def __lzs_f16cx4_load (nnpa : Bool) (c : Conversions) (mem : CheckedMem Nat) (x : Addr) :
    Option Reg :=
  if nnpa then
    (vec_xl 8 mem x).map (fun v_x =>
      let v_xd := NNPA.vec_convert_from_fp16 c.tiesAway v_x
      (NNPA.vec_extend_to_fp32_hi v_xd).map f32_of_bits)
  else (readElems mem x 4).map (fun h => loadLanes 4 (h.map c.FP16_TO_FP32))

end Checked

/-- `LM_GGML_F32_VEC_LOAD(p)` of a branch (lines 216, 331, 448, 548, 647, 719, 835,
927, 1019 and 1111, with the intrinsics of lines 188, 305, 420, 515, 619, 691, 803,
900, 987 and 1085); `vl` is the number of singles in a scalable vector, used by the
SVE branch only. -/
def LM_GGML_F32_VEC_LOAD (bk : Backend) (vl : Nat) (mem : CheckedMem ℚ) (p : Addr) :
    Option Reg :=
  match bk with
  | .SVE => Checked.svld1_f32 vl SVE.DEFAULT_PG mem p
  | .NEON => Checked.vld1q_f32 mem p
  | .AVX512 => Checked._mm512_loadu_ps mem p
  | .AVX => Checked._mm256_loadu_ps mem p
  | .POWER9 => Checked.vec_xl 4 mem p
  | .WASM => Checked.wasm_v128_load mem p
  | .SSE3 => Checked._mm_loadu_ps mem p
  | .LASX => Checked.__lasx_xvld mem p
  | .LSX => Checked.__lsx_vld mem p
  | .VXE => Checked.vec_xl 4 mem p

/-- `LM_GGML_F16_VEC_LOAD(p, i)` of a branch (lines 259, 285, 374, 400, 496, 600, 665,
784, 882, 968, 1066 and 1166).  `fp16va`, `f16c` and `nnpa` say whether
`__ARM_FEATURE_FP16_VECTOR_ARITHMETIC`, `__F16C__` and `__NNPA__` are defined;
`F16_EPR` is the value of `LM_GGML_F16_EPR`, which the POWER9 text names. -/
def LM_GGML_F16_VEC_LOAD (bk : Backend) (fp16va f16c nnpa : Bool) (F16_EPR : Nat)
    (c : Conversions) (mem : CheckedMem Nat) (p : Addr) (i : Nat) : Option Reg :=
  match bk with
  | .SVE | .NEON =>
    if fp16va then Checked.LM_GGML_F16x8_LOAD c mem p else Checked.LM_GGML_F32Cx4_LOAD c mem p
  | .AVX512 => Checked.LM_GGML_F32Cx16_LOAD c mem p
  | .AVX => Checked.LM_GGML_F32Cx8_LOAD f16c c mem p
  | .POWER9 => Checked.POWER9_F16_VEC_LOAD F16_EPR c mem p i
  | .WASM => Checked.__wasm_f16x4_load c mem p
  | .SSE3 => Checked.__sse_f16x4_load c mem p
  | .LASX => Checked.__lasx_f32cx8_load c mem p
  | .LSX => Checked.__lsx_f16x4_load c mem p
  | .VXE => Checked.__lzs_f16cx4_load nnpa c mem p

/-! ### The half-precision stores -/

/-- `vcvt_f16_f32(y)`: every lane rounded to half precision. -/
def vcvt_f16_f32 (c : Conversions) (y : Reg) : Reg := y.map c.round_to_half

/-- `vst1q_f16(p, v)`: the patterns of the eight lanes. -/
def vst1q_f16 (c : Conversions) (mem : HalfMem) (p : Addr) (v : Reg) : HalfMem :=
  writeElems 8 mem p (v.map c.half_bits)

/-- `vst1_f16(p, v)`: the patterns of the four lanes. -/
def vst1_f16 (c : Conversions) (mem : HalfMem) (p : Addr) (v : Reg) : HalfMem :=
  writeElems 4 mem p (v.map c.half_bits)

/-- `_mm512_cvtps_ph(y, 0)` and `_mm256_cvtps_ph(y, 0)`: the pattern of every lane
rounded to half precision. -/
def _mm_cvtps_ph (c : Conversions) (y : Reg) : List Nat :=
  y.map (fun q => c.half_bits (c.round_to_half q))

/-- `_mm256_storeu_si256(p, a)` at a half-precision pointer: sixteen patterns. -/
def _mm256_storeu_si256 (mem : HalfMem) (p : Addr) (a : List Nat) : HalfMem :=
  writeElems 16 mem p a

/-- `_mm_storeu_si128(p, a)` at a half-precision pointer: eight patterns. -/
def _mm_storeu_si128 (mem : HalfMem) (p : Addr) (a : List Nat) : HalfMem :=
  writeElems 8 mem p a

/-- `vec_xst(v, 0, p)` at a half-precision pointer: 16 bytes, eight patterns. -/
def vec_xst (mem : HalfMem) (p : Addr) (v : List Nat) : HalfMem :=
  writeElems 8 mem p v

/-- `__lasx_xvfcvt_h_s(j, k)` as four 64-bit elements of four halves each: in each
128-bit half of the result the lower four halves come from `k` and the upper four
from `j`. -/
def __lasx_xvfcvt_h_s (c : Conversions) (j k : Reg) : List (List Nat) :=
  [(k.take 4).map (fun q => c.half_bits (c.round_to_half q)),
   (j.take 4).map (fun q => c.half_bits (c.round_to_half q)),
   (k.drop 4).map (fun q => c.half_bits (c.round_to_half q)),
   (j.drop 4).map (fun q => c.half_bits (c.round_to_half q))]

/-- Lines 669 to 672: the byte `i` of the `uint16_t` value 1. -/
def lm_ggml_endian_byte (c : Conversions) (i : Nat) : Nat :=
  if c.littleEndian then (if i = 0 then 1 else 0) else (if i = 1 then 1 else 0)

namespace NEON

/-- Lines 260 and 375: `vst1q_f16((__fp16 *)(p), (r)[i])`. -/
def LM_GGML_F16x8_STORE (c : Conversions) (mem : HalfMem) (p : Addr) (y : Reg) : HalfMem :=
  vst1q_f16 c mem p y

/-- Lines 276 and 391: `vst1_f16(x, vcvt_f16_f32(y))`. -/
def LM_GGML_F32Cx4_STORE (c : Conversions) (mem : HalfMem) (x : Addr) (y : Reg) : HalfMem :=
  vst1_f16 c mem x (vcvt_f16_f32 c y)

end NEON

namespace AVX512

/-- Line 471: `_mm256_storeu_si256((__m256i *)(x), _mm512_cvtps_ph(y, 0))`. -/
def LM_GGML_F32Cx16_STORE (c : Conversions) (mem : HalfMem) (x : Addr) (y : Reg) : HalfMem :=
  _mm256_storeu_si256 mem x (_mm_cvtps_ph c y)

end AVX512

namespace AVX

/-- Line 569 when `__F16C__` is defined, else line 589. -/
def LM_GGML_F32Cx8_STORE (f16c : Bool) (c : Conversions) (mem : HalfMem) (x : Addr) (y : Reg) :
    HalfMem :=
  if f16c then _mm_storeu_si128 mem x (_mm_cvtps_ph c y)
  else __avx_f32cx8_store c.FP32_TO_FP16 mem x y

end AVX

namespace POWER9

/-- Lines 673 to 677: `if (i & 0x1) vec_xst(vec_pack_to_short_fp32(r[i -
LM_GGML_ENDIAN_BYTE(1)], r[i - LM_GGML_ENDIAN_BYTE(0)]), 0, p - LM_GGML_F16_EPR)`, with
no `else`. -/
def LM_GGML_F16_VEC_STORE (F16_EPR : Nat) (c : Conversions) (mem : HalfMem) (p : Addr)
    (r : List Reg) (i : Nat) : HalfMem :=
  if i % 2 = 1 then
    vec_xst mem (p - F16_EPR)
      (c.vec_pack_to_short_fp32 (r.getD (i - lm_ggml_endian_byte c 1) [])
        (r.getD (i - lm_ggml_endian_byte c 0) []))
  else mem

end POWER9

namespace LASX

/-- Lines 952 to 956: `memcpy` writes the lower 16 bytes of `a`, its 64-bit elements
0 and 1. -/
def __lasx_f32cx8_store (c : Conversions) (mem : HalfMem) (x : Addr) (y : Reg) : HalfMem :=
  let a := __lasx_xvfcvt_h_s c y y
  let a := Checked.__lasx_xvpermi_d a (0 ||| (2 <<< 2))
  writeElems 8 mem x (a.getD 0 [] ++ a.getD 1 [])

end LASX

namespace VXE

/-- Lines 1140 to 1161.  With `__NNPA__` (lines 1142 to 1149) the four lanes and four
zeros are rounded to DLFloat16 and converted to halves, of which the first four are
stored one by one; without it (lines 1151 to 1159) the scalar loop stores. -/
def __lzs_f16cx4_store_of (nnpa : Bool) (c : Conversions) (mem : HalfMem) (x : Addr)
    (v_y : Reg) : HalfMem :=
  if nnpa then
    let v_zero := NNPA.vec_splats 4 0
    let v_xd := NNPA.vec_round_from_fp32 c.tiesAway (v_y.map f32_bits) v_zero
    let v_x := NNPA.vec_convert_to_fp16 c.tiesAway v_xd
    let mem := Function.update mem (x + 0) (NNPA.vec_extract v_x 0)
    let mem := Function.update mem (x + 1) (NNPA.vec_extract v_x 1)
    let mem := Function.update mem (x + 2) (NNPA.vec_extract v_x 2)
    Function.update mem (x + 3) (NNPA.vec_extract v_x 3)
  else __lzs_f16cx4_store c.FP32_TO_FP16 mem x v_y

end VXE

/-- `LM_GGML_F16_VEC_STORE(p, r, i)` of a branch (lines 260, 286, 375, 401, 497, 601,
673, 785, 883, 969, 1067 and 1167); `r` is the register array. -/
def LM_GGML_F16_VEC_STORE (bk : Backend) (fp16va f16c nnpa : Bool) (F16_EPR : Nat)
    (c : Conversions) (mem : HalfMem) (p : Addr) (r : List Reg) (i : Nat) : HalfMem :=
  match bk with
  | .SVE | .NEON =>
    if fp16va then NEON.LM_GGML_F16x8_STORE c mem p (r.getD i [])
    else NEON.LM_GGML_F32Cx4_STORE c mem p (r.getD i [])
  | .AVX512 => AVX512.LM_GGML_F32Cx16_STORE c mem p (r.getD i [])
  | .AVX => AVX.LM_GGML_F32Cx8_STORE f16c c mem p (r.getD i [])
  | .POWER9 => POWER9.LM_GGML_F16_VEC_STORE F16_EPR c mem p r i
  | .WASM => WASM.__wasm_f16x4_store c.FP32_TO_FP16 mem p (r.getD i [])
  | .SSE3 => SSE3.__sse_f16x4_store c.FP32_TO_FP16 mem p (r.getD i [])
  | .LASX => LASX.__lasx_f32cx8_store c mem p (r.getD i [])
  | .LSX => LSX.__lsx_f16x4_store c.FP32_TO_FP16 mem p (r.getD i [])
  | .VXE => VXE.__lzs_f16cx4_store_of nnpa c mem p (r.getD i [])

/-- The single-to-half conversion the store of a branch applies to a lane: none on
the kinds whose lanes are halves already, the narrowing instruction on NEON, AVX512,
AVX with F16C and LASX, the NNPA conversions through DLFloat16 on VXE with NNPA, and
the name `LM_GGML_CPU_FP32_TO_FP16` on the scalar-loop kinds. -/
def storedPattern (bk : Backend) (fp16va f16c nnpa : Bool) (c : Conversions) (q : ℚ) : Nat :=
  match bk with
  | .SVE | .NEON => if fp16va then c.half_bits q else c.half_bits (c.round_to_half q)
  | .AVX512 => c.half_bits (c.round_to_half q)
  | .AVX => if f16c then c.half_bits (c.round_to_half q) else c.FP32_TO_FP16 q
  | .LASX => c.half_bits (c.round_to_half q)
  | .VXE =>
    if nnpa then
      NNPA.dlfloat16_to_binary16 c.tiesAway (NNPA.binary32_to_dlfloat16 c.tiesAway (f32_bits q))
    else c.FP32_TO_FP16 q
  | _ => c.FP32_TO_FP16 q

/-! ### Examples -/

/-- Conversions given on two values (1.0 and -2.0, see `exampleToFull` and
`exampleToHalf`), for a big-endian machine whose pack and extract built-ins keep
memory order. -/
def exampleConversions : Conversions :=
  { FP16_TO_FP32 := exampleToFull
    FP32_TO_FP16 := exampleToHalf
    half_value := exampleToFull
    round_to_half := id
    half_bits := exampleToHalf
    vec_extract_fp32_from_shorth := fun v => (v.drop 4).map exampleToFull
    vec_extract_fp32_from_shortl := fun v => (v.take 4).map exampleToFull
    vec_pack_to_short_fp32 := fun a b => (a ++ b).map exampleToHalf
    littleEndian := false
    tiesAway := false }

/-- Memory in which exactly the four halves at addresses 100 to 103 are valid. -/
def fourValidHalves : CheckedMem Nat :=
  fun a => if 100 ≤ a ∧ a < 104 then some 0x3C00 else none

/-- Memory in which exactly the eight halves at addresses 100 to 107 are valid. -/
def eightValidHalves : CheckedMem Nat :=
  fun a => if 100 ≤ a ∧ a < 108 then some 0x3C00 else none

/-- Two registers of four lanes: all 1.0 and all -2.0. -/
def exampleRegisters : List Reg := [[1, 1, 1, 1], [-2, -2, -2, -2]]

/-! ## The POWER9 half-precision store as a list of writes -/

/-- One executed store instruction: the `extent` consecutive halves from `addr` on
receive `vals`. -/
structure Write where
  addr : Addr
  extent : Nat
  vals : List Nat

/-- Memory after a write. -/
def applyWrite (mem : HalfMem) (w : Write) : HalfMem :=
  writeElems w.extent mem w.addr w.vals

/-- Memory after a list of writes, first write first. -/
def applyWrites (mem : HalfMem) (ws : List Write) : HalfMem :=
  ws.foldl applyWrite mem

/-- How many of the writes cover the address `a`. -/
def timesWritten (ws : List Write) (a : Addr) : Nat :=
  ws.countP (fun w => decide (w.addr ≤ a ∧ a < w.addr + w.extent))

namespace POWER9

/-- Lines 673 to 677 as the writes one execution of `LM_GGML_F16_VEC_STORE(p, r, i)`
performs: for an odd `i` the one `vec_xst` of 16 bytes (eight halves) at
`p - LM_GGML_F16_EPR`, for an even `i` none. -/
def LM_GGML_F16_VEC_STORE_writes (F16_EPR : Nat) (c : Conversions) (p : Addr) (r : List Reg)
    (i : Nat) : List Write :=
  if i % 2 = 1 then
    [⟨p - F16_EPR, 8,
      c.vec_pack_to_short_fp32 (r.getD (i - lm_ggml_endian_byte c 1) [])
        (r.getD (i - lm_ggml_endian_byte c 0) [])⟩]
  else []

end POWER9

/-! ## Which definition binds a conversion name -/

/-- The `#define` in force for a conversion name. -/
def convLookup (env : List ConvDefine) (n : ConvName) : Option ConvDefine :=
  env.find? (fun d => d.name = n)

/-- On target `t` the name `n` is defined as `m(x)`, an alias of the conversion name
`m`. -/
def definedAsAlias (t : Features) (n m : ConvName) : Bool :=
  decide ((convLookup (convEnv t) n).map (fun d => d.body) = some (.alias m))

/-- On target `t` `LM_GGML_CPU_FP32_TO_FP16` is an alias of
`LM_GGML_CPU_COMPUTE_FP32_TO_FP16` exactly when `LM_GGML_CPU_FP16_TO_FP32` is an alias
of `LM_GGML_CPU_COMPUTE_FP16_TO_FP32`. -/
def directionsAgree (t : Features) : Bool :=
  decide (definedAsAlias t .LM_GGML_CPU_FP32_TO_FP16 .LM_GGML_CPU_COMPUTE_FP32_TO_FP16
    = definedAsAlias t .LM_GGML_CPU_FP16_TO_FP32 .LM_GGML_CPU_COMPUTE_FP16_TO_FP32)

/-! ## More examples -/

/-- Sixteen registers of four lanes, each `[1, 0, 0, 0]`. -/
def sixteenRegisters : List Reg := List.replicate 16 [1, 0, 0, 0]

/-- Eight registers of four lanes; register `j` holds `j + 1` in every lane. -/
def eightRegisters : List Reg :=
  [[1, 1, 1, 1], [2, 2, 2, 2], [3, 3, 3, 3], [4, 4, 4, 4], [5, 5, 5, 5], [6, 6, 6, 6],
   [7, 7, 7, 7], [8, 8, 8, 8]]

/-- A RISC-V target with Zfhmin. -/
def riscvTarget : Features :=
  { noFeatures with riscv := true, riscv_zfhmin := true }

/-! ## Lemmas on the header model -/

/-- The vector part of the header for a target is the text of the selected branch
under the target's settings of the nested conditionals. -/
theorem simdEnv_of_select {t : Features} {bk : Backend} (h : selectBackend t = some bk) :
    simdEnv t = branchEnv bk t.ARM_FEATURE_FP16_VECTOR_ARITHMETIC t.FMA t.F16C := by
  simp [simdEnv, h]

/-- `LM_GGML_F32_STEP` of each branch. -/
theorem F32_STEP_branch (bk : Backend) (v m c : Bool) :
    constValue (branchEnv bk v m c) expansionFuel .LM_GGML_F32_STEP =
      (match bk with
       | .SVE => none
       | .NEON => some 16
       | .AVX512 => some 64
       | .AVX => some 32
       | .POWER9 => some 32
       | .WASM => some 16
       | .SSE3 => some 32
       | .LASX => some 32
       | .LSX => some 32
       | .VXE => some 32) := by
  revert bk v m c
  decide

/-- `LM_GGML_F32_EPR` of each branch. -/
theorem F32_EPR_branch (bk : Backend) (v m c : Bool) :
    constValue (branchEnv bk v m c) expansionFuel .LM_GGML_F32_EPR =
      (match bk with
       | .SVE => some 8
       | .NEON => some 4
       | .AVX512 => some 16
       | .AVX => some 8
       | .POWER9 => some 4
       | .WASM => some 4
       | .SSE3 => some 4
       | .LASX => some 8
       | .LSX => some 4
       | .VXE => some 4) := by
  revert bk v m c
  decide

/-- `LM_GGML_F32_ARR` of each branch. -/
theorem F32_ARR_branch (bk : Backend) (v m c : Bool) :
    constValue (branchEnv bk v m c) expansionFuel .LM_GGML_F32_ARR =
      (match bk with
       | .SVE => none
       | .NEON => some 4
       | .AVX512 => some 4
       | .AVX => some 4
       | .POWER9 => some 8
       | .WASM => some 4
       | .SSE3 => some 8
       | .LASX => some 4
       | .LSX => some 8
       | .VXE => some 8) := by
  revert bk v m c
  decide

/-- `LM_GGML_F16_STEP` of each branch. -/
theorem F16_STEP_branch (bk : Backend) (v m c : Bool) :
    constValue (branchEnv bk v m c) expansionFuel .LM_GGML_F16_STEP =
      (match bk with
       | .SVE => some (if v then 32 else 16)
       | .NEON => some (if v then 32 else 16)
       | .AVX512 => some 64
       | .AVX => some 32
       | .POWER9 => some 32
       | .WASM => some 16
       | .SSE3 => some 32
       | .LASX => some 32
       | .LSX => some 32
       | .VXE => some 32) := by
  revert bk v m c
  decide

/-- `LM_GGML_F16_EPR` of each branch. -/
theorem F16_EPR_branch (bk : Backend) (v m c : Bool) :
    constValue (branchEnv bk v m c) expansionFuel .LM_GGML_F16_EPR =
      (match bk with
       | .SVE => some (if v then 8 else 4)
       | .NEON => some (if v then 8 else 4)
       | .AVX512 => some 16
       | .AVX => some 8
       | .POWER9 => some 4
       | .WASM => some 4
       | .SSE3 => some 4
       | .LASX => some 8
       | .LSX => some 4
       | .VXE => some 4) := by
  revert bk v m c
  decide

/-- `LM_GGML_F16_ARR` of each branch. -/
theorem F16_ARR_branch (bk : Backend) (v m c : Bool) :
    constValue (branchEnv bk v m c) expansionFuel .LM_GGML_F16_ARR =
      (match bk with
       | .SVE => some 4
       | .NEON => some 4
       | .AVX512 => some 4
       | .AVX => some 4
       | .POWER9 => some 8
       | .WASM => some 4
       | .SSE3 => some 8
       | .LASX => some 4
       | .LSX => some 8
       | .VXE => some 8) := by
  revert bk v m c
  decide

/-- The aliases the façade functions of the lane model follow: on every branch the
header binds `LM_GGML_F32_VEC_FMA`, `LM_GGML_F32_VEC_SET1`, `LM_GGML_F32_VEC_REDUCE`
and `LM_GGML_F16_VEC_SET1` to the names used in `LM_GGML_F32_VEC_FMA`,
`LM_GGML_F32_VEC_SET1`, `LM_GGML_F32_VEC_REDUCE` and `LM_GGML_F16_VEC_SET1` below. -/
theorem facade_alias_targets (bk : Backend) (v m c : Bool) :
    lookup (branchEnv bk v m c) .LM_GGML_F32_VEC_FMA
        = some ⟨.LM_GGML_F32_VEC_FMA, .object, .ref
            (match bk with
             | .SVE => .LM_GGML_F32xt_FMA
             | .AVX512 => .LM_GGML_F32x16_FMA
             | .AVX => .LM_GGML_F32x8_FMA
             | .LASX => .LM_GGML_F32x8_FMA
             | _ => .LM_GGML_F32x4_FMA)⟩ ∧
      lookup (branchEnv bk v m c) .LM_GGML_F32_VEC_SET1
        = some ⟨.LM_GGML_F32_VEC_SET1, .object, .ref
            (match bk with
             | .SVE => .LM_GGML_F32xt_SET1
             | .AVX512 => .LM_GGML_F32x16_SET1
             | .AVX => .LM_GGML_F32x8_SET1
             | .LASX => .LM_GGML_F32x8_SET1
             | _ => .LM_GGML_F32x4_SET1)⟩ ∧
      lookup (branchEnv bk v m c) .LM_GGML_F32_VEC_REDUCE
        = some ⟨.LM_GGML_F32_VEC_REDUCE, .object, .ref
            (match bk with
             | .SVE => .LM_GGML_F32xt_REDUCE
             | .AVX512 => .LM_GGML_F32x16_REDUCE
             | .AVX => .LM_GGML_F32x8_REDUCE
             | .LASX => .LM_GGML_F32x8_REDUCE
             | _ => .LM_GGML_F32x4_REDUCE)⟩ ∧
      lookup (branchEnv bk v m c) .LM_GGML_F16_VEC_SET1
        = some ⟨.LM_GGML_F16_VEC_SET1, .object, .ref
            (match bk with
             | .SVE => if v then .LM_GGML_F16x8_SET1 else .LM_GGML_F32Cx4_SET1
             | .NEON => if v then .LM_GGML_F16x8_SET1 else .LM_GGML_F32Cx4_SET1
             | .AVX512 => .LM_GGML_F32Cx16_SET1
             | .AVX => .LM_GGML_F32Cx8_SET1
             | .POWER9 => .LM_GGML_F32x4_SET1
             | .WASM => .LM_GGML_F16x4_SET1
             | .SSE3 => .LM_GGML_F32Cx4_SET1
             | .LASX => .LM_GGML_F32Cx8_SET1
             | .LSX => .LM_GGML_F32Cx4_SET1
             | .VXE => .LM_GGML_F32x4_SET1)⟩ := by
  revert bk v m c
  decide

/-! ## Lemmas on the lane model -/

theorem laneAdd_length (a b : Reg) : (laneAdd a b).length = min a.length b.length := by
  simp [laneAdd]

theorem laneMul_length (a b : Reg) : (laneMul a b).length = min a.length b.length := by
  simp [laneMul]

/-- Exact lane addition adds the lane totals of two registers of one width. -/
theorem laneAdd_sum : ∀ (a b : Reg), a.length = b.length → (laneAdd a b).sum = a.sum + b.sum
  | [], [], _ => by simp [laneAdd]
  | [], _ :: _, h => by simp at h
  | _ :: _, [], h => by simp at h
  | x :: a, y :: b, h => by
    have ih := laneAdd_sum a b (by simpa using h)
    simp only [laneAdd] at ih
    simp only [laneAdd, List.zipWith_cons_cons, List.sum_cons, ih]
    ring

/-- A lane of a lane-wise sum, for registers of one width. -/
theorem lane_laneAdd (a b : Reg) (h : a.length = b.length) (k : Nat) :
    lane (laneAdd a b) k = lane a k + lane b k := by
  by_cases hk : k < a.length
  · have hk' : k < b.length := h ▸ hk
    simp [lane, laneAdd, List.getD_eq_getElem?_getD, List.getElem?_zipWith, hk, hk']
  · have hk' : ¬ k < b.length := h ▸ hk
    simp [lane, laneAdd, List.getD_eq_getElem?_getD, List.getElem?_zipWith,
      List.getElem?_eq_none (not_lt.mp hk), List.getElem?_eq_none (not_lt.mp hk')]

/-- A lane of a lane-wise product, for registers of one width. -/
theorem lane_laneMul (a b : Reg) (h : a.length = b.length) (k : Nat) :
    lane (laneMul a b) k = lane a k * lane b k := by
  by_cases hk : k < a.length
  · have hk' : k < b.length := h ▸ hk
    simp [lane, laneMul, List.getD_eq_getElem?_getD, List.getElem?_zipWith, hk, hk']
  · have hk' : ¬ k < b.length := h ▸ hk
    simp [lane, laneMul, List.getD_eq_getElem?_getD, List.getElem?_zipWith,
      List.getElem?_eq_none (not_lt.mp hk), List.getElem?_eq_none (not_lt.mp hk')]

theorem list_of_length_four {α : Type} (l : List α) (h : l.length = 4) :
    ∃ a b c d, l = [a, b, c, d] :=
  match l, h with
  | [a, b, c, d], _ => ⟨a, b, c, d, rfl⟩

theorem list_of_length_eight {α : Type} (l : List α) (h : l.length = 8) :
    ∃ a b c d e f g i, l = [a, b, c, d, e, f, g, i] :=
  match l, h with
  | [a, b, c, d, e, f, g, i], _ => ⟨a, b, c, d, e, f, g, i, rfl⟩

/-- The three stages on four registers: offsets 2, 1 and 0. -/
theorem halvingStages_four (add : Reg → Reg → Reg) (r0 r1 r2 r3 : Reg) :
    halvingStages add 4 [r0, r1, r2, r3] = [add (add r0 r2) (add r1 r3), add r1 r3, r2, r3] := by
  rfl

/-- The three stages on eight registers: offsets 4, 2 and 1. -/
theorem halvingStages_eight (add : Reg → Reg → Reg) (r0 r1 r2 r3 r4 r5 r6 r7 : Reg) :
    halvingStages add 8 [r0, r1, r2, r3, r4, r5, r6, r7] =
      [add (add (add r0 r4) (add r2 r6)) (add (add r1 r5) (add r3 r7)),
       add (add r1 r5) (add r3 r7), add r2 r6, add r3 r7, r4, r5, r6, r7] := by
  rfl

/-- Adding two registers of width `n` gives a register of width `n` whose lanes
total the lanes of both. -/
theorem laneAdd_wf {n : Nat} (a b : Reg) (ha : a.length = n) (hb : b.length = n) :
    (laneAdd a b).length = n ∧ (laneAdd a b).sum = a.sum + b.sum :=
  ⟨by simp [laneAdd_length, ha, hb], laneAdd_sum a b (by rw [ha, hb])⟩

/-- After the stages on four registers of width `n`, register 0 has width `n` and
its lanes total the lanes of all four. -/
theorem halved_four (x : List Reg) (n : Nat) (hx : x.length = 4) (hr : ∀ r ∈ x, r.length = n) :
    ((halvingStages laneAdd 4 x).getD 0 []).length = n ∧
      ((halvingStages laneAdd 4 x).getD 0 []).sum = (x.map List.sum).sum := by
  obtain ⟨r0, r1, r2, r3, rfl⟩ := list_of_length_four x hx
  have s02 := laneAdd_wf r0 r2 (hr r0 (by simp)) (hr r2 (by simp))
  have s13 := laneAdd_wf r1 r3 (hr r1 (by simp)) (hr r3 (by simp))
  have s := laneAdd_wf _ _ s02.1 s13.1
  rw [halvingStages_four]
  simp only [List.getD_cons_zero]
  refine ⟨s.1, ?_⟩
  rw [s.2, s02.2, s13.2]
  simp only [List.map_cons, List.map_nil, List.sum_cons, List.sum_nil]
  ring

/-- After the stages on eight registers of width `n`, register 0 has width `n` and
its lanes total the lanes of all eight. -/
theorem halved_eight (x : List Reg) (n : Nat) (hx : x.length = 8) (hr : ∀ r ∈ x, r.length = n) :
    ((halvingStages laneAdd 8 x).getD 0 []).length = n ∧
      ((halvingStages laneAdd 8 x).getD 0 []).sum = (x.map List.sum).sum := by
  obtain ⟨r0, r1, r2, r3, r4, r5, r6, r7, rfl⟩ := list_of_length_eight x hx
  have s04 := laneAdd_wf r0 r4 (hr r0 (by simp)) (hr r4 (by simp))
  have s15 := laneAdd_wf r1 r5 (hr r1 (by simp)) (hr r5 (by simp))
  have s26 := laneAdd_wf r2 r6 (hr r2 (by simp)) (hr r6 (by simp))
  have s37 := laneAdd_wf r3 r7 (hr r3 (by simp)) (hr r7 (by simp))
  have sa := laneAdd_wf _ _ s04.1 s26.1
  have sb := laneAdd_wf _ _ s15.1 s37.1
  have s := laneAdd_wf _ _ sa.1 sb.1
  rw [halvingStages_eight]
  simp only [List.getD_cons_zero]
  refine ⟨s.1, ?_⟩
  rw [s.2, sa.2, sb.2, s04.2, s15.2, s26.2, s37.2]
  simp only [List.map_cons, List.map_nil, List.sum_cons, List.sum_nil]
  ring

/-! ## Horizontal sums of one register -/

/-- The AVX tail (lines 538 to 541) on a register of eight lanes. -/
theorem AVX_horizontal (r : Reg) (h : r.length = 8) :
    _mm_cvtss_f32
        (_mm_hadd_ps
          (_mm_hadd_ps (_mm_add_ps (_mm256_castps256_ps128 r) (_mm256_extractf128_ps r 1))
            (_mm_add_ps (_mm256_castps256_ps128 r) (_mm256_extractf128_ps r 1)))
          (_mm_hadd_ps (_mm_add_ps (_mm256_castps256_ps128 r) (_mm256_extractf128_ps r 1))
            (_mm_add_ps (_mm256_castps256_ps128 r) (_mm256_extractf128_ps r 1)))) = r.sum := by
  obtain ⟨a, b, c, d, e, f, g, i, rfl⟩ := list_of_length_eight r h
  simp [_mm_cvtss_f32, _mm_hadd_ps, _mm_add_ps, _mm256_castps256_ps128, _mm256_extractf128_ps,
    laneAdd, lane]
  ring

/-- The SSE3 tail (lines 827 and 828) on a register of four lanes. -/
theorem SSE3_horizontal (r : Reg) (h : r.length = 4) :
    _mm_cvtss_f32 (_mm_hadd_ps (_mm_hadd_ps r r) (_mm_hadd_ps r r)) = r.sum := by
  obtain ⟨a, b, c, d, rfl⟩ := list_of_length_four r h
  simp [_mm_cvtss_f32, _mm_hadd_ps, lane]
  ring

/-- The sum of the four extracted lanes (lines 638 to 641 and 710 to 713). -/
theorem four_lanes_sum (r : Reg) (h : r.length = 4) :
    lane r 0 + lane r 1 + lane r 2 + lane r 3 = r.sum := by
  obtain ⟨a, b, c, d, rfl⟩ := list_of_length_four r h
  simp [lane]
  ring

/-- The sum of the eight lanes read through `tmp_p` (line 920). -/
theorem eight_lanes_sum (r : Reg) (h : r.length = 8) :
    lane r 0 + lane r 1 + lane r 2 + lane r 3 + lane r 4 + lane r 5 + lane r 6 + lane r 7
      = r.sum := by
  obtain ⟨a, b, c, d, e, f, g, i, rfl⟩ := list_of_length_eight r h
  simp [lane]
  ring

/-- The s390x tail (lines 1104 and 1105) on a register of four lanes. -/
theorem VXE_horizontal (r : Reg) (h : r.length = 4) :
    lane (laneAdd r (vec_reve r)) 0 + lane (laneAdd r (vec_reve r)) 1 = r.sum := by
  obtain ⟨a, b, c, d, rfl⟩ := list_of_length_four r h
  simp [lane, laneAdd, vec_reve]
  ring

/-! ## C1: the array-form reduces -/

/-- C1. On each array-form backend (NEON, AVX512, AVX, POWER9, WASM, SSE3, LASX,
s390x VXE), with `step` and `epr` the values of `LM_GGML_F32_STEP` and
`LM_GGML_F32_EPR` that the backend defines and exact lane addition,
`LM_GGML_F32_VEC_REDUCE(res, x)` on an array `x` of `step / epr` registers of `epr`
lanes each leaves in `res` the sum of all lanes of all registers of `x`. -/
theorem F32_VEC_REDUCE_sums_all_lanes (t : Features) (bk : Backend)
    (hsel : selectBackend t = some bk)
    (hbk : bk ∈ [Backend.NEON, .AVX512, .AVX, .POWER9, .WASM, .SSE3, .LASX, .VXE])
    (step epr : Nat) (hstep : LM_GGML_F32_STEP t = some step)
    (hepr : LM_GGML_F32_EPR t = some epr)
    (x : List Reg) (hx : x.length = step / epr) (hr : ∀ r ∈ x, r.length = epr) :
    (LM_GGML_F32_VEC_REDUCE t x).map Prod.fst = some ((x.map List.sum).sum) := by
  have harr := F32_ARR_branch bk t.ARM_FEATURE_FP16_VECTOR_ARITHMETIC t.FMA t.F16C
  rw [← simdEnv_of_select hsel] at harr
  rw [LM_GGML_F32_STEP, simdEnv_of_select hsel, F32_STEP_branch] at hstep
  rw [LM_GGML_F32_EPR, simdEnv_of_select hsel, F32_EPR_branch] at hepr
  simp only [LM_GGML_F32_VEC_REDUCE, LM_GGML_F32_ARR, hsel, harr]
  cases bk
  case SVE => simp at hbk
  case LSX => simp at hbk
  case NEON =>
    obtain rfl : step = 16 := by simpa using hstep.symm
    obtain rfl : epr = 4 := by simpa using hepr.symm
    have hv := halved_four x 4 hx hr
    simpa [NEON.LM_GGML_F32x4_REDUCE, NEON.LM_GGML_F32x4_REDUCE_ONE, vaddvq_f32,
      show vaddq_f32 = laneAdd from rfl] using hv.2
  case AVX512 =>
    obtain rfl : step = 64 := by simpa using hstep.symm
    obtain rfl : epr = 16 := by simpa using hepr.symm
    have hv := halved_four x 16 hx hr
    simpa [AVX512.LM_GGML_F32x16_REDUCE, _mm512_reduce_add_ps,
      show _mm512_add_ps = laneAdd from rfl] using hv.2
  case AVX =>
    obtain rfl : step = 32 := by simpa using hstep.symm
    obtain rfl : epr = 8 := by simpa using hepr.symm
    have hv := halved_four x 8 hx hr
    have hh := (AVX_horizontal _ hv.1).trans hv.2
    simpa [AVX.LM_GGML_F32x8_REDUCE, show _mm256_add_ps = laneAdd from rfl] using hh
  case POWER9 =>
    obtain rfl : step = 32 := by simpa using hstep.symm
    obtain rfl : epr = 4 := by simpa using hepr.symm
    have hv := halved_eight x 4 hx hr
    have hh := (four_lanes_sum _ hv.1).trans hv.2
    simpa [POWER9.LM_GGML_F32x4_REDUCE, vec_extract, show vec_add = laneAdd from rfl] using hh
  case WASM =>
    obtain rfl : step = 16 := by simpa using hstep.symm
    obtain rfl : epr = 4 := by simpa using hepr.symm
    have hv := halved_four x 4 hx hr
    have hh := (four_lanes_sum _ hv.1).trans hv.2
    simpa [WASM.LM_GGML_F32x4_REDUCE, wasm_f32x4_extract_lane,
      show wasm_f32x4_add = laneAdd from rfl] using hh
  case SSE3 =>
    obtain rfl : step = 32 := by simpa using hstep.symm
    obtain rfl : epr = 4 := by simpa using hepr.symm
    have hv := halved_eight x 4 hx hr
    have hh := (SSE3_horizontal _ hv.1).trans hv.2
    simpa [SSE3.LM_GGML_F32x4_REDUCE, show _mm_add_ps = laneAdd from rfl] using hh
  case LASX =>
    obtain rfl : step = 32 := by simpa using hstep.symm
    obtain rfl : epr = 8 := by simpa using hepr.symm
    have hv := halved_four x 8 hx hr
    have hh := (eight_lanes_sum _ hv.1).trans hv.2
    simpa [LASX.LM_GGML_F32x8_REDUCE, show __lasx_xvfadd_s = laneAdd from rfl] using hh
  case VXE =>
    obtain rfl : step = 32 := by simpa using hstep.symm
    obtain rfl : epr = 4 := by simpa using hepr.symm
    have hv := halved_eight x 4 hx hr
    have hh := (VXE_horizontal _ hv.1).trans hv.2
    simpa [VXE.LM_GGML_F32x4_REDUCE, show vec_add = laneAdd from rfl] using hh

/-- Witness for C1 on an AVX target: four registers of eight lanes. -/
theorem F32_VEC_REDUCE_sums_all_lanes_witness :
    selectBackend avxTarget = some .AVX ∧ LM_GGML_F32_STEP avxTarget = some 32 ∧
      LM_GGML_F32_EPR avxTarget = some 8 ∧
      (LM_GGML_F32_VEC_REDUCE avxTarget
        [[1, 2, 3, 4, 5, 6, 7, 8], [1, 0, 0, 0, 0, 0, 0, 0], [0, 0, 0, 0, 2, 0, 0, 0],
         [0, 0, 0, 0, 0, 0, 0, 3]]).map Prod.fst = some 42 :=
  ⟨by decide, by decide, by decide,
    (F32_VEC_REDUCE_sums_all_lanes avxTarget .AVX (by decide) (by decide) 32 8 (by decide)
      (by decide) _ (by rfl) (by simp)).trans (by norm_num)⟩

/-! ## C2: the LSX reduce -/

/-- The pattern of 1.0 is `0x3F800000`. -/
theorem f32_bits_one : f32_bits 1 = 1065353216 := by
  simp [f32_bits]
  norm_num

/-- C2 (evaluation of the code). On the LSX backend (`LM_GGML_F32_ARR` is 8) the
reduce of eight registers whose lanes total 1, the 1 standing in lane 2 of
register 0, leaves 0 in `res`: the first `__lsx_vshuf4i_w(tmp, 0x88)` keeps lanes 0
and 2 of a register whose lane 1 holds `x[0][2] + x[0][3]`.  With the 1 in lane 0
instead, `res` is 1065353216, the bit pattern of 1.0 read as an integer. -/
theorem LSX_F32x4_REDUCE_at_input :
    selectBackend lsxTarget = some .LSX ∧ LM_GGML_F32_ARR lsxTarget = some 8 ∧
      (lsxReduceInput.map List.sum).sum = 1 ∧
      (LM_GGML_F32_VEC_REDUCE lsxTarget lsxReduceInput).map Prod.fst = some 0 ∧
      (lsxReduceInput0.map List.sum).sum = 1 ∧
      (LM_GGML_F32_VEC_REDUCE lsxTarget lsxReduceInput0).map Prod.fst = some 1065353216 := by
  have hsel : selectBackend lsxTarget = some .LSX := by decide
  have harr : LM_GGML_F32_ARR lsxTarget = some 8 := by decide
  refine ⟨hsel, harr, by norm_num [lsxReduceInput], ?_, by norm_num [lsxReduceInput0], ?_⟩
  · simp [LM_GGML_F32_VEC_REDUCE, hsel, harr, LSX.LM_GGML_F32x4_REDUCE, lsxReduceInput,
      halvingStages_eight, __lsx_vfadd_s, laneAdd, __lsx_vsrli_d_32, lane, __lsx_vpickev_w,
      __lsx_vshuf4i_w, __lsx_vldi_0, __lsx_vpickve2gr_w, f32_bits, int_of_bits, c_int_to_float,
      List.range, List.range.loop]
  · simp [LM_GGML_F32_VEC_REDUCE, hsel, harr, LSX.LM_GGML_F32x4_REDUCE, lsxReduceInput0,
      halvingStages_eight, __lsx_vfadd_s, laneAdd, __lsx_vsrli_d_32, lane, __lsx_vpickev_w,
      __lsx_vshuf4i_w, __lsx_vldi_0, __lsx_vpickve2gr_w, f32_bits_one, int_of_bits,
      c_int_to_float, List.range, List.range.loop]

/-- What the LSX reduce computes on eight registers of four lanes: the bit pattern,
read as an integer, of the sum of lanes 0 and 1 of the eight registers.  Lanes 2
and 3 do not enter. -/
theorem LSX_F32x4_REDUCE_value (x : List Reg) (hx : x.length = 8)
    (hr : ∀ r ∈ x, r.length = 4) :
    (LSX.LM_GGML_F32x4_REDUCE 8 x).1
      = c_int_to_float (int_of_bits (f32_bits ((x.map (fun r => lane r 0 + lane r 1)).sum))) := by
  obtain ⟨r0, r1, r2, r3, r4, r5, r6, r7, rfl⟩ := list_of_length_eight x hx
  obtain ⟨a0, b0, c0, d0, rfl⟩ := list_of_length_four r0 (hr _ (by simp))
  obtain ⟨a1, b1, c1, d1, rfl⟩ := list_of_length_four r1 (hr _ (by simp))
  obtain ⟨a2, b2, c2, d2, rfl⟩ := list_of_length_four r2 (hr _ (by simp))
  obtain ⟨a3, b3, c3, d3, rfl⟩ := list_of_length_four r3 (hr _ (by simp))
  obtain ⟨a4, b4, c4, d4, rfl⟩ := list_of_length_four r4 (hr _ (by simp))
  obtain ⟨a5, b5, c5, d5, rfl⟩ := list_of_length_four r5 (hr _ (by simp))
  obtain ⟨a6, b6, c6, d6, rfl⟩ := list_of_length_four r6 (hr _ (by simp))
  obtain ⟨a7, b7, c7, d7, rfl⟩ := list_of_length_four r7 (hr _ (by simp))
  simp [LSX.LM_GGML_F32x4_REDUCE, halvingStages_eight, __lsx_vfadd_s, laneAdd,
    __lsx_vsrli_d_32, lane, __lsx_vpickev_w, __lsx_vshuf4i_w, __lsx_vldi_0, __lsx_vpickve2gr_w,
    List.range, List.range.loop]
  congr 3
  ring

/-! ## C3: the multiply-add -/

/-- The form `x * y + z` on registers of one width. -/
theorem madd_lanes (x y z : Reg) (hy : y.length = x.length) (hz : z.length = x.length) :
    (laneAdd (laneMul x y) z).length = x.length ∧
      ∀ k, lane (laneAdd (laneMul x y) z) k = lane x k * lane y k + lane z k := by
  have hm : (laneMul x y).length = z.length := by simp [laneMul_length, hy, hz]
  refine ⟨by simp [laneAdd_length, laneMul_length, hy, hz], fun k => ?_⟩
  rw [lane_laneAdd _ _ hm, lane_laneMul _ _ hy.symm]

/-- The form `a + b * c` on registers of one width. -/
theorem fma_lanes (a b c : Reg) (hb : b.length = a.length) (hc : c.length = a.length) :
    (laneAdd a (laneMul b c)).length = a.length ∧
      ∀ k, lane (laneAdd a (laneMul b c)) k = lane a k + lane b k * lane c k := by
  have hm : a.length = (laneMul b c).length := by simp [laneMul_length, hb, hc]
  refine ⟨by simp [laneAdd_length, laneMul_length, hb, hc], fun k => ?_⟩
  rw [lane_laneAdd _ _ hm, lane_laneMul _ _ (hb.trans hc.symm)]

/-- Under the all-true predicate a merging operation returns the computed lanes. -/
theorem svmerge_ptrue (computed op1 : Reg) (h : computed.length = op1.length) :
    svmerge svptrue_b32 computed op1 = computed := by
  apply List.ext_getElem
  · simp [svmerge, h]
  · intro n h1 h2
    simp [svmerge, svptrue_b32, List.getD_eq_getElem?_getD, List.getElem?_eq_getElem h2]

/-- C3. For every backend, `LM_GGML_F32_VEC_FMA(a, b, c)` is bound and, on
registers of one width with exact lane arithmetic, yields a register of that width
whose every lane is `a + b * c`; this covers the fused bindings and the unfused
`add(mul(b, c), a)` bindings (AVX and SSE3 without `__FMA__`, WASM). -/
theorem F32_VEC_FMA_lanes (t : Features) (bk : Backend) (hsel : selectBackend t = some bk)
    (a b c : Reg) (hb : b.length = a.length) (hc : c.length = a.length) :
    ∃ r, LM_GGML_F32_VEC_FMA t a b c = some r ∧ r.length = a.length ∧
      ∀ k, lane r k = lane a k + lane b k * lane c k := by
  have hcb : c.length = b.length := hc.trans hb.symm
  have hab : a.length = b.length := hb.symm
  have hM := madd_lanes b c a hcb hab
  have hF := fma_lanes a b c hb hc
  have hM' : (laneAdd (laneMul b c) a).length = a.length ∧
      ∀ k, lane (laneAdd (laneMul b c) a) k = lane a k + lane b k * lane c k :=
    ⟨hM.1.trans hb, fun k => by rw [hM.2 k]; ring⟩
  cases bk
  case SVE =>
    refine ⟨laneAdd (laneMul b c) a, ?_, hM'⟩
    simp only [LM_GGML_F32_VEC_FMA, hsel, SVE.LM_GGML_F32xt_FMA, SVE.DEFAULT_PG, svmad_f32_m]
    rw [svmerge_ptrue _ _ hM.1]
  case NEON =>
    exact ⟨_, by simp only [LM_GGML_F32_VEC_FMA, hsel, NEON.LM_GGML_F32x4_FMA, vfmaq_f32], hF⟩
  case AVX512 =>
    exact ⟨_, by simp only [LM_GGML_F32_VEC_FMA, hsel, AVX512.LM_GGML_F32x16_FMA,
      _mm512_fmadd_ps], hM'⟩
  case AVX =>
    refine ⟨laneAdd (laneMul b c) a, ?_, hM'⟩
    cases hf : t.FMA <;>
      simp [LM_GGML_F32_VEC_FMA, hsel, AVX.LM_GGML_F32x8_FMA, hf, _mm256_fmadd_ps,
        _mm256_add_ps, _mm256_mul_ps]
  case POWER9 =>
    exact ⟨_, by simp only [LM_GGML_F32_VEC_FMA, hsel, POWER9.LM_GGML_F32x4_FMA, vec_madd], hM'⟩
  case WASM =>
    exact ⟨_, by simp only [LM_GGML_F32_VEC_FMA, hsel, WASM.LM_GGML_F32x4_FMA, wasm_f32x4_add,
      wasm_f32x4_mul], hM'⟩
  case SSE3 =>
    refine ⟨laneAdd (laneMul b c) a, ?_, hM'⟩
    cases hf : t.FMA <;>
      simp [LM_GGML_F32_VEC_FMA, hsel, SSE3.LM_GGML_F32x4_FMA, hf, _mm_fmadd_ps, _mm_add_ps,
        _mm_mul_ps]
  case LASX =>
    exact ⟨_, by simp only [LM_GGML_F32_VEC_FMA, hsel, LASX.LM_GGML_F32x8_FMA,
      __lasx_xvfmadd_s], hM'⟩
  case LSX =>
    exact ⟨_, by simp only [LM_GGML_F32_VEC_FMA, hsel, LSX.LM_GGML_F32x4_FMA, __lsx_vfmadd_s],
      hM'⟩
  case VXE =>
    exact ⟨_, by simp only [LM_GGML_F32_VEC_FMA, hsel, VXE.LM_GGML_F32x4_FMA, vec_madd], hM'⟩

/-- Witness for C3 on an AVX target without `__FMA__`. -/
theorem F32_VEC_FMA_lanes_witness :
    selectBackend avxTarget = some .AVX ∧
      ∃ r, LM_GGML_F32_VEC_FMA avxTarget [1, 2, 3, 4, 5, 6, 7, 8] [2, 2, 2, 2, 2, 2, 2, 2]
          [1, 1, 1, 1, 3, 3, 3, 3] = some r ∧
        r.length = [(1 : ℚ), 2, 3, 4, 5, 6, 7, 8].length ∧
        ∀ k, lane r k = lane [1, 2, 3, 4, 5, 6, 7, 8] k
          + lane [2, 2, 2, 2, 2, 2, 2, 2] k * lane [1, 1, 1, 1, 3, 3, 3, 3] k :=
  ⟨by decide, F32_VEC_FMA_lanes avxTarget .AVX (by decide) _ _ _ (by rfl) (by rfl)⟩

/-! ## C4: the broadcast -/

/-- Outside LSX the full-precision broadcast fills every lane with the scalar. -/
theorem F32_VEC_SET1_broadcasts (t : Features) (bk : Backend) (hsel : selectBackend t = some bk)
    (hbk : bk ≠ .LSX) (vl : Nat) (s : ℚ) :
    ∃ n, LM_GGML_F32_VEC_SET1 t vl s = some (List.replicate n s) := by
  cases bk
  case LSX => exact absurd rfl hbk
  all_goals
    simp only [LM_GGML_F32_VEC_SET1, hsel, SVE.LM_GGML_F32xt_SET1, NEON.LM_GGML_F32x4_SET1,
      AVX512.LM_GGML_F32x16_SET1, AVX.LM_GGML_F32x8_SET1, POWER9.LM_GGML_F32x4_SET1,
      WASM.LM_GGML_F32x4_SET1, SSE3.LM_GGML_F32x4_SET1, LASX.LM_GGML_F32x8_SET1,
      VXE.LM_GGML_F32x4_SET1, svdup_n_f32, vdupq_n_f32, _mm512_set1_ps, _mm256_set1_ps,
      vec_splats, wasm_f32x4_splat, _mm_set1_ps, __lasx_xvreplfr2vr_s]
    exact ⟨_, rfl⟩

/-- The binary32 pattern of 3.5. -/
theorem f32_bits_three_and_a_half : f32_bits (7 / 2) = 0x40600000 := by
  have h1 : Int.log 2 (7 / 2 : ℚ) = 1 := by
    apply le_antisymm
    · have h : Int.log 2 (7 / 2 : ℚ) < 2 :=
        (Int.lt_zpow_iff_log_lt (by norm_num) (by norm_num)).1 (by norm_num)
      omega
    · exact (Int.zpow_le_iff_le_log (by norm_num) (by norm_num)).1 (by norm_num)
  have h2 : |(7 / 2 : ℚ)| = 7 / 2 := abs_of_pos (by norm_num)
  have h3 : ⌊(7 / 2 : ℚ) * 2 ^ (23 - (1 : ℤ))⌋ = 7 * 2 ^ 21 := by
    have : (7 / 2 : ℚ) * 2 ^ (23 - (1 : ℤ)) = ((7 * 2 ^ 21 : ℤ) : ℚ) := by norm_num
    rw [this, Int.floor_intCast]
  have h4 : Int.toNat 128 = 128 := by decide
  have h5 : Int.toNat 14680064 = 14680064 := by decide
  unfold f32_bits
  simp only [h2, h1, h3]
  norm_num [h4, h5]

/-- The binary32 pattern of `1 + 2^-11`, the value half way between the halves 1.0
and `1 + 2^-10`. -/
theorem f32_bits_between_halves : f32_bits (2049 / 2048) = 0x3F801000 := by
  have h1 : Int.log 2 (2049 / 2048 : ℚ) = 0 := by
    apply le_antisymm
    · have h : Int.log 2 (2049 / 2048 : ℚ) < 1 :=
        (Int.lt_zpow_iff_log_lt (by norm_num) (by norm_num)).1 (by norm_num)
      omega
    · exact (Int.zpow_le_iff_le_log (by norm_num) (by norm_num)).1 (by norm_num)
  have h2 : |(2049 / 2048 : ℚ)| = 2049 / 2048 := abs_of_pos (by norm_num)
  have h3 : ⌊(2049 / 2048 : ℚ) * 2 ^ (23 - (0 : ℤ))⌋ = 2049 * 2 ^ 12 := by
    have : (2049 / 2048 : ℚ) * 2 ^ (23 - (0 : ℤ)) = ((2049 * 2 ^ 12 : ℤ) : ℚ) := by norm_num
    rw [this, Int.floor_intCast]
  have h4 : Int.toNat 127 = 127 := by decide
  have h5 : Int.toNat 8392704 = 8392704 := by decide
  unfold f32_bits
  simp only [h2, h1, h3]
  norm_num [h4, h5]

/-- The conversion of a `float` argument to `float16_t` keeps 3.5, which is a half,
and takes `1 + 2^-11`, which is none, to the half 1.0. -/
theorem c_float_to_float16_values :
    c_float_to_float16 (7 / 2) = 7 / 2 ∧ c_float_to_float16 (2049 / 2048) = 1 := by
  have a1 : binary32_to_binary16 0x40600000 = 0x4300 := by decide
  have a2 : binary16_to_binary32 0x4300 = 0x40600000 := by decide
  have b1 : binary32_to_binary16 0x3F801000 = 0x3C00 := by decide
  have b2 : binary16_to_binary32 0x3C00 = 0x3F800000 := by decide
  constructor
  · rw [c_float_to_float16, f32_bits_three_and_a_half, a1, a2]
    norm_num [f32_of_bits]
  · rw [c_float_to_float16, f32_bits_between_halves, b1, b2]
    norm_num [f32_of_bits]

/-- Outside LSX and LASX the half-precision broadcast fills every lane with one
value: the scalar converted to half precision where the register holds halves (SVE
and NEON with FP16 vector arithmetic, by `vdupq_n_f16`), and the scalar itself where
the register holds singles. -/
theorem F16_VEC_SET1_broadcasts (t : Features) (bk : Backend) (hsel : selectBackend t = some bk)
    (hbk : bk ≠ .LSX ∧ bk ≠ .LASX) (s : ℚ) :
    ∃ n, LM_GGML_F16_VEC_SET1 t s = some (List.replicate n
      (if (bk = .SVE ∨ bk = .NEON) ∧ t.ARM_FEATURE_FP16_VECTOR_ARITHMETIC = true
       then c_float_to_float16 s else s)) := by
  cases bk
  case LSX => exact absurd rfl hbk.1
  case LASX => exact absurd rfl hbk.2
  case SVE =>
    cases hv : t.ARM_FEATURE_FP16_VECTOR_ARITHMETIC
    · exact ⟨4, by simp [LM_GGML_F16_VEC_SET1, hsel, hv, NEON.LM_GGML_F32Cx4_SET1, vdupq_n_f32]⟩
    · exact ⟨8, by simp [LM_GGML_F16_VEC_SET1, hsel, hv, NEON.LM_GGML_F16x8_SET1, vdupq_n_f16]⟩
  case NEON =>
    cases hv : t.ARM_FEATURE_FP16_VECTOR_ARITHMETIC
    · exact ⟨4, by simp [LM_GGML_F16_VEC_SET1, hsel, hv, NEON.LM_GGML_F32Cx4_SET1, vdupq_n_f32]⟩
    · exact ⟨8, by simp [LM_GGML_F16_VEC_SET1, hsel, hv, NEON.LM_GGML_F16x8_SET1, vdupq_n_f16]⟩
  all_goals
    simp only [reduceCtorEq, or_self, false_and, if_false]
    simp only [LM_GGML_F16_VEC_SET1, hsel, AVX512.LM_GGML_F32Cx16_SET1,
      AVX.LM_GGML_F32Cx8_SET1, POWER9.LM_GGML_F32x4_SET1, WASM.LM_GGML_F16x4_SET1,
      SSE3.LM_GGML_F32Cx4_SET1, VXE.LM_GGML_F32x4_SET1, _mm512_set1_ps, _mm256_set1_ps,
      vec_splats, wasm_f32x4_splat, _mm_set1_ps]
    exact ⟨_, rfl⟩

/-- On a NEON target with FP16 vector arithmetic the half-precision broadcast of 3.5
gives eight lanes 3.5. -/
theorem F16_VEC_SET1_on_NEON_halves :
    LM_GGML_F16_VEC_SET1 neonFp16Target (7 / 2) = some (List.replicate 8 (7 / 2)) := by
  have h1 : selectBackend neonFp16Target = some .NEON := by decide
  have hv : neonFp16Target.ARM_FEATURE_FP16_VECTOR_ARITHMETIC = true := rfl
  simp [LM_GGML_F16_VEC_SET1, h1, hv, NEON.LM_GGML_F16x8_SET1, vdupq_n_f16,
    c_float_to_float16_values.1]

/-- C4 (evaluation of the code). Broadcasting 3.5 on LSX, in either precision,
gives the register `[3 * 2^-149, 0, 0, 0]`: the scalar is converted to the `int` 3,
whose bits are inserted into lane 0 of a zero register, and lanes 1 to 3 stay 0.
On LASX the half-precision broadcast gives eight lanes with the bits of the `int` 3,
each reading `3 * 2^-149`.  No lane equals 3.5. -/
theorem SET1_LSX_LASX_at_input :
    LM_GGML_F32_VEC_SET1 lsxTarget 0 (7 / 2) = some [3 / 2 ^ 149, 0, 0, 0] ∧
      LM_GGML_F16_VEC_SET1 lsxTarget (7 / 2) = some [3 / 2 ^ 149, 0, 0, 0] ∧
      LM_GGML_F16_VEC_SET1 lasxTarget (7 / 2) = some (List.replicate 8 (3 / 2 ^ 149)) ∧
      (3 / 2 ^ 149 : ℚ) ≠ 7 / 2 ∧ (0 : ℚ) ≠ 7 / 2 := by
  have h1 : selectBackend lsxTarget = some .LSX := by decide
  have h2 : selectBackend lasxTarget = some .LASX := by decide
  have hc : c_float_to_int (7 / 2) = 3 := by
    simp only [c_float_to_int]
    norm_num
  have hi : int_bits 3 = 3 := by decide
  have hb : f32_of_bits (int_bits 3) = 3 / 2 ^ 149 := by
    rw [hi]
    norm_num [f32_of_bits]
  refine ⟨?_, ?_, ?_, by norm_num, by norm_num⟩
  · simp [LM_GGML_F32_VEC_SET1, h1, LSX.LM_GGML_F32x4_SET1, __lsx_vinsgr2vr_w, __lsx_vldi_0, hc,
      hb]
  · simp [LM_GGML_F16_VEC_SET1, h1, LSX.LM_GGML_F32Cx4_SET1, __lsx_vinsgr2vr_w, __lsx_vldi_0, hc,
      hb]
  · simp [LM_GGML_F16_VEC_SET1, h2, LASX.LM_GGML_F32Cx8_SET1, __lasx_xvreplgr2vr_w, hc, hb]

/-! ## C5: the scalar-loop conversions -/

/-- The register a scalar-loop load returns: lane `k` is the conversion of the
element at `x + k`. -/
theorem ScalarLoopKind_load_lanes (kind : ScalarLoopKind) (toFull : Nat → ℚ) (mem : HalfMem)
    (x : Addr) :
    kind.load toFull mem x = (List.range kind.EPR).map (fun (k : Nat) => toFull (mem (x + k))) := by
  cases kind <;>
    simp [ScalarLoopKind.load, ScalarLoopKind.EPR, AVX.__avx_f32cx8_load, SSE3.__sse_f16x4_load,
      WASM.__wasm_f16x4_load, LSX.__lsx_f16x4_load, VXE.__lzs_f16cx4_load, localArray, loadLanes,
      List.range, List.range.loop, List.replicate]

/-- What a scalar-loop store leaves at position `k`: the conversion of lane `k`. -/
theorem ScalarLoopKind_store_at (kind : ScalarLoopKind) (toHalf : ℚ → Nat) (mem : HalfMem)
    (x : Addr) (y : Reg) (k : Nat) (hk : k < kind.EPR) :
    kind.store toHalf mem x y (x + k) = toHalf (lane y k) := by
  cases kind <;>
    simp only [ScalarLoopKind.EPR] at hk <;>
    interval_cases k <;>
    simp [ScalarLoopKind.store, AVX.__avx_f32cx8_store, SSE3.__sse_f16x4_store,
      WASM.__wasm_f16x4_store, LSX.__lsx_f16x4_store, VXE.__lzs_f16cx4_store, localArray,
      storeLanes, List.range, List.range.loop, List.replicate, Function.update, lane]

/-- C5. For each scalar-loop convert-on-load/store kind, loading the `EPR` half
values at `x` and storing the register at `p` writes `toHalf (toFull (x[k]))` at
every position `k < EPR`, in the same order; hence when every loaded element
satisfies `toHalf (toFull h) = h`, position `k` receives the bit pattern of
`x[k]`. -/
theorem scalar_loop_load_then_store (kind : ScalarLoopKind) (toFull : Nat → ℚ)
    (toHalf : ℚ → Nat) (src dst : HalfMem) (x p : Addr) (k : Nat) (hk : k < kind.EPR) :
    kind.store toHalf dst p (kind.load toFull src x) (p + k) = toHalf (toFull (src (x + k))) ∧
      ((∀ j, j < kind.EPR → toHalf (toFull (src (x + j))) = src (x + j)) →
        kind.store toHalf dst p (kind.load toFull src x) (p + k) = src (x + k)) := by
  have h : kind.store toHalf dst p (kind.load toFull src x) (p + k)
      = toHalf (toFull (src (x + k))) := by
    rw [ScalarLoopKind_store_at _ _ _ _ _ _ hk, ScalarLoopKind_load_lanes]
    simp [lane, List.getD_eq_getElem?_getD, List.getElem?_map, List.getElem?_range hk]
  exact ⟨h, fun hrt => h.trans (hrt k hk)⟩

/-- Witness for C5: the AVX kind, loading at address 1 and storing at address 16. -/
theorem scalar_loop_load_then_store_witness :
    (2 < ScalarLoopKind.avx_f32cx8.EPR) ∧
      ScalarLoopKind.avx_f32cx8.store exampleToHalf (fun _ => 0) 16
        (ScalarLoopKind.avx_f32cx8.load exampleToFull exampleHalfMem 1) (16 + (2 : Nat))
        = exampleToHalf (exampleToFull (exampleHalfMem (1 + (2 : Nat)))) ∧
      ScalarLoopKind.avx_f32cx8.store exampleToHalf (fun _ => 0) 16
        (ScalarLoopKind.avx_f32cx8.load exampleToFull exampleHalfMem 1) (16 + (2 : Nat))
        = exampleHalfMem (1 + (2 : Nat)) :=
  ⟨by decide,
    (scalar_loop_load_then_store .avx_f32cx8 exampleToFull exampleToHalf exampleHalfMem
      (fun _ => 0) 1 16 2 (by decide)).1,
    (scalar_loop_load_then_store .avx_f32cx8 exampleToFull exampleToHalf exampleHalfMem
      (fun _ => 0) 1 16 2 (by decide)).2 (fun j _ => by
        unfold exampleHalfMem exampleToFull exampleToHalf
        split <;> norm_num)⟩

/-! ## C6: the register counts -/

/-- With no branch selected nothing is defined, so no constant has a value. -/
theorem constValue_no_branch (n : Name) : constValue (withARR []) expansionFuel n = none := by
  rfl

/-- C6. For every target and precision for which the header defines both STEP and
EPR, EPR divides STEP, the register count `ARR` is their quotient, and that
quotient is a power of two, one of 2, 4 and 8. -/
theorem ARR_is_power_of_two (t : Features) (p : Precision) (step epr : Nat)
    (hs : STEP t p = some step) (he : EPR t p = some epr) :
    epr ∣ step ∧ ARR t p = some (step / epr) ∧ (∃ k, step / epr = 2 ^ k) ∧
      (step / epr = 2 ∨ step / epr = 4 ∨ step / epr = 8) := by
  suffices h : epr ∣ step ∧ ARR t p = some (step / epr) ∧
      (step / epr = 4 ∨ step / epr = 8) by
    obtain ⟨h1, h2, h3⟩ := h
    refine ⟨h1, h2, ?_, ?_⟩
    · rcases h3 with h | h
      · exact ⟨2, by rw [h]; rfl⟩
      · exact ⟨3, by rw [h]; rfl⟩
    · rcases h3 with h | h
      · exact Or.inr (Or.inl h)
      · exact Or.inr (Or.inr h)
  cases hsel : selectBackend t with
  | none =>
    have henv : simdEnv t = withARR [] := by simp [simdEnv, hsel]
    cases p <;>
      simp [STEP, LM_GGML_F32_STEP, LM_GGML_F16_STEP, henv, constValue_no_branch] at hs
  | some bk =>
    cases p
    · simp only [STEP, EPR, ARR, LM_GGML_F32_STEP, LM_GGML_F32_EPR, LM_GGML_F32_ARR,
        simdEnv_of_select hsel, F32_STEP_branch, F32_EPR_branch, F32_ARR_branch] at hs he ⊢
      cases bk <;> simp at hs he <;> subst hs <;> subst he <;> decide
    · simp only [STEP, EPR, ARR, LM_GGML_F16_STEP, LM_GGML_F16_EPR, LM_GGML_F16_ARR,
        simdEnv_of_select hsel, F16_STEP_branch, F16_EPR_branch, F16_ARR_branch] at hs he ⊢
      generalize t.ARM_FEATURE_FP16_VECTOR_ARITHMETIC = v at hs he ⊢
      cases bk <;> cases v <;> simp at hs he <;> subst hs <;> subst he <;> decide

/-- Witness for C6: half precision on an AVX512 target. -/
theorem ARR_is_power_of_two_witness :
    STEP avx512Target .F16 = some 64 ∧ EPR avx512Target .F16 = some 16 ∧
      (16 ∣ 64 ∧ ARR avx512Target .F16 = some (64 / 16) ∧ (∃ k, 64 / 16 = 2 ^ k) ∧
        (64 / 16 = 2 ∨ 64 / 16 = 4 ∨ 64 / 16 = 8)) :=
  ⟨by decide, by decide, ARR_is_power_of_two avx512Target .F16 64 16 (by decide) (by decide)⟩

/-! ## C7: which constants a branch defines -/

/-- C7 (counterexample). The SVE branch defines `LM_GGML_SIMD` and no
`LM_GGML_F32_STEP`, so the claim fails on an SVE target: `LM_GGML_F32_ARR` has no
value there. -/
theorem SVE_defines_no_F32_STEP :
    isDefined (simdEnv sveTarget) .LM_GGML_SIMD = true ∧
      isDefined (simdEnv sveTarget) .LM_GGML_F32_STEP = false ∧
      LM_GGML_F32_ARR sveTarget = none ∧
      ¬ (isDefined (simdEnv sveTarget) .LM_GGML_SIMD = true → stepAndEprDefined sveTarget = true) := by
  decide

/-- `LM_GGML_SIMD` is defined exactly when a branch is selected. -/
theorem SIMD_defined_iff_selected (t : Features) :
    isDefined (simdEnv t) .LM_GGML_SIMD = true ↔ ∃ bk, selectBackend t = some bk := by
  cases hsel : selectBackend t with
  | none =>
    have henv : simdEnv t = withARR [] := by simp [simdEnv, hsel]
    rw [henv]
    simp
    decide
  | some bk =>
    rw [simdEnv_of_select hsel]
    simp
    clear hsel
    generalize t.ARM_FEATURE_FP16_VECTOR_ARITHMETIC = v
    generalize t.FMA = m
    generalize t.F16C = c
    revert bk v m c
    decide

/-- The four constants and the two register counts on every branch but SVE. -/
theorem stepAndEpr_branch (bk : Backend) (v m c : Bool) (h : bk ≠ .SVE) :
    (isDefined (branchEnv bk v m c) .LM_GGML_F32_STEP && isDefined (branchEnv bk v m c) .LM_GGML_F32_EPR &&
      isDefined (branchEnv bk v m c) .LM_GGML_F16_STEP && isDefined (branchEnv bk v m c) .LM_GGML_F16_EPR &&
      (constValue (branchEnv bk v m c) expansionFuel .LM_GGML_F32_ARR).isSome &&
      (constValue (branchEnv bk v m c) expansionFuel .LM_GGML_F16_ARR).isSome) = true := by
  revert bk v m c
  decide

/-- The constants on the SVE branch. -/
theorem stepAndEpr_SVE (v m c : Bool) :
    isDefined (branchEnv .SVE v m c) .LM_GGML_F32_STEP = false ∧
      isDefined (branchEnv .SVE v m c) .LM_GGML_F32_EPR = true ∧
      isDefined (branchEnv .SVE v m c) .LM_GGML_F16_STEP = true ∧
      isDefined (branchEnv .SVE v m c) .LM_GGML_F16_EPR = true ∧
      constValue (branchEnv .SVE v m c) expansionFuel .LM_GGML_F32_ARR = none ∧
      constValue (branchEnv .SVE v m c) expansionFuel .LM_GGML_F16_ARR = some 4 := by
  revert v m c
  decide

/-- C7 (amended). Every backend that defines `LM_GGML_SIMD`, other than SVE,
defines all four constants `LM_GGML_F32_STEP`, `LM_GGML_F32_EPR`, `LM_GGML_F16_STEP`
and `LM_GGML_F16_EPR`, so that `LM_GGML_F32_ARR` and `LM_GGML_F16_ARR` both have a
value; the SVE backend defines `LM_GGML_F32_EPR`, `LM_GGML_F16_STEP` and
`LM_GGML_F16_EPR` but no `LM_GGML_F32_STEP`, so that there `LM_GGML_F16_ARR` has a
value (4) and `LM_GGML_F32_ARR` has none. -/
theorem constants_defined_except_SVE (t : Features)
    (h : isDefined (simdEnv t) .LM_GGML_SIMD = true) :
    (selectBackend t ≠ some .SVE → stepAndEprDefined t = true) ∧
      (selectBackend t = some .SVE →
        isDefined (simdEnv t) .LM_GGML_F32_STEP = false ∧
        isDefined (simdEnv t) .LM_GGML_F32_EPR = true ∧
        isDefined (simdEnv t) .LM_GGML_F16_STEP = true ∧
        isDefined (simdEnv t) .LM_GGML_F16_EPR = true ∧
        LM_GGML_F32_ARR t = none ∧ LM_GGML_F16_ARR t = some 4) := by
  obtain ⟨bk, hsel⟩ := (SIMD_defined_iff_selected t).mp h
  constructor
  · intro hne
    have hbk : bk ≠ .SVE := fun e => hne (by rw [hsel, e])
    simp only [stepAndEprDefined, LM_GGML_F32_ARR, LM_GGML_F16_ARR, simdEnv_of_select hsel]
    exact stepAndEpr_branch bk _ _ _ hbk
  · intro hs
    simp only [LM_GGML_F32_ARR, LM_GGML_F16_ARR, simdEnv_of_select hs]
    exact stepAndEpr_SVE _ _ _

/-- Witness for C7 (amended): an AVX target and an SVE target. -/
theorem constants_defined_except_SVE_witness :
    isDefined (simdEnv avxTarget) .LM_GGML_SIMD = true ∧ selectBackend avxTarget ≠ some .SVE ∧
      stepAndEprDefined avxTarget = true ∧
      isDefined (simdEnv sveTarget) .LM_GGML_SIMD = true ∧ selectBackend sveTarget = some .SVE ∧
      LM_GGML_F32_ARR sveTarget = none ∧ LM_GGML_F16_ARR sveTarget = some 4 :=
  ⟨by decide, by decide,
    (constants_defined_except_SVE avxTarget (by decide)).1 (by decide),
    by decide, by decide,
    ((constants_defined_except_SVE sveTarget (by decide)).2 (by decide)).2.2.2.2.1,
    ((constants_defined_except_SVE sveTarget (by decide)).2 (by decide)).2.2.2.2.2⟩

/-! ## C8: the façade names and their alias chains -/

/-- On every branch and setting of the nested conditionals other than SVE without
`__ARM_FEATURE_FP16_VECTOR_ARITHMETIC`, all sixteen façade names resolve. -/
theorem facade_resolves_branch (bk : Backend) (v m c : Bool) (h : ¬ (bk = .SVE ∧ v = false)) :
    facadeNames.all (fun n => resolves (branchEnv bk v m c) expansionFuel n) = true := by
  revert bk v m c
  decide

/-- The same for targets. -/
theorem facade_resolves_elsewhere (t : Features) (bk : Backend)
    (hsel : selectBackend t = some bk)
    (h : ¬ (bk = .SVE ∧ t.ARM_FEATURE_FP16_VECTOR_ARITHMETIC = false)) :
    facadeResolves t = true := by
  simp only [facadeResolves, simdEnv_of_select hsel]
  exact facade_resolves_branch bk _ _ _ h

/-- C8 (evaluation of the code). On an SVE target without
`__ARM_FEATURE_FP16_VECTOR_ARITHMETIC` the name `LM_GGML_F16_VEC_REDUCE` is an alias
of `LM_GGML_F32Cx4_REDUCE` (line 290), which is an alias of `LM_GGML_F32x4_REDUCE`
(line 280), which the SVE branch does not define: the chain ends at an undefined
name.  The other fifteen façade names resolve. -/
theorem SVE_F16_VEC_REDUCE_unresolved :
    selectBackend sveTarget = some .SVE ∧
      lookup (simdEnv sveTarget) .LM_GGML_F16_VEC_REDUCE
        = some ⟨.LM_GGML_F16_VEC_REDUCE, .object, .ref .LM_GGML_F32Cx4_REDUCE⟩ ∧
      lookup (simdEnv sveTarget) .LM_GGML_F32Cx4_REDUCE
        = some ⟨.LM_GGML_F32Cx4_REDUCE, .object, .ref .LM_GGML_F32x4_REDUCE⟩ ∧
      lookup (simdEnv sveTarget) .LM_GGML_F32x4_REDUCE = none ∧
      resolves (simdEnv sveTarget) expansionFuel .LM_GGML_F16_VEC_REDUCE = false ∧
      facadeResolves sveTarget = false ∧
      (facadeNames.filter (fun n => !resolves (simdEnv sveTarget) expansionFuel n))
        = [.LM_GGML_F16_VEC_REDUCE] := by
  decide

/-! ## C9: the argument shape of the façade reduce -/

/-- C9 (counterexample). On an SVE target `LM_GGML_F32_VEC_REDUCE` takes nine
arguments, not two: the result and eight registers. -/
theorem SVE_F32_VEC_REDUCE_arity :
    arity (simdEnv sveTarget) expansionFuel .LM_GGML_F32_VEC_REDUCE = some 9 ∧
      ¬ (arity (simdEnv sveTarget) expansionFuel .LM_GGML_F32_VEC_REDUCE = some 2) := by
  decide

/-- Argument count of the façade reduce on each branch. -/
theorem F32_VEC_REDUCE_arity_branch (bk : Backend) (v m c : Bool) :
    arity (branchEnv bk v m c) expansionFuel .LM_GGML_F32_VEC_REDUCE
      = some (if bk = .SVE then 9 else 2) := by
  revert bk v m c
  decide

/-- C9 (amended). For every backend other than SVE the façade reduce
`LM_GGML_F32_VEC_REDUCE` takes exactly two arguments, the result and one register
array; on the SVE backend it takes nine, the result and eight registers. -/
theorem F32_VEC_REDUCE_arity (t : Features) (bk : Backend) (hsel : selectBackend t = some bk) :
    arity (simdEnv t) expansionFuel .LM_GGML_F32_VEC_REDUCE
      = some (if bk = .SVE then 9 else 2) := by
  rw [simdEnv_of_select hsel]
  exact F32_VEC_REDUCE_arity_branch bk _ _ _

/-- Witness for C9 (amended) on an AVX target. -/
theorem F32_VEC_REDUCE_arity_witness :
    selectBackend avxTarget = some .AVX ∧
      arity (simdEnv avxTarget) expansionFuel .LM_GGML_F32_VEC_REDUCE = some 2 :=
  ⟨by decide, F32_VEC_REDUCE_arity avxTarget .AVX (by decide)⟩

/-! ## C10: the order of the backend chain -/

/-- C10. Backend selection is a function of the target-feature flags.  SVE with
ARM FMA is bound whatever else is set; NEON with ARM FMA is bound whenever SVE with
ARM FMA is not, whatever x86 extension is set; and when neither ARM condition holds,
AVX512F binds the AVX512 kind (STEP 64, EPR 16) even if AVX and SSE3 are set, and
AVX without AVX512F binds the AVX kind (STEP 32, EPR 8) even if SSE3 is set. -/
theorem selectBackend_priority (t : Features) :
    (t.ARM_FEATURE_SVE = true → t.ARM_FEATURE_FMA = true → selectBackend t = some .SVE) ∧
    (t.ARM_FEATURE_SVE = false → t.ARM_NEON = true → t.ARM_FEATURE_FMA = true →
      selectBackend t = some .NEON) ∧
    ((t.ARM_FEATURE_SVE && t.ARM_FEATURE_FMA) = false → (t.ARM_NEON && t.ARM_FEATURE_FMA) = false →
      t.AVX512F = true →
      selectBackend t = some .AVX512 ∧ LM_GGML_F32_STEP t = some 64 ∧ LM_GGML_F32_EPR t = some 16
        ∧ LM_GGML_F16_STEP t = some 64 ∧ LM_GGML_F16_EPR t = some 16) ∧
    ((t.ARM_FEATURE_SVE && t.ARM_FEATURE_FMA) = false → (t.ARM_NEON && t.ARM_FEATURE_FMA) = false →
      t.AVX512F = false → t.AVX = true →
      selectBackend t = some .AVX ∧ LM_GGML_F32_STEP t = some 32 ∧ LM_GGML_F32_EPR t = some 8
        ∧ LM_GGML_F16_STEP t = some 32 ∧ LM_GGML_F16_EPR t = some 8) := by
  refine ⟨?_, ?_, ?_, ?_⟩
  · intro h1 h2
    simp [selectBackend, h1, h2]
  · intro h1 h2 h3
    simp [selectBackend, h1, h2, h3]
  · intro h1 h2 h3
    have hsel : selectBackend t = some .AVX512 := by
      simp only [selectBackend, h1, h2, h3]
      simp
    refine ⟨hsel, ?_, ?_, ?_, ?_⟩
    · rw [LM_GGML_F32_STEP, simdEnv_of_select hsel, F32_STEP_branch]
    · rw [LM_GGML_F32_EPR, simdEnv_of_select hsel, F32_EPR_branch]
    · rw [LM_GGML_F16_STEP, simdEnv_of_select hsel, F16_STEP_branch]
    · rw [LM_GGML_F16_EPR, simdEnv_of_select hsel, F16_EPR_branch]
  · intro h1 h2 h3 h4
    have hsel : selectBackend t = some .AVX := by
      simp only [selectBackend, h1, h2, h3, h4]
      simp
    refine ⟨hsel, ?_, ?_, ?_, ?_⟩
    · rw [LM_GGML_F32_STEP, simdEnv_of_select hsel, F32_STEP_branch]
    · rw [LM_GGML_F32_EPR, simdEnv_of_select hsel, F32_EPR_branch]
    · rw [LM_GGML_F16_STEP, simdEnv_of_select hsel, F16_STEP_branch]
    · rw [LM_GGML_F16_EPR, simdEnv_of_select hsel, F16_EPR_branch]

/-- Witness for C10: four targets, one for each part. -/
theorem selectBackend_priority_witness :
    selectBackend everyFeatureTarget = some .SVE ∧
      selectBackend neonAndX86Target = some .NEON ∧
      (selectBackend avx512Target = some .AVX512 ∧ LM_GGML_F32_STEP avx512Target = some 64 ∧
        LM_GGML_F32_EPR avx512Target = some 16 ∧ LM_GGML_F16_STEP avx512Target = some 64 ∧
        LM_GGML_F16_EPR avx512Target = some 16) ∧
      (selectBackend avxTarget = some .AVX ∧ LM_GGML_F32_STEP avxTarget = some 32 ∧
        LM_GGML_F32_EPR avxTarget = some 8 ∧ LM_GGML_F16_STEP avxTarget = some 32 ∧
        LM_GGML_F16_EPR avxTarget = some 8) :=
  ⟨(selectBackend_priority everyFeatureTarget).1 (by decide) (by decide),
    (selectBackend_priority neonAndX86Target).2.1 (by decide) (by decide) (by decide),
    (selectBackend_priority avx512Target).2.2.1 (by decide) (by decide) (by decide),
    (selectBackend_priority avxTarget).2.2.2 (by decide) (by decide) (by decide) (by decide)⟩

/-! ## C11: x86 extensions against the other vector extensions -/

/-- The chain in terms of the single conditions: the selected branch is the first
of the ten, in source order, whose condition holds. -/
theorem selectBackend_eq_first (t : Features) :
    selectBackend t =
      [Backend.SVE, .NEON, .AVX512, .AVX, .POWER9, .WASM, .SSE3, .LASX, .LSX, .VXE].find?
        (fun bk => backendPredicate bk t) := by
  simp only [selectBackend, backendPredicate, List.find?]
  cases h1 : (t.ARM_FEATURE_SVE && t.ARM_FEATURE_FMA) <;>
  cases h2 : (t.ARM_NEON && t.ARM_FEATURE_FMA) <;>
  cases h3 : t.AVX512F <;> cases h4 : t.AVX <;> cases h5 : t.POWER9_VECTOR <;>
  cases h6 : t.wasm_simd128 <;> cases h7 : t.SSE3 <;> cases h8 : t.loongarch_asx <;>
  cases h9 : t.loongarch_sx <;> cases h10 : (t.VXE || t.VXE2) <;> simp

/-- C11 (counterexample). On a target where the SSE3 and the POWER9 condition hold
and no ARM condition does, the POWER9 branch is bound, not an x86 one: line 607
comes before line 791. -/
theorem POWER9_outranks_SSE3 :
    noArmPredicate sse3Power9Target = true ∧ x86Predicate sse3Power9Target = true ∧
      otherPredicate sse3Power9Target = true ∧
      selectBackend sse3Power9Target = some .POWER9 ∧
      ¬ (noArmPredicate sse3Power9Target = true → x86Predicate sse3Power9Target = true →
          otherPredicate sse3Power9Target = true → boundToX86 sse3Power9Target = true) := by
  decide

/-- C11 (amended). AVX512F and AVX outrank every other vector extension, and SSE3
outranks LASX, LSX and s390x VXE/VXE2, but POWER9 vector and WASM SIMD128 outrank
SSE3: for every target on which no ARM condition holds and an x86 condition and one
of the other conditions both hold, the bound backend is an x86 one exactly when
AVX512F or AVX is set or neither the POWER9 nor the WASM condition holds; when SSE3
is the only x86 condition, POWER9 is bound if its condition holds and otherwise WASM
if its condition holds. -/
theorem x86_against_others (t : Features) (harm : noArmPredicate t = true)
    (hx : x86Predicate t = true) (_ho : otherPredicate t = true) :
    (boundToX86 t = true ↔
        (t.AVX512F = true ∨ t.AVX = true ∨
          (t.POWER9_VECTOR = false ∧ t.wasm_simd128 = false))) ∧
      (t.AVX512F = false → t.AVX = false → t.POWER9_VECTOR = true →
        selectBackend t = some .POWER9) ∧
      (t.AVX512F = false → t.AVX = false → t.POWER9_VECTOR = false → t.wasm_simd128 = true →
        selectBackend t = some .WASM) := by
  simp only [noArmPredicate, x86Predicate, backendPredicate, Bool.and_eq_true,
    Bool.or_eq_true, Bool.not_eq_true'] at harm hx
  obtain ⟨h1, h2⟩ := harm
  have hsel : selectBackend t =
      if t.AVX512F = true then some .AVX512
      else if t.AVX = true then some .AVX
      else if t.POWER9_VECTOR = true then some .POWER9
      else if t.wasm_simd128 = true then some .WASM
      else if t.SSE3 = true then some .SSE3
      else if t.loongarch_asx = true then some .LASX
      else if t.loongarch_sx = true then some .LSX
      else if (t.VXE || t.VXE2) = true then some .VXE
      else none := by
    simp only [selectBackend, h1, h2]
    simp
  rw [boundToX86, hsel]
  by_cases h3 : t.AVX512F = true <;> by_cases h4 : t.AVX = true <;>
    by_cases h5 : t.POWER9_VECTOR = true <;> by_cases h6 : t.wasm_simd128 = true <;>
    by_cases h7 : t.SSE3 = true <;> simp_all

/-- Witness for C11 (amended): SSE3 with LSX binds SSE3, SSE3 with POWER9 binds
POWER9, SSE3 with WASM binds WASM. -/
theorem x86_against_others_witness :
    boundToX86 sse3LsxTarget = true ∧ selectBackend sse3Power9Target = some .POWER9 ∧
      selectBackend sse3WasmTarget = some .WASM :=
  ⟨(x86_against_others sse3LsxTarget (by decide) (by decide) (by decide)).1.mpr
      (Or.inr (Or.inr ⟨by decide, by decide⟩)),
    (x86_against_others sse3Power9Target (by decide) (by decide) (by decide)).2.1
      (by decide) (by decide) (by decide),
    (x86_against_others sse3WasmTarget (by decide) (by decide) (by decide)).2.2
      (by decide) (by decide) (by decide) (by decide)⟩

/-! ## C12: when `LM_GGML_SIMD` is defined -/

/-- A branch is selected exactly when one of the ten conditions holds. -/
theorem selected_iff_predicate (t : Features) :
    (∃ bk, selectBackend t = some bk) ↔ ∃ bk, backendPredicate bk t = true := by
  rw [selectBackend_eq_first]
  constructor
  · rintro ⟨bk, h⟩
    exact ⟨bk, by simpa using List.find?_some h⟩
  · rintro ⟨bk, h⟩
    cases hf : List.find? (fun bk => backendPredicate bk t)
        [Backend.SVE, .NEON, .AVX512, .AVX, .POWER9, .WASM, .SSE3, .LASX, .LSX, .VXE] with
    | some b => exact ⟨b, rfl⟩
    | none =>
      rw [List.find?_eq_none] at hf
      have := hf bk (by cases bk <;> simp)
      simp [h] at this

/-- Two different branches never make the same list of definitions. -/
theorem branchEnv_injective (bk bk' : Backend) (v m c : Bool)
    (h : branchEnv bk v m c = branchEnv bk' v m c) : bk = bk' := by
  revert bk bk' v m c
  decide

/-- With no branch selected the vector part of the header defines nothing. -/
theorem simdEnv_of_none {t : Features} (h : selectBackend t = none) : simdEnv t = [] := by
  simp only [simdEnv, h]
  rfl

/-- C12. `LM_GGML_SIMD` is defined if and only if at least one of the ten backend
conditions holds; then the definitions bound are those of exactly one branch, the
selected one; and when no condition holds nothing is defined: none of the sixteen
façade names, none of the four STEP and EPR constants, neither `LM_GGML_F32_ARR`
nor `LM_GGML_F16_ARR`. -/
theorem SIMD_defined_iff_predicate (t : Features) :
    (isDefined (simdEnv t) .LM_GGML_SIMD = true ↔ ∃ bk, backendPredicate bk t = true) ∧
      ((∃ bk, backendPredicate bk t = true) →
        ∃ bk, selectBackend t = some bk ∧
          ∀ bk', simdEnv t =
              branchEnv bk' t.ARM_FEATURE_FP16_VECTOR_ARITHMETIC t.FMA t.F16C ↔ bk' = bk) ∧
      ((∀ bk, backendPredicate bk t = false) →
        simdEnv t = [] ∧ isDefined (simdEnv t) .LM_GGML_SIMD = false ∧
          ∀ n ∈ simdNames, isDefined (simdEnv t) n = false) := by
  refine ⟨(SIMD_defined_iff_selected t).trans (selected_iff_predicate t), ?_, ?_⟩
  · intro h
    obtain ⟨bk, hsel⟩ := (selected_iff_predicate t).mpr h
    refine ⟨bk, hsel, fun bk' => ⟨fun he => ?_, fun he => ?_⟩⟩
    · rw [simdEnv_of_select hsel] at he
      exact (branchEnv_injective _ _ _ _ _ he).symm
    · rw [he]
      exact simdEnv_of_select hsel
  · intro h
    have hnone : selectBackend t = none := by
      cases hs : selectBackend t with
      | none => rfl
      | some bk =>
        obtain ⟨b, hb⟩ := (selected_iff_predicate t).mp ⟨bk, hs⟩
        rw [h b] at hb
        exact absurd hb (by decide)
    rw [simdEnv_of_none hnone]
    exact ⟨rfl, rfl, fun n _ => rfl⟩

/-- Witness for C12: an AVX target binds the AVX branch alone, and a target with no
feature defines nothing. -/
theorem SIMD_defined_iff_predicate_witness :
    (∃ bk, selectBackend avxTarget = some bk ∧
        ∀ bk', simdEnv avxTarget =
            branchEnv bk' avxTarget.ARM_FEATURE_FP16_VECTOR_ARITHMETIC avxTarget.FMA
              avxTarget.F16C ↔ bk' = bk) ∧
      (simdEnv noFeatures = [] ∧ isDefined (simdEnv noFeatures) .LM_GGML_SIMD = false ∧
        ∀ n ∈ simdNames, isDefined (simdEnv noFeatures) n = false) :=
  ⟨(SIMD_defined_iff_predicate avxTarget).2.1 ⟨.AVX, by decide⟩,
    (SIMD_defined_iff_predicate noFeatures).2.2 (by decide)⟩

/-! ## C13 and C14: the scalar conversion names -/

/-- A conversion branch is selected exactly when a hardware strategy is
available. -/
theorem selectConvBranch_isSome (t : Features) :
    (selectConvBranch t).isSome = hardwareConversionAvailable t := by
  simp only [selectConvBranch, hardwareConversionAvailable]
  cases (t.ARM_NEON && !(t.CUDACC && decide (t.CUDACC_VER_MAJOR ≤ 11)) && !t.MUSACC) <;>
    cases t.F16C <;> cases t.POWER9_VECTOR <;> cases (t.riscv && t.riscv_zfhmin) <;>
    cases t.NNPA <;> rfl

/-- The routine `LM_GGML_CPU_FP16_TO_FP32` ends at, by selected branch. -/
theorem boundFP16_TO_FP32_branch (b : Option ConvBranch) (msc : Bool) :
    convResolve (convEnvOf b msc) 4 .LM_GGML_CPU_FP16_TO_FP32 =
      some (match b with
        | none => .lm_ggml_lookup_fp16_to_fp32
        | some .NEON => .neon_compute_fp16_to_fp32
        | some .F16C => .lm_ggml_lookup_fp16_to_fp32
        | some .POWER9 => .power_compute_fp16_to_fp32
        | some .RISCV => .riscv_compute_fp16_to_fp32
        | some .NNPA => .nnpa_compute_fp16_to_fp32) := by
  revert b msc
  decide

/-- C13 (counterexample). On an x86 target with F16C, `LM_GGML_CPU_FP16_TO_FP32` is
bound to the table lookup although a hardware strategy is available: the F16C
branch (lines 56 to 63) defines the two `LM_GGML_CPU_COMPUTE_*` names only. -/
theorem F16C_uses_table_lookup :
    hardwareConversionAvailable f16cTarget = true ∧
      boundFP16_TO_FP32 f16cTarget = some .lm_ggml_lookup_fp16_to_fp32 ∧
      convResolve (convEnv f16cTarget) 4 .LM_GGML_CPU_COMPUTE_FP16_TO_FP32 = some .cvtsh_ss ∧
      ¬ (boundFP16_TO_FP32 f16cTarget = some .lm_ggml_lookup_fp16_to_fp32 →
          hardwareConversionAvailable f16cTarget = false) := by
  decide

/-- C13 (amended). `LM_GGML_CPU_FP16_TO_FP32` follows the chain NEON, F16C, POWER9,
RISC-V Zfhmin, NNPA: it is bound to the table lookup `lm_ggml_lookup_fp16_to_fp32`
exactly when no branch is selected or the F16C branch is, and to the conversion
routine of the branch on NEON, POWER9, RISC-V and NNPA; on a target whose branch is
F16C the native intrinsic is bound to `LM_GGML_CPU_COMPUTE_FP16_TO_FP32` only. -/
theorem FP16_TO_FP32_binding (t : Features) :
    (boundFP16_TO_FP32 t = some .lm_ggml_lookup_fp16_to_fp32 ↔
        (selectConvBranch t = none ∨ selectConvBranch t = some .F16C)) ∧
      (selectConvBranch t = none ↔ hardwareConversionAvailable t = false) ∧
      (selectConvBranch t = some .NEON →
        boundFP16_TO_FP32 t = some .neon_compute_fp16_to_fp32) ∧
      (selectConvBranch t = some .POWER9 →
        boundFP16_TO_FP32 t = some .power_compute_fp16_to_fp32) ∧
      (selectConvBranch t = some .RISCV →
        boundFP16_TO_FP32 t = some .riscv_compute_fp16_to_fp32) ∧
      (selectConvBranch t = some .NNPA →
        boundFP16_TO_FP32 t = some .nnpa_compute_fp16_to_fp32) ∧
      (selectConvBranch t = some .F16C →
        convResolve (convEnv t) 4 .LM_GGML_CPU_COMPUTE_FP16_TO_FP32
          = some (if t.MSC_VER then .msvc_mm_cvtph_ps else .cvtsh_ss)) := by
  have hb := boundFP16_TO_FP32_branch (selectConvBranch t) t.MSC_VER
  have ha := selectConvBranch_isSome t
  simp only [boundFP16_TO_FP32, convEnv]
  refine ⟨?_, ?_, ?_, ?_, ?_, ?_, ?_⟩
  · rw [hb]
    cases selectConvBranch t with
    | none => simp
    | some b => cases b <;> simp
  · rw [← ha]
    cases selectConvBranch t <;> simp
  · intro h; rw [hb, h]
  · intro h; rw [hb, h]
  · intro h; rw [hb, h]
  · intro h; rw [hb, h]
  · intro h
    rw [h]
    cases t.MSC_VER <;> rfl

/-- Witness for C13 (amended): a NEON target, an F16C target and a target with no
feature. -/
theorem FP16_TO_FP32_binding_witness :
    boundFP16_TO_FP32 neonTarget = some .neon_compute_fp16_to_fp32 ∧
      boundFP16_TO_FP32 f16cTarget = some .lm_ggml_lookup_fp16_to_fp32 ∧
      boundFP16_TO_FP32 noFeatures = some .lm_ggml_lookup_fp16_to_fp32 :=
  ⟨(FP16_TO_FP32_binding neonTarget).2.2.1 (by decide),
    (FP16_TO_FP32_binding f16cTarget).1.mpr (Or.inr (by decide)),
    (FP16_TO_FP32_binding noFeatures).1.mpr (Or.inl (by decide))⟩

/-- C14. For every target, including one on which no branch of the chain is
selected, `LM_GGML_CPU_FP16_TO_FP32` and `LM_GGML_CPU_FP32_TO_FP16` are each defined
exactly once: never missing, never redefined. -/
theorem conversion_names_defined_once (t : Features) :
    definitionCount (convEnv t) .LM_GGML_CPU_FP16_TO_FP32 = 1 ∧
      definitionCount (convEnv t) .LM_GGML_CPU_FP32_TO_FP16 = 1 ∧
      convDefined (convEnv t) .LM_GGML_CPU_FP16_TO_FP32 = true ∧
      convDefined (convEnv t) .LM_GGML_CPU_FP32_TO_FP16 = true := by
  simp only [convEnv]
  generalize selectConvBranch t = b
  generalize t.MSC_VER = msc
  revert b msc
  decide

/-! ## C15: the table lookup -/

/-- C15. The table lookup is total: for a table of the declared length `1 << 16`
and every 16-bit pattern `f` (NaN and infinity encodings are patterns like any
other), the index is `f` itself, it lies inside the table, and the function returns
the table entry at `f`; the read is never out of bounds. -/
theorem lookup_total {α : Type} (table : List α)
    (hlen : table.length = lm_ggml_table_f32_f16_length) (f : Nat) (hf : f < 2 ^ 16) :
    f % 2 ^ 16 = f ∧ f < table.length ∧
      ∃ h : f < table.length, lm_ggml_lookup_fp16_to_fp32 table f = some (table.get ⟨f, h⟩) := by
  have hmod : f % 2 ^ 16 = f := Nat.mod_eq_of_lt hf
  have hlt : f < table.length := by
    rw [hlen]
    exact hf
  refine ⟨hmod, hlt, hlt, ?_⟩
  simp only [lm_ggml_lookup_fp16_to_fp32, hmod]
  exact List.getElem?_eq_getElem hlt

/-- Witness for C15: the table whose entry `i` is `i`, at the infinity pattern
`0x7C00`. -/
theorem lookup_total_witness :
    (List.range (1 <<< 16)).length = lm_ggml_table_f32_f16_length ∧ 0x7C00 < 2 ^ 16 ∧
      ∃ h : 0x7C00 < (List.range (1 <<< 16)).length,
        lm_ggml_lookup_fp16_to_fp32 (List.range (1 <<< 16)) 0x7C00
          = some ((List.range (1 <<< 16)).get ⟨0x7C00, h⟩) :=
  ⟨by simp [lm_ggml_table_f32_f16_length], by decide,
    (lookup_total (List.range (1 <<< 16)) (by simp [lm_ggml_table_f32_f16_length]) 0x7C00
      (by decide)).2.2⟩

/-! ## C19 and C20: the two conversions as functions -/

theorem allBelow_spec (p : Nat → Bool) (n : Nat) (h : allBelow p n = true) :
    ∀ i, i < n → p i = true := by
  induction n with
  | zero => intro i hi; omega
  | succ k ih =>
    simp only [allBelow, Bool.and_eq_true] at h
    intro i hi
    rcases Nat.lt_succ_iff_lt_or_eq.mp hi with hlt | heq
    · exact ih h.2 i hlt
    · rw [heq]; exact h.1

/-- The round trip at the 4096 patterns whose exponent field is 0 or 31 (zeros,
subnormals, infinities, NaNs), by evaluation. -/
theorem roundTripOK_special :
    allBelow (fun m => roundTripOK m && roundTripOK (0x7C00 + m) && roundTripOK (0x8000 + m)
      && roundTripOK (0xFC00 + m)) 1024 = true := by
  decide!

/-- The round trip at a pattern with exponent field from 1 to 30: a normal half
widens with 13 zero bits appended to its fraction, which rounding removes. -/
theorem roundTripOK_normal (h : Nat) (hh : h < 2 ^ 16) (h0 : h / 2 ^ 10 % 32 ≠ 0)
    (h31 : h / 2 ^ 10 % 32 ≠ 31) : roundTripOK h = true := by
  have hnan : isNaN16 h = false := by
    unfold isNaN16
    rw [decide_eq_false_iff_not]
    intro hc
    exact h31 hc.1
  have hfull : binary16_to_binary32 h =
      (h / 2 ^ 15 % 2) * 2 ^ 31 + (h / 2 ^ 10 % 32 + 112) * 2 ^ 23 + (h % 2 ^ 10) * 2 ^ 13 := by
    simp only [binary16_to_binary32, h0, h31, if_false]
  simp only [roundTripOK, hnan, hfull, Bool.false_eq_true, if_false, decide_eq_true_eq]
  generalize hs : h / 2 ^ 15 % 2 = s
  generalize he : h / 2 ^ 10 % 32 = e at h0 h31
  generalize hm : h % 2 ^ 10 = m
  have hsb : s < 2 := by omega
  have heb : e < 32 := by omega
  have hmb : m < 1024 := by omega
  have hdec : h = s * 2 ^ 15 + e * 2 ^ 10 + m := by omega
  have f1 : (s * 2 ^ 31 + (e + 112) * 2 ^ 23 + m * 2 ^ 13) / 2 ^ 31 % 2 = s := by omega
  have f2 : (s * 2 ^ 31 + (e + 112) * 2 ^ 23 + m * 2 ^ 13) / 2 ^ 23 % 256 = e + 112 := by omega
  have f3 : (s * 2 ^ 31 + (e + 112) * 2 ^ 23 + m * 2 ^ 13) % 2 ^ 23 = m * 2 ^ 13 := by omega
  have r1 : roundNearest false (2 ^ 23 + m * 2 ^ 13) 13 = 2 ^ 10 + m := by
    have d1 : (2 ^ 23 + m * 2 ^ 13) / 2 ^ 13 = 2 ^ 10 + m := by omega
    have d2 : (2 ^ 23 + m * 2 ^ 13) % 2 ^ 13 = 0 := by omega
    simp only [roundNearest, d1, d2]
    norm_num
  simp only [binary32_to_binary16, f1, f2, f3, r1]
  have c1 : ¬ (e + 112 = 255) := by omega
  have c2 : ¬ (e + 112 = 0) := by omega
  have c3 : 113 ≤ e + 112 := by omega
  have c4 : ¬ (31 * 2 ^ 10 ≤ (e + 112 - 113) * 2 ^ 10 + (2 ^ 10 + m)) := by omega
  simp only [c1, c2, c3, c4, if_true, if_false]
  omega

/-- The round trip through the two IEEE conversions at every 16-bit pattern. -/
theorem roundTripOK_all (h : Nat) (hh : h < 2 ^ 16) : roundTripOK h = true := by
  by_cases h0 : h / 2 ^ 10 % 32 = 0
  · have hall := allBelow_spec _ _ roundTripOK_special (h % 2 ^ 10) (by omega)
    simp only [Bool.and_eq_true] at hall
    by_cases hs : h / 2 ^ 15 % 2 = 0
    · have : h = h % 2 ^ 10 := by omega
      rw [this]; exact hall.1.1.1
    · have : h = 0x8000 + h % 2 ^ 10 := by omega
      rw [this]; exact hall.1.2
  · by_cases h31 : h / 2 ^ 10 % 32 = 31
    · have hall := allBelow_spec _ _ roundTripOK_special (h % 2 ^ 10) (by omega)
      simp only [Bool.and_eq_true] at hall
      by_cases hs : h / 2 ^ 15 % 2 = 0
      · have : h = 0x7C00 + h % 2 ^ 10 := by omega
        rw [this]; exact hall.1.1.2
      · have : h = 0xFC00 + h % 2 ^ 10 := by omega
        rw [this]; exact hall.2
    · exact roundTripOK_normal h hh h0 h31

/-- The table lookup on the table of the model returns the widened pattern. -/
theorem lookup_in_table (h : Nat) (hh : h < 2 ^ 16) :
    lm_ggml_lookup_fp16_to_fp32 lm_ggml_table_f32_f16 h = some (binary16_to_binary32 h) := by
  have hlt : h < 65536 := by omega
  simp only [lm_ggml_lookup_fp16_to_fp32, lm_ggml_table_f32_f16, Nat.mod_eq_of_lt hh]
  simp [List.getElem?_range, hlt]

/-- The routine `LM_GGML_CPU_FP32_TO_FP16` ends at, by selected branch. -/
theorem boundFP32_TO_FP16_branch (b : Option ConvBranch) (msc : Bool) :
    convResolve (convEnvOf b msc) 4 .LM_GGML_CPU_FP32_TO_FP16 =
      some (match b with
        | none => .LM_GGML_COMPUTE_FP32_TO_FP16
        | some .NEON => .LM_GGML_COMPUTE_FP32_TO_FP16
        | some .F16C => .LM_GGML_COMPUTE_FP32_TO_FP16
        | some .POWER9 => .power_compute_fp32_to_fp16
        | some .RISCV => .riscv_compute_fp32_to_fp16
        | some .NNPA => .nnpa_compute_fp32_to_fp16) := by
  revert b msc
  decide

/-- Off the NNPA branch `LM_GGML_CPU_FP16_TO_FP32` is the IEEE widening. -/
theorem FP16_TO_FP32_widens (t : Features) (tiesAway : Bool) (h : Nat) (hh : h < 2 ^ 16)
    (hb : selectConvBranch t ≠ some .NNPA) :
    LM_GGML_CPU_FP16_TO_FP32 t tiesAway h = some (binary16_to_binary32 h) := by
  have hr := boundFP16_TO_FP32_branch (selectConvBranch t) t.MSC_VER
  have hl := lookup_in_table h hh
  unfold LM_GGML_CPU_FP16_TO_FP32 boundFP16_TO_FP32 convEnv
  rw [hr]
  generalize selectConvBranch t = b at hb
  cases b with
  | none => exact hl
  | some b =>
    cases b with
    | NEON => rfl
    | F16C => exact hl
    | POWER9 => rfl
    | RISCV => rfl
    | NNPA => exact absurd rfl hb

/-- Off the NNPA branch `LM_GGML_CPU_FP32_TO_FP16` is the IEEE narrowing. -/
theorem FP32_TO_FP16_narrows (t : Features) (tiesAway : Bool) (w : Nat)
    (hb : selectConvBranch t ≠ some .NNPA) :
    LM_GGML_CPU_FP32_TO_FP16 t tiesAway w = some (binary32_to_binary16 w) := by
  have hr := boundFP32_TO_FP16_branch (selectConvBranch t) t.MSC_VER
  unfold LM_GGML_CPU_FP32_TO_FP16 boundFP32_TO_FP16 convEnv
  rw [hr]
  generalize selectConvBranch t = b at hb
  cases b with
  | none => rfl
  | some b =>
    cases b with
    | NEON => rfl
    | F16C => rfl
    | POWER9 => rfl
    | RISCV => rfl
    | NNPA => exact absurd rfl hb

/-- The round trip off the NNPA branch is exact.  On every target whose conversion
branch is not the NNPA one, for every 16-bit pattern `h`: `LM_GGML_CPU_FP16_TO_FP32` returns a single `w` and
`LM_GGML_CPU_FP32_TO_FP16` of `w` returns a half; that half is `h` when `h` is no NaN
encoding, and when `h` is a NaN encoding both `w` and the half are NaN encodings. -/
theorem conversion_round_trip (t : Features) (tiesAway : Bool) (h : Nat)
    (hb : selectConvBranch t ≠ some .NNPA) (hh : h < 2 ^ 16) :
    ∃ w r, LM_GGML_CPU_FP16_TO_FP32 t tiesAway h = some w ∧
      LM_GGML_CPU_FP32_TO_FP16 t tiesAway w = some r ∧
      roundTrip t tiesAway h = some r ∧
      (isNaN16 h = false → r = h) ∧
      (isNaN16 h = true → isNaN32 w = true ∧ isNaN16 r = true) := by
  have h1 := FP16_TO_FP32_widens t tiesAway h hh hb
  have h2 := FP32_TO_FP16_narrows t tiesAway (binary16_to_binary32 h) hb
  have hok := roundTripOK_all h hh
  refine ⟨binary16_to_binary32 h, binary32_to_binary16 (binary16_to_binary32 h), h1, h2, ?_, ?_, ?_⟩
  · simp only [roundTrip, h1, Option.some_bind, h2]
  · intro hn
    simpa [roundTripOK, hn] using hok
  · intro hn
    simpa [roundTripOK, hn] using hok

/-- Examples of the exact round trip: the smallest subnormal half on a NEON target,
the largest finite half through the table lookup of a target with no feature, and a
NaN on a POWER9 target. -/
theorem conversion_round_trip_witness :
    roundTrip neonTarget false 0x0001 = some 0x0001 ∧
      roundTrip noFeatures false 0x7BFF = some 0x7BFF ∧
      (∃ r, roundTrip power9Target false 0x7C01 = some r ∧ isNaN16 r = true) := by
  obtain ⟨w1, r1, -, -, e1, n1, -⟩ :=
    conversion_round_trip neonTarget false 0x0001 (by decide) (by decide)
  obtain ⟨w2, r2, -, -, e2, n2, -⟩ :=
    conversion_round_trip noFeatures false 0x7BFF (by decide) (by decide)
  obtain ⟨w3, r3, -, -, e3, -, n3⟩ :=
    conversion_round_trip power9Target false 0x7C01 (by decide) (by decide)
  refine ⟨?_, ?_, r3, e3, (n3 (by decide)).2⟩
  · rw [e1, n1 (by decide)]
  · rw [e2, n2 (by decide)]

/-- C19 (evaluation of the code). On an s390x target with NNPA both names are bound
to the NNPA routines, which pass through DLFloat16 with its 9 fraction bits: the
pattern `0x3C01` (the half next above 1.0, no NaN) comes back as `0x3C00` when ties
round to even and as `0x3C02` when they round away from zero, never as `0x3C01`.
Through every other binding of the two names (the NEON, the POWER9 and the RISC-V
routines, and the table lookup with the external conversion on an F16C target and on
a target with no feature) the same pattern comes back unchanged. -/
theorem NNPA_round_trip_drops_a_bit :
    selectConvBranch nnpaTarget = some .NNPA ∧ isNaN16 0x3C01 = false ∧
      roundTrip nnpaTarget false 0x3C01 = some 0x3C00 ∧
      roundTrip nnpaTarget true 0x3C01 = some 0x3C02 ∧
      ¬ (∀ tiesAway, roundTrip nnpaTarget tiesAway 0x3C01 = some 0x3C01) ∧
      (∀ tiesAway, roundTrip neonTarget tiesAway 0x3C01 = some 0x3C01) ∧
      (∀ tiesAway, roundTrip power9Target tiesAway 0x3C01 = some 0x3C01) ∧
      (∀ tiesAway, roundTrip riscvTarget tiesAway 0x3C01 = some 0x3C01) ∧
      (∀ tiesAway, roundTrip f16cTarget tiesAway 0x3C01 = some 0x3C01) ∧
      (∀ tiesAway, roundTrip noFeatures tiesAway 0x3C01 = some 0x3C01) := by
  have sibling : ∀ t : Features, selectConvBranch t ≠ some .NNPA →
      ∀ tiesAway, roundTrip t tiesAway 0x3C01 = some 0x3C01 := by
    intro t hb tiesAway
    obtain ⟨w, r, -, -, e, n, -⟩ := conversion_round_trip t tiesAway 0x3C01 hb (by decide)
    rw [e, n (by decide)]
  refine ⟨by decide, by decide, by decide, by decide, by decide, sibling neonTarget (by decide),
    sibling power9Target (by decide), sibling riscvTarget (by decide),
    sibling f16cTarget (by decide), sibling noFeatures (by decide)⟩

/-- The binary32 pattern of -2.0. -/
theorem f32_bits_neg_two : f32_bits (-2) = 0xC0000000 := by
  have h1 : Int.log 2 (2 : ℚ) = 1 := by
    have := Int.log_zpow (R := ℚ) (b := 2) (by norm_num) 1
    simpa using this
  have h2 : |(-2 : ℚ)| = 2 := by norm_num
  have h3 : ⌊(2 : ℚ) * 2 ^ (23 - (1 : ℤ))⌋ = 2 ^ 23 := by
    have : (2 : ℚ) * 2 ^ (23 - (1 : ℤ)) = ((2 ^ 23 : ℤ) : ℚ) := by norm_num
    rw [this, Int.floor_intCast]
  have h4 : Int.toNat 128 = 128 := by decide
  unfold f32_bits
  simp only [h2, h1, h3]
  norm_num [h4]

/-- C20. On every target, whatever routine the two names are bound to,
`LM_GGML_CPU_FP16_TO_FP32` maps the pattern `0x3C00` to the single with pattern
`0x3F800000`, which is 1.0, and `0xC000` to the single with pattern `0xC0000000`,
which is -2.0, and `LM_GGML_CPU_FP32_TO_FP16` maps 1.0 to `0x3C00`. -/
theorem concrete_conversions (t : Features) (tiesAway : Bool) :
    LM_GGML_CPU_FP16_TO_FP32 t tiesAway 0x3C00 = some 0x3F800000 ∧
      f32_of_bits 0x3F800000 = 1 ∧ f32_bits 1 = 0x3F800000 ∧
      LM_GGML_CPU_FP16_TO_FP32 t tiesAway 0xC000 = some 0xC0000000 ∧
      f32_of_bits 0xC0000000 = -2 ∧ f32_bits (-2) = 0xC0000000 ∧
      LM_GGML_CPU_FP32_TO_FP16 t tiesAway (f32_bits 1) = some 0x3C00 := by
  have hr1 := boundFP16_TO_FP32_branch (selectConvBranch t) t.MSC_VER
  have hr2 := boundFP32_TO_FP16_branch (selectConvBranch t) t.MSC_VER
  have hl1 := lookup_in_table 0x3C00 (by decide)
  have hl2 := lookup_in_table 0xC000 (by decide)
  have v1 : binary16_to_binary32 0x3C00 = 0x3F800000 := by decide
  have v2 : binary16_to_binary32 0xC000 = 0xC0000000 := by decide
  have v3 : binary32_to_binary16 0x3F800000 = 0x3C00 := by decide
  have n1 : NNPA.nnpa_compute_fp16_to_fp32 tiesAway 0x3C00 = 0x3F800000 := by
    cases tiesAway <;> decide
  have n2 : NNPA.nnpa_compute_fp16_to_fp32 tiesAway 0xC000 = 0xC0000000 := by
    cases tiesAway <;> decide
  have n3 : NNPA.nnpa_compute_fp32_to_fp16 tiesAway 0x3F800000 = 0x3C00 := by
    cases tiesAway <;> decide
  rw [v1] at hl1
  rw [v2] at hl2
  refine ⟨?_, by norm_num [f32_of_bits], f32_bits_one, ?_, by norm_num [f32_of_bits],
    f32_bits_neg_two, ?_⟩
  · unfold LM_GGML_CPU_FP16_TO_FP32 boundFP16_TO_FP32 convEnv
    rw [hr1]
    cases selectConvBranch t with
    | none => exact hl1
    | some b =>
      cases b with
      | NEON => exact congrArg some v1
      | F16C => exact hl1
      | POWER9 => exact congrArg some v1
      | RISCV => exact congrArg some v1
      | NNPA => exact congrArg some n1
  · unfold LM_GGML_CPU_FP16_TO_FP32 boundFP16_TO_FP32 convEnv
    rw [hr1]
    cases selectConvBranch t with
    | none => exact hl2
    | some b =>
      cases b with
      | NEON => exact congrArg some v2
      | F16C => exact hl2
      | POWER9 => exact congrArg some v2
      | RISCV => exact congrArg some v2
      | NNPA => exact congrArg some n2
  · rw [f32_bits_one]
    unfold LM_GGML_CPU_FP32_TO_FP16 boundFP32_TO_FP16 convEnv
    rw [hr2]
    cases selectConvBranch t with
    | none => exact congrArg some v3
    | some b =>
      cases b with
      | NEON => exact congrArg some v3
      | F16C => exact congrArg some v3
      | POWER9 => exact congrArg some v3
      | RISCV => exact congrArg some v3
      | NNPA => exact congrArg some n3

/-! ## C18: the half-precision kinds without half arithmetic -/

/-- The register type and the three elementwise operations of the two precisions
end at the same text, by branch. -/
theorem expandsAlike_branch (bk : Backend) (m c : Bool) (hsve : bk ≠ .SVE) :
    expandsAlike (branchEnv bk false m c) .LM_GGML_F16_VEC .LM_GGML_F32_VEC = true ∧
      expandsAlike (branchEnv bk false m c) .LM_GGML_F16_VEC_ADD .LM_GGML_F32_VEC_ADD = true ∧
      expandsAlike (branchEnv bk false m c) .LM_GGML_F16_VEC_MUL .LM_GGML_F32_VEC_MUL = true ∧
      expandsAlike (branchEnv bk false m c) .LM_GGML_F16_VEC_FMA .LM_GGML_F32_VEC_FMA = true := by
  revert bk m c
  decide

/-- Off the ARM branches the nested test of half-precision arithmetic changes
nothing. -/
theorem branchEnv_fp16va (bk : Backend) (v m c : Bool) (hsve : bk ≠ .SVE) (hneon : bk ≠ .NEON) :
    branchEnv bk v m c = branchEnv bk false m c := by
  cases bk <;> first | exact absurd rfl hsve | exact absurd rfl hneon | rfl

/-- C18 (counterexample). On an SVE target without half-precision vector arithmetic
the half-precision kind is the 128-bit NEON kind `float32x4_t` with `vfmaq_f32`,
while the full-precision kind is the scalable `svfloat32_t` with predicated
`svmad_f32_m`; the register types and the operations differ, and
`LM_GGML_F16_VEC_REDUCE` ends at a name that has no definition. -/
theorem SVE_F16_kind_is_not_F32_kind :
    selectBackend sveTarget = some .SVE ∧
      sveTarget.ARM_FEATURE_FP16_VECTOR_ARITHMETIC = false ∧
      aliasLeaf (simdEnv sveTarget) expansionFuel .LM_GGML_F16_VEC
        = some ⟨.LM_GGML_F32Cx4, .object, .code "float32x4_t" []⟩ ∧
      aliasLeaf (simdEnv sveTarget) expansionFuel .LM_GGML_F32_VEC
        = some ⟨.LM_GGML_F32xt, .object, .code "svfloat32_t" []⟩ ∧
      expandsAlike (simdEnv sveTarget) .LM_GGML_F16_VEC .LM_GGML_F32_VEC = false ∧
      expandsAlike (simdEnv sveTarget) .LM_GGML_F16_VEC_ADD .LM_GGML_F32_VEC_ADD = false ∧
      expandsAlike (simdEnv sveTarget) .LM_GGML_F16_VEC_MUL .LM_GGML_F32_VEC_MUL = false ∧
      expandsAlike (simdEnv sveTarget) .LM_GGML_F16_VEC_FMA .LM_GGML_F32_VEC_FMA = false ∧
      resolves (simdEnv sveTarget) expansionFuel .LM_GGML_F16_VEC_REDUCE = false ∧
      LM_GGML_F16_VEC_REDUCE sveTarget [] = none := by
  decide

/-- C18 (amended). On every branch other than SVE, with a half-precision kind that
has no half arithmetic (on NEON: without `__ARM_FEATURE_FP16_VECTOR_ARITHMETIC`), the
half-precision register type and `LM_GGML_F16_VEC_ADD`, `_MUL` and `_FMA` end at the
same text as their full-precision counterparts, and on lane lists
`LM_GGML_F16_VEC_ADD`, `_MUL`, `_FMA` and `_REDUCE` are bound and equal
`LM_GGML_F32_VEC_ADD`, `_MUL`, `_FMA` and `_REDUCE`. -/
theorem F16_kind_reuses_F32_operations (t : Features) (bk : Backend)
    (hsel : selectBackend t = some bk) (hsve : bk ≠ .SVE)
    (hneon : bk = .NEON → t.ARM_FEATURE_FP16_VECTOR_ARITHMETIC = false) :
    expandsAlike (simdEnv t) .LM_GGML_F16_VEC .LM_GGML_F32_VEC = true ∧
      expandsAlike (simdEnv t) .LM_GGML_F16_VEC_ADD .LM_GGML_F32_VEC_ADD = true ∧
      expandsAlike (simdEnv t) .LM_GGML_F16_VEC_MUL .LM_GGML_F32_VEC_MUL = true ∧
      expandsAlike (simdEnv t) .LM_GGML_F16_VEC_FMA .LM_GGML_F32_VEC_FMA = true ∧
      (∀ a b, LM_GGML_F16_VEC_ADD t a b = LM_GGML_F32_VEC_ADD t a b ∧
        (LM_GGML_F32_VEC_ADD t a b).isSome = true) ∧
      (∀ a b, LM_GGML_F16_VEC_MUL t a b = LM_GGML_F32_VEC_MUL t a b ∧
        (LM_GGML_F32_VEC_MUL t a b).isSome = true) ∧
      (∀ a b c, LM_GGML_F16_VEC_FMA t a b c = LM_GGML_F32_VEC_FMA t a b c ∧
        (LM_GGML_F32_VEC_FMA t a b c).isSome = true) ∧
      (∀ x, LM_GGML_F16_VEC_REDUCE t x = LM_GGML_F32_VEC_REDUCE t x ∧
        (LM_GGML_F32_VEC_REDUCE t x).isSome = true) := by
  have henv : simdEnv t = branchEnv bk false t.FMA t.F16C := by
    rw [simdEnv_of_select hsel]
    by_cases hn : bk = .NEON
    · rw [hneon hn]
    · exact branchEnv_fp16va bk _ _ _ hsve hn
  have h32 : LM_GGML_F32_ARR t = constValue (branchEnv bk false t.FMA t.F16C) expansionFuel
      .LM_GGML_F32_ARR := by rw [LM_GGML_F32_ARR, henv]
  have h16 : LM_GGML_F16_ARR t = constValue (branchEnv bk false t.FMA t.F16C) expansionFuel
      .LM_GGML_F16_ARR := by rw [LM_GGML_F16_ARR, henv]
  rw [F32_ARR_branch] at h32
  rw [F16_ARR_branch] at h16
  have ha := expandsAlike_branch bk t.FMA t.F16C hsve
  rw [← henv] at ha
  refine ⟨ha.1, ha.2.1, ha.2.2.1, ha.2.2.2, ?_, ?_, ?_, ?_⟩
  · intro a b
    cases bk
    case SVE => exact absurd rfl hsve
    case NEON =>
      have hv := hneon rfl
      simp only [LM_GGML_F16_VEC_ADD, LM_GGML_F32_VEC_ADD, hsel, hv, Bool.false_eq_true, if_false,
        Option.map_some']
      exact ⟨rfl, rfl⟩
    all_goals
      simp only [LM_GGML_F16_VEC_ADD, LM_GGML_F32_VEC_ADD, hsel, Option.map_some']
      first | exact ⟨rfl, rfl⟩ | exact ⟨trivial, rfl⟩
  · intro a b
    cases bk
    case SVE => exact absurd rfl hsve
    case NEON =>
      have hv := hneon rfl
      simp only [LM_GGML_F16_VEC_MUL, LM_GGML_F32_VEC_MUL, hsel, hv, Bool.false_eq_true, if_false,
        Option.map_some']
      exact ⟨rfl, rfl⟩
    all_goals
      simp only [LM_GGML_F16_VEC_MUL, LM_GGML_F32_VEC_MUL, hsel, Option.map_some']
      first | exact ⟨rfl, rfl⟩ | exact ⟨trivial, rfl⟩
  · intro a b c
    cases bk
    case SVE => exact absurd rfl hsve
    case NEON =>
      have hv := hneon rfl
      simp only [LM_GGML_F16_VEC_FMA, LM_GGML_F32_VEC_FMA, hsel, hv, Bool.false_eq_true, if_false,
        Option.map_some']
      exact ⟨rfl, rfl⟩
    all_goals
      simp only [LM_GGML_F16_VEC_FMA, LM_GGML_F32_VEC_FMA, hsel, Option.map_some']
      first | exact ⟨rfl, rfl⟩ | exact ⟨trivial, rfl⟩
  · intro x
    cases bk
    case SVE => exact absurd rfl hsve
    case NEON =>
      have hv := hneon rfl
      simp only [LM_GGML_F16_VEC_REDUCE, LM_GGML_F32_VEC_REDUCE, hsel, hv, h32, h16, Bool.false_eq_true, if_false,
        Option.map_some']
      exact ⟨rfl, rfl⟩
    all_goals
      simp only [LM_GGML_F16_VEC_REDUCE, LM_GGML_F32_VEC_REDUCE, hsel, h32, h16, Option.map_some']
      first | exact ⟨rfl, rfl⟩ | exact ⟨trivial, rfl⟩

/-- Witness for C18 (amended): the AVX512 branch, whose half-precision reduce is a
block of its own, on the AVX512 target. -/
theorem F16_kind_reuses_F32_operations_witness :
    selectBackend avx512Target = some .AVX512 ∧
      (∀ x, LM_GGML_F16_VEC_REDUCE avx512Target x = LM_GGML_F32_VEC_REDUCE avx512Target x ∧
        (LM_GGML_F32_VEC_REDUCE avx512Target x).isSome = true) :=
  ⟨by decide,
    (F16_kind_reuses_F32_operations avx512Target .AVX512 (by decide) (by decide)
      (fun h => by cases h)).2.2.2.2.2.2.2⟩

/-! ## C16: what the loads read -/

/-- A read of `n` elements succeeds exactly when all `n` are valid. -/
theorem readElems_isSome {α : Type} (mem : CheckedMem α) (n : Nat) : ∀ p : Addr,
    (readElems mem p n).isSome = true ↔ ∀ k : Nat, k < n → (mem (p + k)).isSome = true := by
  induction n with
  | zero =>
    intro p
    simp [readElems]
  | succ m ih =>
    intro p
    have hstep : (readElems mem p (m + 1)).isSome = true ↔
        (mem p).isSome = true ∧ (readElems mem (p + 1) m).isSome = true := by
      simp only [readElems]
      cases mem p <;> cases readElems mem (p + 1) m <;> simp
    rw [hstep, ih (p + 1)]
    constructor
    · rintro ⟨h0, hrest⟩ k hk
      cases k with
      | zero => simpa using h0
      | succ j =>
        have := hrest j (by omega)
        have e : p + 1 + (j : Int) = p + ((j + 1 : Nat) : Int) := by push_cast; ring
        rwa [e] at this
    · intro h
      refine ⟨by simpa using h 0 (by omega), fun j hj => ?_⟩
      have := h (j + 1) (by omega)
      have e : p + 1 + (j : Int) = p + ((j + 1 : Nat) : Int) := by push_cast; ring
      rwa [e]

/-- Under the all-true predicate a predicated read is a read of consecutive
elements. -/
theorem readActive_ptrue (mem : CheckedMem ℚ) (base : Addr) (n : Nat) : ∀ k : Nat,
    readActive svptrue_b32 mem base k n = readElems mem (base + k) n := by
  induction n with
  | zero => intro k; rfl
  | succ m ih =>
    intro k
    have e : base + ((k + 1 : Nat) : Int) = base + (k : Int) + 1 := by push_cast; ring
    simp only [readActive, readElems, ih (k + 1), svptrue_b32, if_true, e]
    generalize mem (base + (k : Int)) = a
    generalize readElems mem (base + (k : Int) + 1) m = b
    cases a <;> cases b <;> rfl

/-- The full-precision load of a branch reads the elements `p[0 .. n)`, where `n` is
the vector length on SVE and the number below on the other branches. -/
theorem F32_VEC_LOAD_reads (bk : Backend) (vl : Nat) (mem : CheckedMem ℚ) (p : Addr) :
    (LM_GGML_F32_VEC_LOAD bk vl mem p).isSome = true ↔
      ∀ k : Nat, k < (match bk with
        | .SVE => vl
        | .NEON => 4
        | .AVX512 => 16
        | .AVX => 8
        | .POWER9 => 4
        | .WASM => 4
        | .SSE3 => 4
        | .LASX => 8
        | .LSX => 4
        | .VXE => 4) → (mem (p + k)).isSome = true := by
  cases bk
  case SVE =>
    have h := readElems_isSome mem vl p
    simpa [LM_GGML_F32_VEC_LOAD, Checked.svld1_f32, SVE.DEFAULT_PG, readActive_ptrue] using h
  all_goals
    simp only [LM_GGML_F32_VEC_LOAD, Checked.vld1q_f32, Checked._mm512_loadu_ps,
      Checked._mm256_loadu_ps, Checked.vec_xl, Checked.wasm_v128_load, Checked._mm_loadu_ps,
      Checked.__lasx_xvld, Checked.__lsx_vld]
    exact readElems_isSome mem _ p

/-- The half-precision load of a branch reads the `n` elements from `q` on, where
`q` is `p` and `n` the number of elements in a register, except that on POWER9 and on
VXE with NNPA `n` is twice that number and on POWER9 with an odd index `q` is
`p - F16_EPR`. -/
theorem F16_VEC_LOAD_reads (bk : Backend) (fp16va f16c nnpa : Bool) (F16_EPR : Nat)
    (c : Conversions) (mem : CheckedMem Nat) (p : Addr) (i : Nat) :
    (LM_GGML_F16_VEC_LOAD bk fp16va f16c nnpa F16_EPR c mem p i).isSome = true ↔
      ∀ k : Nat, k < (match bk with
        | .SVE => if fp16va then 8 else 4
        | .NEON => if fp16va then 8 else 4
        | .AVX512 => 16
        | .AVX => 8
        | .POWER9 => 8
        | .WASM => 4
        | .SSE3 => 4
        | .LASX => 8
        | .LSX => 4
        | .VXE => if nnpa then 8 else 4) →
        (mem ((if bk = .POWER9 ∧ i % 2 = 1 then p - F16_EPR else p) + k)).isSome = true := by
  cases bk
  case SVE =>
    cases fp16va <;>
      simp only [LM_GGML_F16_VEC_LOAD, Checked.LM_GGML_F16x8_LOAD, Checked.LM_GGML_F32Cx4_LOAD,
        Checked.vld1q_f16, Checked.vld1_f16, Option.isSome_map', Option.map_map, if_true,
        if_false, Bool.false_eq_true, reduceCtorEq, false_and] <;>
      exact readElems_isSome mem _ p
  case NEON =>
    cases fp16va <;>
      simp only [LM_GGML_F16_VEC_LOAD, Checked.LM_GGML_F16x8_LOAD, Checked.LM_GGML_F32Cx4_LOAD,
        Checked.vld1q_f16, Checked.vld1_f16, Option.isSome_map', Option.map_map, if_true,
        if_false, Bool.false_eq_true, reduceCtorEq, false_and] <;>
      exact readElems_isSome mem _ p
  case AVX =>
    cases f16c <;>
      simp only [LM_GGML_F16_VEC_LOAD, Checked.LM_GGML_F32Cx8_LOAD, Checked._mm_loadu_si128,
        Checked.__avx_f32cx8_load, Option.isSome_map', if_true, if_false, Bool.false_eq_true,
        reduceCtorEq, false_and] <;>
      exact readElems_isSome mem _ p
  case VXE =>
    cases nnpa <;>
      simp only [LM_GGML_F16_VEC_LOAD, Checked.__lzs_f16cx4_load, Checked.vec_xl,
        Option.isSome_map', if_true, if_false, Bool.false_eq_true, reduceCtorEq, false_and] <;>
      exact readElems_isSome mem _ p
  case POWER9 =>
    by_cases hi : i % 2 = 1
    · simp only [LM_GGML_F16_VEC_LOAD, Checked.POWER9_F16_VEC_LOAD, Checked.vec_xl, hi,
        Option.isSome_map', if_true, true_and]
      exact readElems_isSome mem _ _
    · simp only [LM_GGML_F16_VEC_LOAD, Checked.POWER9_F16_VEC_LOAD, Checked.vec_xl, hi,
        Option.isSome_map', if_false, and_false]
      exact readElems_isSome mem _ _
  all_goals
    simp only [LM_GGML_F16_VEC_LOAD, Checked.LM_GGML_F32Cx16_LOAD, Checked._mm256_loadu_si256,
      Checked.__wasm_f16x4_load, Checked.__sse_f16x4_load, Checked.__lasx_f32cx8_load,
      Checked.__lsx_f16x4_load, Option.isSome_map', reduceCtorEq, false_and, if_false]
    exact readElems_isSome mem _ p

/-- C16 (counterexample). On POWER9 `LM_GGML_F16_EPR` is 4 and the half-precision load
reads eight halves: with exactly `p[0 .. 4)` valid (`p` = 100) the load with index 0
reads past `p + 4` and the load with index 1 reads before `p`, and neither is
defined; index 0 is defined once `p[0 .. 8)` is valid.  On VXE with NNPA the load
reads eight halves too, and on SVE with vectors of sixteen singles the
full-precision load reads sixteen where `LM_GGML_F32_EPR` is 8. -/
theorem POWER9_F16_load_reads_eight_halves :
    selectBackend power9Target = some .POWER9 ∧ LM_GGML_F16_EPR power9Target = some 4 ∧
      (∀ k : Nat, k < 4 → (fourValidHalves (100 + k)).isSome = true) ∧
      (LM_GGML_F16_VEC_LOAD .POWER9 false false false 4 exampleConversions fourValidHalves
        100 0).isSome = false ∧
      (LM_GGML_F16_VEC_LOAD .POWER9 false false false 4 exampleConversions fourValidHalves
        100 1).isSome = false ∧
      (LM_GGML_F16_VEC_LOAD .POWER9 false false false 4 exampleConversions eightValidHalves
        100 0).isSome = true ∧
      selectBackend nnpaTarget = some .VXE ∧ LM_GGML_F16_EPR nnpaTarget = some 4 ∧
      (LM_GGML_F16_VEC_LOAD .VXE false false true 4 exampleConversions fourValidHalves
        100 0).isSome = false ∧
      LM_GGML_F32_EPR sveTarget = some 8 ∧
      (LM_GGML_F32_VEC_LOAD .SVE 16 (fun a => if 100 ≤ a ∧ a < 108 then some 0 else none)
        100).isSome = false := by
  refine ⟨by decide, by decide, by decide, ?_, ?_, ?_, by decide, by decide, ?_, by decide, ?_⟩
  · rw [Bool.eq_false_iff, Ne, F16_VEC_LOAD_reads]
    intro h
    have := h 4 (by decide)
    revert this
    decide
  · rw [Bool.eq_false_iff, Ne, F16_VEC_LOAD_reads]
    intro h
    have := h 0 (by decide)
    revert this
    decide
  · rw [F16_VEC_LOAD_reads]
    intro k hk
    have hk8 : k < 8 := hk
    interval_cases k <;> decide
  · rw [Bool.eq_false_iff, Ne, F16_VEC_LOAD_reads]
    intro h
    have := h 4 (by decide)
    revert this
    decide
  · rw [Bool.eq_false_iff, Ne, F32_VEC_LOAD_reads]
    intro h
    have := h 8 (by decide)
    revert this
    decide

/-- C16 (amended). For a target with a selected branch: the full-precision load
reads exactly the elements `p[0 .. EPR)` on every branch other than SVE, and exactly
the `vl` elements of a vector on SVE; the half-precision load with any index reads
exactly `p[0 .. EPR)` on every branch other than POWER9 and VXE with NNPA; on POWER9 it
reads exactly the `2 * EPR` halves from `p` on for an even index and from `p - EPR` on
for an odd index.  "Reads exactly" says that the load is defined on memory in which
these elements are valid, whatever else is, and on no other memory. -/
theorem loads_read_EPR_elements (t : Features) (bk : Backend)
    (hsel : selectBackend t = some bk) :
    (∀ (vl epr : Nat) (mem : CheckedMem ℚ) (p : Addr), LM_GGML_F32_EPR t = some epr →
      ((bk ≠ .SVE → ((LM_GGML_F32_VEC_LOAD bk vl mem p).isSome = true ↔
          ∀ k : Nat, k < epr → (mem (p + k)).isSome = true)) ∧
       (bk = .SVE → ((LM_GGML_F32_VEC_LOAD bk vl mem p).isSome = true ↔
          ∀ k : Nat, k < vl → (mem (p + k)).isSome = true)))) ∧
    (∀ (epr : Nat) (c : Conversions) (mem : CheckedMem Nat) (p : Addr) (i : Nat),
      LM_GGML_F16_EPR t = some epr →
      ((bk ≠ .POWER9 → ¬ (bk = .VXE ∧ t.NNPA = true) →
          ((LM_GGML_F16_VEC_LOAD bk t.ARM_FEATURE_FP16_VECTOR_ARITHMETIC t.F16C t.NNPA epr c
              mem p i).isSome = true ↔
            ∀ k : Nat, k < epr → (mem (p + k)).isSome = true)) ∧
       (bk = .POWER9 →
          ((LM_GGML_F16_VEC_LOAD bk t.ARM_FEATURE_FP16_VECTOR_ARITHMETIC t.F16C t.NNPA epr c
              mem p i).isSome = true ↔
            ∀ k : Nat, k < 2 * epr →
              (mem ((if i % 2 = 1 then p - epr else p) + k)).isSome = true)))) := by
  have h32 := F32_EPR_branch bk t.ARM_FEATURE_FP16_VECTOR_ARITHMETIC t.FMA t.F16C
  have h16 := F16_EPR_branch bk t.ARM_FEATURE_FP16_VECTOR_ARITHMETIC t.FMA t.F16C
  rw [← simdEnv_of_select hsel] at h32 h16
  constructor
  · intro vl epr mem p he
    rw [LM_GGML_F32_EPR, h32] at he
    have hr := F32_VEC_LOAD_reads bk vl mem p
    constructor
    · intro hne
      cases bk <;> first
        | exact absurd rfl hne
        | (simp only [Option.some.injEq] at he; subst he; exact hr)
    · intro heq
      subst heq
      exact hr
  · intro epr c mem p i he
    rw [LM_GGML_F16_EPR, h16] at he
    have hr := F16_VEC_LOAD_reads bk t.ARM_FEATURE_FP16_VECTOR_ARITHMETIC t.F16C t.NNPA epr c
      mem p i
    constructor
    · intro hp hv
      cases bk
      case POWER9 => exact absurd rfl hp
      case VXE =>
        have hn : t.NNPA = false := by
          cases hnn : t.NNPA
          · rfl
          · exact absurd ⟨rfl, hnn⟩ hv
        simp only [Option.some.injEq] at he
        subst he
        simpa [hn] using hr
      case SVE =>
        simp only [Option.some.injEq] at he
        subst he
        cases hva : t.ARM_FEATURE_FP16_VECTOR_ARITHMETIC <;> simpa [hva] using hr
      case NEON =>
        simp only [Option.some.injEq] at he
        subst he
        cases hva : t.ARM_FEATURE_FP16_VECTOR_ARITHMETIC <;> simpa [hva] using hr
      all_goals
        simp only [Option.some.injEq] at he
        subst he
        simpa using hr
    · intro hp
      subst hp
      simp only [Option.some.injEq] at he
      subst he
      simpa using hr

/-- Witness for C16 (amended): on the AVX target without F16C the half-precision
load at `p` = 100 is defined on memory in which exactly `p[0 .. 8)` is valid. -/
theorem loads_read_EPR_elements_witness :
    selectBackend avxTarget = some .AVX ∧ LM_GGML_F16_EPR avxTarget = some 8 ∧
      (LM_GGML_F16_VEC_LOAD .AVX false false false 8 exampleConversions eightValidHalves
        100 0).isSome = true :=
  ⟨by decide, by decide,
    (((loads_read_EPR_elements avxTarget .AVX (by decide)).2 8 exampleConversions
      eightValidHalves 100 0 (by decide)).1 (by decide) (by decide)).mpr
      (fun k hk => by
        have hk8 : k < 8 := hk
        interval_cases k <;> decide)⟩

/-! ## C17: what the half-precision stores write -/

/-- Inside its range a write leaves the value it was given. -/
theorem writeElems_at (n : Nat) (mem : HalfMem) (p : Int) (vals : List Nat) (k : Nat)
    (hk : k < n) : writeElems n mem p vals (p + k) = vals.getD k 0 := by
  have h1 : p ≤ p + (k : Int) ∧ p + (k : Int) < p + (n : Int) := by omega
  have h2 : (p + (k : Int) - p).toNat = k := by omega
  simp only [writeElems, h1, and_self, if_true, h2]

/-- Outside its range a write changes nothing. -/
theorem writeElems_frame (n : Nat) (mem : HalfMem) (p : Int) (vals : List Nat) (a : Int)
    (ha : a < p ∨ p + n ≤ a) : writeElems n mem p vals a = mem a := by
  have h1 : ¬ (p ≤ a ∧ a < p + (n : Int)) := by omega
  simp only [writeElems, h1, if_false]

/-- Lane `k` of a register mapped lane by lane. -/
theorem getD_map_lane (f : ℚ → Nat) (y : Reg) (k : Nat) (hk : k < y.length) :
    (y.map f).getD k 0 = f (lane y k) := by
  simp [lane, List.getD_eq_getElem?_getD, List.getElem?_map, List.getElem?_eq_getElem hk]

/-- A scalar-loop store changes nothing outside its `EPR` elements. -/
theorem ScalarLoopKind_store_frame (kind : ScalarLoopKind) (toHalf : ℚ → Nat) (mem : HalfMem)
    (x : Int) (y : Reg) (a : Int) (ha : a < x ∨ x + kind.EPR ≤ a) :
    kind.store toHalf mem x y a = mem a := by
  cases kind <;>
    simp only [ScalarLoopKind.EPR] at ha <;>
    (have h0 : a ≠ x := by omega
     have h1 : a ≠ x + 1 := by omega
     have h2 : a ≠ x + 2 := by omega
     have h3 : a ≠ x + 3 := by omega
     first
      | (have h4 : a ≠ x + 4 := by omega
         have h5 : a ≠ x + 5 := by omega
         have h6 : a ≠ x + 6 := by omega
         have h7 : a ≠ x + 7 := by omega
         simp [ScalarLoopKind.store, AVX.__avx_f32cx8_store, List.range, List.range.loop,
           Function.update, h0, h1, h2, h3, h4, h5, h6, h7])
      | simp [ScalarLoopKind.store, SSE3.__sse_f16x4_store, WASM.__wasm_f16x4_store,
          LSX.__lsx_f16x4_store, VXE.__lzs_f16cx4_store, List.range, List.range.loop,
          Function.update, h0, h1, h2, h3])

/-- A write of a register mapped lane by lane: lane `k` arrives at `p + k` and
nothing else changes. -/
theorem writeElems_map (n : Nat) (f : ℚ → Nat) (mem : HalfMem) (p : Int) (y : Reg)
    (hlen : y.length = n) :
    (∀ k : Nat, k < n → writeElems n mem p (y.map f) (p + k) = f (lane y k)) ∧
      (∀ a : Int, a < p ∨ p + n ≤ a → writeElems n mem p (y.map f) a = mem a) :=
  ⟨fun k hk => by rw [writeElems_at n mem p _ k hk, getD_map_lane f y k (hlen ▸ hk)],
    fun a ha => writeElems_frame n mem p _ a ha⟩

/-- The LASX store writes the eight lanes, narrowed, in lane order. -/
theorem lasx_store_eq (c : Conversions) (mem : HalfMem) (x : Addr) (y : Reg) :
    LASX.__lasx_f32cx8_store c mem x y
      = writeElems 8 mem x (y.map (fun q => c.half_bits (c.round_to_half q))) := by
  have h : (0 ||| (2 <<< 2) : Nat) = 8 := by decide
  simp only [LASX.__lasx_f32cx8_store, __lasx_xvfcvt_h_s, Checked.__lasx_xvpermi_d, h]
  simp only [Nat.reduceMod, Nat.reduceDiv, List.getD_cons_zero, List.getD_cons_succ,
    ← List.map_append, List.take_append_drop]

/-- The VXE store with NNPA writes the four lanes, converted through DLFloat16, and
nothing else. -/
theorem lzs_nnpa_store (c : Conversions) (mem : HalfMem) (x : Int) (y : Reg)
    (hlen : y.length = 4) :
    (∀ k : Nat, k < 4 → VXE.__lzs_f16cx4_store_of true c mem x y (x + k)
        = NNPA.dlfloat16_to_binary16 c.tiesAway
            (NNPA.binary32_to_dlfloat16 c.tiesAway (f32_bits (lane y k)))) ∧
      (∀ a : Int, a < x ∨ x + (4 : Nat) ≤ a → VXE.__lzs_f16cx4_store_of true c mem x y a = mem a) := by
  obtain ⟨y0, y1, y2, y3, rfl⟩ := list_of_length_four y hlen
  constructor
  · intro k hk
    interval_cases k <;>
      simp [VXE.__lzs_f16cx4_store_of, NNPA.vec_splats, NNPA.vec_round_from_fp32,
        NNPA.vec_convert_to_fp16, NNPA.vec_extract, Function.update, lane]
  · intro a ha
    have h0 : a ≠ x := by omega
    have h1 : a ≠ x + 1 := by omega
    have h2 : a ≠ x + 2 := by omega
    have h3 : a ≠ x + 3 := by omega
    simp [VXE.__lzs_f16cx4_store_of, Function.update, h0, h1, h2, h3]

/-- The half-precision store on the branches other than POWER9, for a register of
`n` lanes where `n` is the number of elements of the branch: lane `k` arrives at
`p + k`, converted, and nothing else changes. -/
theorem F16_VEC_STORE_writes (bk : Backend) (fp16va f16c nnpa : Bool) (F16_EPR : Nat)
    (c : Conversions) (mem : HalfMem) (p : Int) (r : List Reg) (i n : Nat) (hp : bk ≠ .POWER9)
    (hn : n = (match bk with
      | .SVE => if fp16va then 8 else 4
      | .NEON => if fp16va then 8 else 4
      | .AVX512 => 16
      | .AVX => 8
      | .POWER9 => 4
      | .WASM => 4
      | .SSE3 => 4
      | .LASX => 8
      | .LSX => 4
      | .VXE => 4))
    (hlen : (r.getD i []).length = n) :
    (∀ k : Nat, k < n → LM_GGML_F16_VEC_STORE bk fp16va f16c nnpa F16_EPR c mem p r i (p + k)
        = storedPattern bk fp16va f16c nnpa c (lane (r.getD i []) k)) ∧
      (∀ a : Int, a < p ∨ p + n ≤ a →
        LM_GGML_F16_VEC_STORE bk fp16va f16c nnpa F16_EPR c mem p r i a = mem a) := by
  subst hn
  cases bk
  case POWER9 => exact absurd rfl hp
  case SVE =>
    cases fp16va
    · have h := writeElems_map 4 (fun q => c.half_bits (c.round_to_half q)) mem p _ hlen
      simpa [LM_GGML_F16_VEC_STORE, storedPattern, NEON.LM_GGML_F32Cx4_STORE, vst1_f16,
        vcvt_f16_f32, List.map_map, Function.comp_def] using h
    · exact writeElems_map 8 c.half_bits mem p _ hlen
  case NEON =>
    cases fp16va
    · have h := writeElems_map 4 (fun q => c.half_bits (c.round_to_half q)) mem p _ hlen
      simpa [LM_GGML_F16_VEC_STORE, storedPattern, NEON.LM_GGML_F32Cx4_STORE, vst1_f16,
        vcvt_f16_f32, List.map_map, Function.comp_def] using h
    · exact writeElems_map 8 c.half_bits mem p _ hlen
  case AVX512 =>
    exact writeElems_map 16 (fun q => c.half_bits (c.round_to_half q)) mem p _ hlen
  case AVX =>
    cases f16c
    · exact ⟨fun k hk => ScalarLoopKind_store_at .avx_f32cx8 _ _ _ _ k hk,
        fun a ha => ScalarLoopKind_store_frame .avx_f32cx8 _ _ _ _ a ha⟩
    · exact writeElems_map 8 (fun q => c.half_bits (c.round_to_half q)) mem p _ hlen
  case WASM =>
    exact ⟨fun k hk => ScalarLoopKind_store_at .wasm_f16x4 _ _ _ _ k hk,
      fun a ha => ScalarLoopKind_store_frame .wasm_f16x4 _ _ _ _ a ha⟩
  case SSE3 =>
    exact ⟨fun k hk => ScalarLoopKind_store_at .sse_f16x4 _ _ _ _ k hk,
      fun a ha => ScalarLoopKind_store_frame .sse_f16x4 _ _ _ _ a ha⟩
  case LASX =>
    have h := writeElems_map 8 (fun q => c.half_bits (c.round_to_half q)) mem p _ hlen
    have e := lasx_store_eq c mem p (r.getD i [])
    simp only [LM_GGML_F16_VEC_STORE, storedPattern, e]
    exact h
  case LSX =>
    exact ⟨fun k hk => ScalarLoopKind_store_at .lsx_f16x4 _ _ _ _ k hk,
      fun a ha => ScalarLoopKind_store_frame .lsx_f16x4 _ _ _ _ a ha⟩
  case VXE =>
    cases nnpa
    · exact ⟨fun k hk => ScalarLoopKind_store_at .lzs_f16cx4 _ _ _ _ k hk,
        fun a ha => ScalarLoopKind_store_frame .lzs_f16cx4 _ _ _ _ a ha⟩
    · exact lzs_nnpa_store c mem p _ hlen

/-- C17 (counterexample). On POWER9 (`LM_GGML_F16_EPR` is 4) the store with index 0
writes nothing, so `p[0]` keeps its old value and not the converted lane 0 of
`r[0]`; the store with index 1 writes eight halves from `p - 4` on, so `p[-4]`
changes: it receives lane 0 of `r[0]`. -/
theorem POWER9_F16_store_writes_a_pair :
    selectBackend power9Target = some .POWER9 ∧ LM_GGML_F16_EPR power9Target = some 4 ∧
      LM_GGML_F16_VEC_STORE .POWER9 false false false 4 exampleConversions (fun _ => 0) 100
        exampleRegisters 0 100 = 0 ∧
      storedPattern .POWER9 false false false exampleConversions
        (lane (exampleRegisters.getD 0 []) 0) = 0x3C00 ∧
      LM_GGML_F16_VEC_STORE .POWER9 false false false 4 exampleConversions (fun _ => 0) 100
        exampleRegisters 1 96 = 0x3C00 ∧
      LM_GGML_F16_VEC_STORE .POWER9 false false false 4 exampleConversions (fun _ => 0) 100
        exampleRegisters 1 100 = 0xC000 := by
  refine ⟨by decide, by decide, ?_, ?_, ?_, ?_⟩
  · simp [LM_GGML_F16_VEC_STORE, POWER9.LM_GGML_F16_VEC_STORE]
  · simp [storedPattern, exampleConversions, exampleRegisters, exampleToHalf, lane]
  · simp [LM_GGML_F16_VEC_STORE, POWER9.LM_GGML_F16_VEC_STORE, vec_xst, writeElems,
      exampleConversions, exampleRegisters, exampleToHalf, lm_ggml_endian_byte]
  · simp [LM_GGML_F16_VEC_STORE, POWER9.LM_GGML_F16_VEC_STORE, vec_xst, writeElems,
      exampleConversions, exampleRegisters, exampleToHalf, lm_ggml_endian_byte]
    norm_num

/-- C17 (amended). For a target with a selected branch and `EPR` the value of
`LM_GGML_F16_EPR`: on every branch other than POWER9, and for every index `i` whose
register `r[i]` has `EPR` lanes, `LM_GGML_F16_VEC_STORE(p, r, i)` leaves at `p[k]`,
`k < EPR`, lane `k` of `r[i]` converted to half precision, and leaves every address
outside `p[0 .. EPR)` as it was.  On POWER9 the store with an even index writes
nothing, and the store with an odd index writes the eight halves that
`vec_pack_to_short_fp32` makes of `r[i-1]` and `r[i]` to `p[-EPR .. EPR)` and leaves
every address outside that range as it was. -/
theorem F16_store_writes_EPR_elements (t : Features) (bk : Backend)
    (hsel : selectBackend t = some bk) (epr : Nat) (he : LM_GGML_F16_EPR t = some epr)
    (c : Conversions) (mem : HalfMem) (p : Addr) (r : List Reg) (i : Nat) :
    (bk ≠ .POWER9 → (r.getD i []).length = epr →
      (∀ k : Nat, k < epr →
        LM_GGML_F16_VEC_STORE bk t.ARM_FEATURE_FP16_VECTOR_ARITHMETIC t.F16C t.NNPA epr c mem p
            r i (p + k)
          = storedPattern bk t.ARM_FEATURE_FP16_VECTOR_ARITHMETIC t.F16C t.NNPA c
              (lane (r.getD i []) k)) ∧
      (∀ a : Addr, a < p ∨ p + epr ≤ a →
        LM_GGML_F16_VEC_STORE bk t.ARM_FEATURE_FP16_VECTOR_ARITHMETIC t.F16C t.NNPA epr c mem p
            r i a = mem a)) ∧
    (bk = .POWER9 →
      (i % 2 = 0 →
        LM_GGML_F16_VEC_STORE bk t.ARM_FEATURE_FP16_VECTOR_ARITHMETIC t.F16C t.NNPA epr c mem p
            r i = mem) ∧
      (i % 2 = 1 →
        (∀ k : Nat, k < 2 * epr →
          LM_GGML_F16_VEC_STORE bk t.ARM_FEATURE_FP16_VECTOR_ARITHMETIC t.F16C t.NNPA epr c mem
              p r i (p - epr + k)
            = (c.vec_pack_to_short_fp32 (r.getD (i - lm_ggml_endian_byte c 1) [])
                (r.getD (i - lm_ggml_endian_byte c 0) [])).getD k 0) ∧
        (∀ a : Addr, a < p - epr ∨ p + epr ≤ a →
          LM_GGML_F16_VEC_STORE bk t.ARM_FEATURE_FP16_VECTOR_ARITHMETIC t.F16C t.NNPA epr c mem
              p r i a = mem a))) := by
  have h16 := F16_EPR_branch bk t.ARM_FEATURE_FP16_VECTOR_ARITHMETIC t.FMA t.F16C
  rw [← simdEnv_of_select hsel] at h16
  rw [LM_GGML_F16_EPR, h16] at he
  constructor
  · intro hp hlen
    refine F16_VEC_STORE_writes bk _ _ _ epr c mem p r i epr hp ?_ hlen
    cases bk <;> simp only [Option.some.injEq] at he <;> exact he.symm
  · intro hp
    subst hp
    simp only [Option.some.injEq] at he
    subst he
    refine ⟨fun hi => ?_, fun hi => ⟨fun k hk => ?_, fun a ha => ?_⟩⟩
    · have hi' : ¬ (i % 2 = 1) := by omega
      simp only [LM_GGML_F16_VEC_STORE, POWER9.LM_GGML_F16_VEC_STORE, hi', if_false]
    · simp only [LM_GGML_F16_VEC_STORE, POWER9.LM_GGML_F16_VEC_STORE, hi, if_true, vec_xst]
      exact writeElems_at 8 mem _ _ k hk
    · simp only [LM_GGML_F16_VEC_STORE, POWER9.LM_GGML_F16_VEC_STORE, hi, if_true, vec_xst]
      refine writeElems_frame 8 mem _ _ a ?_
      have ha' : a < p - (4 : Int) ∨ p + (4 : Int) ≤ a := by simpa using ha
      have e : p - ((4 : Nat) : Int) + ((8 : Nat) : Int) = p + 4 := by norm_num; ring
      rcases ha' with h | h
      · left; simpa using h
      · right; rw [e]; exact h

/-- Witness for C17 (amended): the AVX512 target (`LM_GGML_F16_EPR` is 16), a register
of sixteen lanes 1.0 stored at address 100 over memory of zeros. -/
theorem F16_store_writes_EPR_elements_witness :
    selectBackend avx512Target = some .AVX512 ∧ LM_GGML_F16_EPR avx512Target = some 16 ∧
      ([List.replicate 16 (1 : ℚ)].getD 0 []).length = 16 ∧
      LM_GGML_F16_VEC_STORE .AVX512 false true false 16 exampleConversions (fun _ => 0) 100
          [List.replicate 16 1] 0 (100 + (15 : Nat))
        = storedPattern .AVX512 false true false exampleConversions
            (lane ([List.replicate 16 (1 : ℚ)].getD 0 []) 15) ∧
      LM_GGML_F16_VEC_STORE .AVX512 false true false 16 exampleConversions (fun _ => 0) 100
          [List.replicate 16 1] 0 116 = 0 :=
  ⟨by decide, by decide, by simp,
    ((F16_store_writes_EPR_elements avx512Target .AVX512 (by decide) 16 (by decide)
      exampleConversions (fun _ => 0) 100 [List.replicate 16 1] 0).1 (by decide)
        (by simp)).1 15 (by decide),
    ((F16_store_writes_EPR_elements avx512Target .AVX512 (by decide) 16 (by decide)
      exampleConversions (fun _ => 0) 100 [List.replicate 16 1] 0).1 (by decide)
        (by simp)).2 116 (Or.inr (by decide))⟩

/-! ## The halving stages on 1, 2, 4, 8 and 16 registers -/

/-- The three stages on one register: every offset is 0. -/
theorem halvingStages_one (add : Reg → Reg → Reg) (r0 : Reg) :
    halvingStages add 1 [r0] = [r0] := by
  rfl

/-- The three stages on two registers: offsets 1, 0 and 0. -/
theorem halvingStages_two (add : Reg → Reg → Reg) (r0 r1 : Reg) :
    halvingStages add 2 [r0, r1] = [add r0 r1, r1] := by
  rfl

/-- The three stages on sixteen registers, offsets 8, 4 and 2: register 0 receives
the eight registers with an even index. -/
theorem halvingStages_sixteen (add : Reg → Reg → Reg)
    (r0 r1 r2 r3 r4 r5 r6 r7 r8 r9 r10 r11 r12 r13 r14 r15 : Reg) :
    (halvingStages add 16
        [r0, r1, r2, r3, r4, r5, r6, r7, r8, r9, r10, r11, r12, r13, r14, r15]).getD 0 []
      = add (add (add r0 r8) (add r4 r12)) (add (add r2 r10) (add r6 r14)) := by
  rfl

/-- Adding two registers of width `w` gives a register of width `w` whose lanes are
the sums of the lanes. -/
theorem laneAdd_lanes {w : Nat} (a b : Reg) (ha : a.length = w) (hb : b.length = w) :
    (laneAdd a b).length = w ∧ ∀ k, lane (laneAdd a b) k = lane a k + lane b k :=
  ⟨by simp [laneAdd_length, ha, hb], fun k => lane_laneAdd a b (by rw [ha, hb]) k⟩

/-- After the three stages on 1, 2, 4 or 8 registers of width `w`, the array still has
as many registers, register 0 has width `w`, and lane `k` of register 0 is the sum of
the lanes `k` of all registers. -/
theorem halved_lanes (n : Nat) (hn : n = 1 ∨ n = 2 ∨ n = 4 ∨ n = 8) (x : List Reg)
    (hx : x.length = n) (w : Nat) (hr : ∀ r ∈ x, r.length = w) :
    (halvingStages laneAdd n x).length = n ∧
      ((halvingStages laneAdd n x).getD 0 []).length = w ∧
      ∀ k, lane ((halvingStages laneAdd n x).getD 0 []) k = (x.map (fun r => lane r k)).sum := by
  rcases hn with rfl | rfl | rfl | rfl
  · match x, hx with
    | [r0], _ =>
      rw [halvingStages_one]
      exact ⟨rfl, hr r0 (by simp), fun k => by simp⟩
  · match x, hx with
    | [r0, r1], _ =>
      have s := laneAdd_lanes r0 r1 (hr r0 (by simp)) (hr r1 (by simp))
      rw [halvingStages_two]
      refine ⟨rfl, s.1, fun k => ?_⟩
      simp only [List.getD_cons_zero, s.2 k, List.map_cons, List.map_nil, List.sum_cons,
        List.sum_nil]
      ring
  · obtain ⟨r0, r1, r2, r3, rfl⟩ := list_of_length_four x hx
    have s02 := laneAdd_lanes r0 r2 (hr r0 (by simp)) (hr r2 (by simp))
    have s13 := laneAdd_lanes r1 r3 (hr r1 (by simp)) (hr r3 (by simp))
    have s := laneAdd_lanes _ _ s02.1 s13.1
    rw [halvingStages_four]
    refine ⟨rfl, s.1, fun k => ?_⟩
    simp only [List.getD_cons_zero, s.2 k, s02.2 k, s13.2 k, List.map_cons, List.map_nil,
      List.sum_cons, List.sum_nil]
    ring
  · obtain ⟨r0, r1, r2, r3, r4, r5, r6, r7, rfl⟩ := list_of_length_eight x hx
    have s04 := laneAdd_lanes r0 r4 (hr r0 (by simp)) (hr r4 (by simp))
    have s15 := laneAdd_lanes r1 r5 (hr r1 (by simp)) (hr r5 (by simp))
    have s26 := laneAdd_lanes r2 r6 (hr r2 (by simp)) (hr r6 (by simp))
    have s37 := laneAdd_lanes r3 r7 (hr r3 (by simp)) (hr r7 (by simp))
    have sa := laneAdd_lanes _ _ s04.1 s26.1
    have sb := laneAdd_lanes _ _ s15.1 s37.1
    have s := laneAdd_lanes _ _ sa.1 sb.1
    rw [halvingStages_eight]
    refine ⟨rfl, s.1, fun k => ?_⟩
    simp only [List.getD_cons_zero, s.2 k, sa.2 k, sb.2 k, s04.2 k, s15.2 k, s26.2 k, s37.2 k,
      List.map_cons, List.map_nil, List.sum_cons, List.sum_nil]
    ring

/-- The halving phase is three loops, with offsets `n >> 1`, `n >> 2` and `n >> 3`,
which is what the register counts of the header (4 and 8) need.  Sixteen is a count
no branch of the header yields; run on sixteen registers `[1, 0, 0, 0]`, the text of
the NEON and of the AVX512 reduce would end with `[8, 0, 0, 0]` in `x[0]`, the sum of
the eight registers with an even index. -/
theorem halving_of_sixteen_stops_at_two :
    ((NEON.LM_GGML_F32x4_REDUCE 16 sixteenRegisters).2).getD 0 [] = [8, 0, 0, 0] ∧
      ((AVX512.LM_GGML_F32x16_REDUCE 16 sixteenRegisters).2).getD 0 [] = [8, 0, 0, 0] ∧
      (sixteenRegisters.map (fun r => lane r 0)).sum = 16 ∧
      lane (((NEON.LM_GGML_F32x4_REDUCE 16 sixteenRegisters).2).getD 0 []) 0
        ≠ (sixteenRegisters.map (fun r => lane r 0)).sum := by
  have hlist : sixteenRegisters
      = [[1, 0, 0, 0], [1, 0, 0, 0], [1, 0, 0, 0], [1, 0, 0, 0], [1, 0, 0, 0], [1, 0, 0, 0],
         [1, 0, 0, 0], [1, 0, 0, 0], [1, 0, 0, 0], [1, 0, 0, 0], [1, 0, 0, 0], [1, 0, 0, 0],
         [1, 0, 0, 0], [1, 0, 0, 0], [1, 0, 0, 0], [1, 0, 0, 0]] := by
    rfl
  have h1 : ((NEON.LM_GGML_F32x4_REDUCE 16 sixteenRegisters).2).getD 0 [] = [8, 0, 0, 0] := by
    rw [hlist]
    show (halvingStages laneAdd 16 _).getD 0 [] = _
    rw [halvingStages_sixteen]
    norm_num [laneAdd]
  have h2 : ((AVX512.LM_GGML_F32x16_REDUCE 16 sixteenRegisters).2).getD 0 [] = [8, 0, 0, 0] :=
    h1
  have h3 : (sixteenRegisters.map (fun r => lane r 0)).sum = 16 := by
    rw [hlist]
    norm_num [lane]
  refine ⟨h1, h2, h3, ?_⟩
  rw [h1, h3]
  norm_num [lane]

/-! ## C22 and C25: the register array of a reduce -/

/-- The register array the full-precision array-form reduce leaves: the three halving
stages over `LM_GGML_F32_ARR` registers, which is 4 or 8. -/
theorem F32_VEC_REDUCE_array (t : Features) (bk : Backend) (hsel : selectBackend t = some bk)
    (n : Nat) (harr : LM_GGML_F32_ARR t = some n) (x : List Reg) :
    (LM_GGML_F32_VEC_REDUCE t x).map Prod.snd = some (halvingStages laneAdd n x) ∧
      (n = 4 ∨ n = 8) := by
  have h := F32_ARR_branch bk t.ARM_FEATURE_FP16_VECTOR_ARITHMETIC t.FMA t.F16C
  rw [← simdEnv_of_select hsel] at h
  have harr' := harr
  rw [LM_GGML_F32_ARR, h] at harr'
  cases bk
  case SVE => simp at harr'
  all_goals
    simp only [Option.some.injEq] at harr'
    subst harr'
    simp only [LM_GGML_F32_VEC_REDUCE, hsel, harr, Option.map_some']
    exact ⟨rfl, by decide⟩

/-- The register array the half-precision reduce leaves, wherever the name is bound
to a reduce: the three halving stages over `LM_GGML_F16_ARR` registers, which is 4 or
8 and equals the count the text of the reduce names. -/
theorem F16_VEC_REDUCE_array (t : Features) (bk : Backend) (hsel : selectBackend t = some bk)
    (hcfg : ¬ (bk = .SVE ∧ t.ARM_FEATURE_FP16_VECTOR_ARITHMETIC = false))
    (n : Nat) (harr : LM_GGML_F16_ARR t = some n) (x : List Reg) :
    (LM_GGML_F16_VEC_REDUCE t x).map Prod.snd = some (halvingStages laneAdd n x) ∧
      (n = 4 ∨ n = 8) := by
  have h32 := F32_ARR_branch bk t.ARM_FEATURE_FP16_VECTOR_ARITHMETIC t.FMA t.F16C
  have h16 := F16_ARR_branch bk t.ARM_FEATURE_FP16_VECTOR_ARITHMETIC t.FMA t.F16C
  rw [← simdEnv_of_select hsel] at h32 h16
  have h32' : LM_GGML_F32_ARR t = _ := h32
  have harr' := harr
  rw [LM_GGML_F16_ARR, h16] at harr'
  cases bk
  case SVE =>
    have hv : t.ARM_FEATURE_FP16_VECTOR_ARITHMETIC = true := by
      cases hva : t.ARM_FEATURE_FP16_VECTOR_ARITHMETIC
      · exact absurd ⟨rfl, hva⟩ hcfg
      · rfl
    simp only [Option.some.injEq] at harr'
    subst harr'
    simp only [LM_GGML_F16_VEC_REDUCE, hsel, hv, harr, if_true, Option.map_some']
    exact ⟨rfl, by decide⟩
  case NEON =>
    simp only [Option.some.injEq] at harr'
    subst harr'
    cases hv : t.ARM_FEATURE_FP16_VECTOR_ARITHMETIC
    · simp only [LM_GGML_F16_VEC_REDUCE, hsel, hv, h32', Bool.false_eq_true, if_false,
        Option.map_some']
      exact ⟨rfl, by decide⟩
    · simp only [LM_GGML_F16_VEC_REDUCE, hsel, hv, harr, if_true, Option.map_some']
      exact ⟨rfl, by decide⟩
  all_goals
    simp only [Option.some.injEq] at harr'
    subst harr'
    simp only [LM_GGML_F16_VEC_REDUCE, hsel, harr, h32', Option.map_some']
    exact ⟨rfl, by decide⟩

/-- Where the half-precision reduce ends at a definition that reads `LM_GGML_F32_ARR`,
the two register counts have one value, by branch. -/
theorem F16_ARR_eq_branch (bk : Backend) (v m c : Bool)
    (h : (match aliasLeaf (branchEnv bk v m c) expansionFuel .LM_GGML_F16_VEC_REDUCE with
      | some d => decide (Name.LM_GGML_F32_ARR ∈ d.body.uses)
      | none => false) = true) :
    constValue (branchEnv bk v m c) expansionFuel .LM_GGML_F16_ARR
        = constValue (branchEnv bk v m c) expansionFuel .LM_GGML_F32_ARR ∧
      (constValue (branchEnv bk v m c) expansionFuel .LM_GGML_F32_ARR).isSome = true ∧
      bk ≠ .SVE := by
  revert bk v m c
  decide

/-- With no branch selected no half-precision reduce is defined. -/
theorem aliasLeaf_no_branch (n : Name) : aliasLeaf (withARR []) expansionFuel n = none := by
  rfl

/-- C22. On every target on which `LM_GGML_F16_VEC_REDUCE` ends, through its aliases,
at a definition whose text reads `LM_GGML_F32_ARR` (the reused `LM_GGML_F32x4_REDUCE`
and `LM_GGML_F32x8_REDUCE` and the AVX512 `LM_GGML_F32Cx16_REDUCE`), both register
counts are defined and `LM_GGML_F16_ARR` equals `LM_GGML_F32_ARR`; the half-precision
reduce of an array of `LM_GGML_F16_ARR` registers of one width runs its halving stages
over that many registers and leaves in `x[0]` the lane-wise sum of all of them. -/
theorem F16_ARR_is_F32_ARR (t : Features) (d : Define)
    (hleaf : aliasLeaf (simdEnv t) expansionFuel .LM_GGML_F16_VEC_REDUCE = some d)
    (huse : Name.LM_GGML_F32_ARR ∈ d.body.uses) :
    ∃ n, LM_GGML_F16_ARR t = some n ∧ LM_GGML_F32_ARR t = some n ∧
      ∀ (x : List Reg) (w : Nat), x.length = n → (∀ r ∈ x, r.length = w) →
        (LM_GGML_F16_VEC_REDUCE t x).map Prod.snd = some (halvingStages laneAdd n x) ∧
        ((halvingStages laneAdd n x).getD 0 []).length = w ∧
        ∀ k, lane ((halvingStages laneAdd n x).getD 0 []) k
          = (x.map (fun r => lane r k)).sum := by
  cases hsel : selectBackend t with
  | none =>
    have henv : simdEnv t = withARR [] := by simp [simdEnv, hsel]
    rw [henv, aliasLeaf_no_branch] at hleaf
    exact absurd hleaf (by simp)
  | some bk =>
    have henv := simdEnv_of_select hsel
    have hb := F16_ARR_eq_branch bk t.ARM_FEATURE_FP16_VECTOR_ARITHMETIC t.FMA t.F16C (by
      rw [← henv, hleaf]
      exact decide_eq_true huse)
    rw [← henv] at hb
    obtain ⟨heq, hsome, hsve⟩ := hb
    obtain ⟨n, hn⟩ := Option.isSome_iff_exists.mp hsome
    have h32 : LM_GGML_F32_ARR t = some n := hn
    have h16 : LM_GGML_F16_ARR t = some n := heq.trans hn
    refine ⟨n, h16, h32, fun x w hx hr => ?_⟩
    have ha := F16_VEC_REDUCE_array t bk hsel (fun hc => hsve hc.1) n h16 x
    have hl := halved_lanes n (by rcases ha.2 with h | h <;> simp [h]) x hx w hr
    exact ⟨ha.1, hl.2⟩

/-- Witness for C22: the AVX512 target, whose half-precision reduce
`LM_GGML_F32Cx16_REDUCE` reads `LM_GGML_F32_ARR`; both counts are 4. -/
theorem F16_ARR_is_F32_ARR_witness :
    aliasLeaf (simdEnv avx512Target) expansionFuel .LM_GGML_F16_VEC_REDUCE
        = some ⟨.LM_GGML_F32Cx16_REDUCE, .fn 2, .code "" [.LM_GGML_F32_ARR]⟩ ∧
      LM_GGML_F16_ARR avx512Target = some 4 ∧ LM_GGML_F32_ARR avx512Target = some 4 ∧
      ∃ n, LM_GGML_F16_ARR avx512Target = some n ∧ LM_GGML_F32_ARR avx512Target = some n :=
  ⟨by decide, by decide, by decide, by
    obtain ⟨n, h1, h2, -⟩ := F16_ARR_is_F32_ARR avx512Target
      ⟨.LM_GGML_F32Cx16_REDUCE, .fn 2, .code "" [.LM_GGML_F32_ARR]⟩ (by decide) (by decide)
    exact ⟨n, h1, h2⟩⟩

/-- What the three stages leave in an array of four or eight registers: the upper
half as it was, the lower half overwritten with sums. -/
theorem halving_frame (n : Nat) (hn : n = 4 ∨ n = 8) (x : List Reg) (hx : x.length = n) :
    (halvingStages laneAdd n x).length = n ∧
      (∀ j, n / 2 ≤ j → j < n → (halvingStages laneAdd n x).getD j [] = x.getD j []) ∧
      (n = 4 → (halvingStages laneAdd n x).take 2
        = [laneAdd (laneAdd (x.getD 0 []) (x.getD 2 [])) (laneAdd (x.getD 1 []) (x.getD 3 [])),
           laneAdd (x.getD 1 []) (x.getD 3 [])]) ∧
      (n = 8 → (halvingStages laneAdd n x).take 4
        = [laneAdd (laneAdd (laneAdd (x.getD 0 []) (x.getD 4 []))
              (laneAdd (x.getD 2 []) (x.getD 6 [])))
             (laneAdd (laneAdd (x.getD 1 []) (x.getD 5 []))
              (laneAdd (x.getD 3 []) (x.getD 7 []))),
           laneAdd (laneAdd (x.getD 1 []) (x.getD 5 [])) (laneAdd (x.getD 3 []) (x.getD 7 [])),
           laneAdd (x.getD 2 []) (x.getD 6 []),
           laneAdd (x.getD 3 []) (x.getD 7 [])]) := by
  rcases hn with rfl | rfl
  · obtain ⟨r0, r1, r2, r3, rfl⟩ := list_of_length_four x hx
    rw [halvingStages_four]
    refine ⟨rfl, fun j h1 h2 => ?_, fun _ => rfl, fun h => absurd h (by decide)⟩
    have h1' : 2 ≤ j := h1
    interval_cases j <;> rfl
  · obtain ⟨r0, r1, r2, r3, r4, r5, r6, r7, rfl⟩ := list_of_length_eight x hx
    rw [halvingStages_eight]
    refine ⟨rfl, fun j h1 h2 => ?_, fun h => absurd h (by decide), fun _ => rfl⟩
    have h1' : 4 ≤ j := h1
    interval_cases j <;> rfl

/-- C25. For a target with an array-form reduce and an array `x` of `LM_GGML_F32_ARR`
registers (4 or 8): `LM_GGML_F32_VEC_REDUCE(res, x)` leaves every register `x[j]` of the
upper half, `ARR/2 <= j < ARR`, as it was and overwrites the registers of the lower
half with the partial sums written out in the statement; the half-precision reduce of
an array of `LM_GGML_F16_ARR` registers does the same wherever it is bound to a
reduce. -/
theorem reduce_keeps_upper_half (t : Features) (bk : Backend)
    (hsel : selectBackend t = some bk) :
    (∀ (n : Nat) (x : List Reg), LM_GGML_F32_ARR t = some n → x.length = n →
      ∃ x', (LM_GGML_F32_VEC_REDUCE t x).map Prod.snd = some x' ∧ (n = 4 ∨ n = 8) ∧
        x'.length = n ∧
        (∀ j, n / 2 ≤ j → j < n → x'.getD j [] = x.getD j []) ∧
        (n = 4 → x'.take 2
          = [laneAdd (laneAdd (x.getD 0 []) (x.getD 2 []))
               (laneAdd (x.getD 1 []) (x.getD 3 [])),
             laneAdd (x.getD 1 []) (x.getD 3 [])]) ∧
        (n = 8 → x'.take 4
          = [laneAdd (laneAdd (laneAdd (x.getD 0 []) (x.getD 4 []))
                (laneAdd (x.getD 2 []) (x.getD 6 [])))
               (laneAdd (laneAdd (x.getD 1 []) (x.getD 5 []))
                (laneAdd (x.getD 3 []) (x.getD 7 []))),
             laneAdd (laneAdd (x.getD 1 []) (x.getD 5 []))
               (laneAdd (x.getD 3 []) (x.getD 7 [])),
             laneAdd (x.getD 2 []) (x.getD 6 []),
             laneAdd (x.getD 3 []) (x.getD 7 [])])) ∧
    (∀ (n : Nat) (x : List Reg), LM_GGML_F16_ARR t = some n → x.length = n →
      ¬ (bk = .SVE ∧ t.ARM_FEATURE_FP16_VECTOR_ARITHMETIC = false) →
      ∃ x', (LM_GGML_F16_VEC_REDUCE t x).map Prod.snd = some x' ∧ (n = 4 ∨ n = 8) ∧
        x'.length = n ∧
        (∀ j, n / 2 ≤ j → j < n → x'.getD j [] = x.getD j [])) := by
  constructor
  · intro n x harr hx
    have ha := F32_VEC_REDUCE_array t bk hsel n harr x
    have hf := halving_frame n ha.2 x hx
    exact ⟨_, ha.1, ha.2, hf.1, hf.2.1, hf.2.2.1, hf.2.2.2⟩
  · intro n x harr hx hcfg
    have ha := F16_VEC_REDUCE_array t bk hsel hcfg n harr x
    have hf := halving_frame n ha.2 x hx
    exact ⟨_, ha.1, ha.2, hf.1, hf.2.1⟩

/-- Witness for C25: the AVX target (`LM_GGML_F32_ARR` is 4) and four registers of one
lane holding 1, 2, 3 and 4: after the reduce the array is `[10], [6], [3], [4]`. -/
theorem reduce_keeps_upper_half_witness :
    selectBackend avxTarget = some .AVX ∧ LM_GGML_F32_ARR avxTarget = some 4 ∧
      (LM_GGML_F32_VEC_REDUCE avxTarget [[1], [2], [3], [4]]).map Prod.snd
        = some [[10], [6], [3], [4]] := by
  obtain ⟨x', h1, -, h3, h4, h5, -⟩ :=
    (reduce_keeps_upper_half avxTarget .AVX (by decide)).1 4 [[1], [2], [3], [4]] (by decide)
      rfl
  refine ⟨by decide, by decide, ?_⟩
  rw [h1]
  have e2 := h4 2 (by decide) (by decide)
  have e3 := h4 3 (by decide) (by decide)
  have e01 := h5 rfl
  match x', h3, e2, e3, e01 with
  | [a, b, c, d], _, e2, e3, e01 =>
    simp only [List.getD_cons_zero, List.getD_cons_succ, List.take_succ_cons, List.take_zero,
      List.cons.injEq, and_true] at e2 e3 e01
    obtain ⟨ha, hb⟩ := e01
    subst e2 e3 ha hb
    norm_num [laneAdd]

/-! ## C21: the halving phase on the register counts of the header -/

/-- The half-precision register count of a target is 4 or 8. -/
theorem F16_ARR_values (t : Features) (bk : Backend) (hsel : selectBackend t = some bk)
    (n : Nat) (harr : LM_GGML_F16_ARR t = some n) : n = 4 ∨ n = 8 := by
  have h16 := F16_ARR_branch bk t.ARM_FEATURE_FP16_VECTOR_ARITHMETIC t.FMA t.F16C
  rw [← simdEnv_of_select hsel] at h16
  rw [LM_GGML_F16_ARR, h16] at harr
  cases bk
  all_goals
    simp only [Option.some.injEq] at harr
    subst harr
    decide

/-- C21. The ArrayCount of the header is `LM_GGML_F32_ARR` or `LM_GGML_F16_ARR`.  On
every target, for either precision, that count `n` is a power of two and at least 1,
and for `n` registers of one width the halving phase of the array-form reduce (the
loops with offsets `n/2`, `n/4` and `n/8`, the same in the NEON and the AVX512
reduce and in the reduce the target binds) ends with `x[0]` holding the lane-wise
sum of all `n` input registers. -/
theorem halving_leaves_sum_in_first (t : Features) (bk : Backend)
    (hsel : selectBackend t = some bk) (p : Precision) (n : Nat) (harr : ARR t p = some n)
    (x : List Reg) (hx : x.length = n) (w : Nat) (hr : ∀ r ∈ x, r.length = w) :
    (∃ k, n = 2 ^ k) ∧ 1 ≤ n ∧
      (NEON.LM_GGML_F32x4_REDUCE n x).2 = halvingStages laneAdd n x ∧
      (AVX512.LM_GGML_F32x16_REDUCE n x).2 = halvingStages laneAdd n x ∧
      (p = .F32 →
        (LM_GGML_F32_VEC_REDUCE t x).map Prod.snd = some (halvingStages laneAdd n x)) ∧
      (p = .F16 → ¬ (bk = .SVE ∧ t.ARM_FEATURE_FP16_VECTOR_ARITHMETIC = false) →
        (LM_GGML_F16_VEC_REDUCE t x).map Prod.snd = some (halvingStages laneAdd n x)) ∧
      (halvingStages laneAdd n x).length = n ∧
      ((halvingStages laneAdd n x).getD 0 []).length = w ∧
      ∀ k, lane ((halvingStages laneAdd n x).getD 0 []) k = (x.map (fun r => lane r k)).sum := by
  have hn : n = 4 ∨ n = 8 := by
    cases p
    · exact (F32_VEC_REDUCE_array t bk hsel n harr x).2
    · exact F16_ARR_values t bk hsel n harr
  have hpow : ∃ k, n = 2 ^ k := by
    rcases hn with h | h
    · exact ⟨2, by rw [h]; rfl⟩
    · exact ⟨3, by rw [h]; rfl⟩
  have hl := halved_lanes n (by omega) x hx w hr
  refine ⟨hpow, by omega, rfl, rfl, ?_, ?_, hl.1, hl.2.1, hl.2.2⟩
  · intro hp
    subst hp
    exact (F32_VEC_REDUCE_array t bk hsel n harr x).1
  · intro hp hcfg
    subst hp
    exact (F16_VEC_REDUCE_array t bk hsel hcfg n harr x).1

/-- Witness for C21: a POWER9 target, whose full-precision count is 8, and eight
registers of four lanes, register `j` holding `j + 1`; lane 2 of `x[0]` is 36. -/
theorem halving_leaves_sum_in_first_witness :
    selectBackend power9Target = some .POWER9 ∧ ARR power9Target .F32 = some 8 ∧
      eightRegisters.length = 8 ∧ (∀ r ∈ eightRegisters, r.length = 4) ∧
      (LM_GGML_F32_VEC_REDUCE power9Target eightRegisters).map Prod.snd
        = some (halvingStages laneAdd 8 eightRegisters) ∧
      lane ((halvingStages laneAdd 8 eightRegisters).getD 0 []) 2 = 36 := by
  have hsel : selectBackend power9Target = some .POWER9 := by decide
  have harr : ARR power9Target .F32 = some 8 := by decide
  have hx : eightRegisters.length = 8 := rfl
  have hr : ∀ r ∈ eightRegisters, r.length = 4 := by
    intro r h
    simp only [eightRegisters, List.mem_cons, List.mem_singleton, List.not_mem_nil,
      or_false] at h
    rcases h with rfl | rfl | rfl | rfl | rfl | rfl | rfl | rfl <;> rfl
  have h := halving_leaves_sum_in_first power9Target .POWER9 hsel .F32 8 harr eightRegisters
    hx 4 hr
  refine ⟨hsel, harr, hx, hr, h.2.2.2.2.1 rfl, ?_⟩
  rw [h.2.2.2.2.2.2.2.2 2]
  norm_num [eightRegisters, lane]

/-! ## C23: the POWER9 stores of one step -/

/-- The two bytes of the `uint16_t` value 1 are 1 and 0 in one order or the other. -/
theorem lm_ggml_endian_byte_pair (c : Conversions) :
    (lm_ggml_endian_byte c 0 = 1 ∧ lm_ggml_endian_byte c 1 = 0) ∨
      (lm_ggml_endian_byte c 0 = 0 ∧ lm_ggml_endian_byte c 1 = 1) := by
  cases h : c.littleEndian <;> simp [lm_ggml_endian_byte, h]

/-- The writes of one execution, applied to memory, are the store of the lane
model. -/
theorem POWER9_writes_are_the_store (epr : Nat) (c : Conversions) (mem : HalfMem) (p : Addr)
    (r : List Reg) (i : Nat) :
    applyWrites mem (POWER9.LM_GGML_F16_VEC_STORE_writes epr c p r i)
      = POWER9.LM_GGML_F16_VEC_STORE epr c mem p r i := by
  by_cases hi : i % 2 = 1
  · simp only [POWER9.LM_GGML_F16_VEC_STORE_writes, POWER9.LM_GGML_F16_VEC_STORE, hi, if_true,
      applyWrites, List.foldl_cons, List.foldl_nil, applyWrite, vec_xst]
  · simp only [POWER9.LM_GGML_F16_VEC_STORE_writes, POWER9.LM_GGML_F16_VEC_STORE, hi, if_false,
      applyWrites, List.foldl_nil]

/-- The four writes of the eight stores of one step. -/
theorem POWER9_writes_of_a_step (c : Conversions) (base : Int) (r : List Reg) :
    (List.range 8).flatMap
        (fun i => POWER9.LM_GGML_F16_VEC_STORE_writes 4 c (base + (i : Int) * (4 : Nat)) r i)
      = [⟨base, 8, c.vec_pack_to_short_fp32 (r.getD (1 - lm_ggml_endian_byte c 1) [])
            (r.getD (1 - lm_ggml_endian_byte c 0) [])⟩,
         ⟨base + 8, 8, c.vec_pack_to_short_fp32 (r.getD (3 - lm_ggml_endian_byte c 1) [])
            (r.getD (3 - lm_ggml_endian_byte c 0) [])⟩,
         ⟨base + 16, 8, c.vec_pack_to_short_fp32 (r.getD (5 - lm_ggml_endian_byte c 1) [])
            (r.getD (5 - lm_ggml_endian_byte c 0) [])⟩,
         ⟨base + 24, 8, c.vec_pack_to_short_fp32 (r.getD (7 - lm_ggml_endian_byte c 1) [])
            (r.getD (7 - lm_ggml_endian_byte c 0) [])⟩] := by
  have e1 : base + ((1 : Nat) : Int) * ((4 : Nat) : Int) - ((4 : Nat) : Int) = base := by
    norm_num
  have e3 : base + ((3 : Nat) : Int) * ((4 : Nat) : Int) - ((4 : Nat) : Int) = base + 8 := by
    norm_num; ring
  have e5 : base + ((5 : Nat) : Int) * ((4 : Nat) : Int) - ((4 : Nat) : Int) = base + 16 := by
    norm_num; ring
  have e7 : base + ((7 : Nat) : Int) * ((4 : Nat) : Int) - ((4 : Nat) : Int) = base + 24 := by
    norm_num; ring
  simp only [List.range, List.range.loop, List.flatMap_cons, List.flatMap_nil,
    POWER9.LM_GGML_F16_VEC_STORE_writes, Nat.reduceMod, if_true, if_false, zero_ne_one,
    List.nil_append, List.singleton_append, List.append_nil, e1, e3, e5, e7, Nat.reduceEqDiff]

/-- C23. On a POWER9 target, with `ARR`, `EPR` and `STEP` the values of
`LM_GGML_F16_ARR`, `LM_GGML_F16_EPR` and `LM_GGML_F16_STEP` (8, 4 and 32), executing
`LM_GGML_F16_VEC_STORE(base + i*EPR, r, i)` for `i = 0, ..., ARR-1` performs `ARR/2`
writes: none for an even `i`, and for an odd `i` one write of `2*EPR` halves at
`base + (i-1)*EPR`, packed from `r[i - lm_ggml_endian_byte(1)]` and
`r[i - lm_ggml_endian_byte(0)]`, which are `r[i-1]` and `r[i]` in one order or the
other; every address of `base[0 .. STEP)` is covered by exactly one of the writes and
no other address by any.  The writes of one execution are the effect of the store on
memory. -/
theorem POWER9_stores_cover_a_step (t : Features) (hsel : selectBackend t = some .POWER9)
    (arr epr step : Nat) (ha : LM_GGML_F16_ARR t = some arr) (he : LM_GGML_F16_EPR t = some epr)
    (hs : LM_GGML_F16_STEP t = some step) (c : Conversions) (base : Int) (r : List Reg) :
    ((List.range arr).flatMap (fun i =>
        POWER9.LM_GGML_F16_VEC_STORE_writes epr c (base + (i : Int) * epr) r i)).length
        = arr / 2 ∧
      (∀ i, i < arr → i % 2 = 0 →
        POWER9.LM_GGML_F16_VEC_STORE_writes epr c (base + (i : Int) * epr) r i = []) ∧
      (∀ i, i < arr → i % 2 = 1 →
        POWER9.LM_GGML_F16_VEC_STORE_writes epr c (base + (i : Int) * epr) r i
          = [⟨base + ((i : Int) - 1) * epr, 2 * epr,
              c.vec_pack_to_short_fp32 (r.getD (i - lm_ggml_endian_byte c 1) [])
                (r.getD (i - lm_ggml_endian_byte c 0) [])⟩] ∧
        ((i - lm_ggml_endian_byte c 1 = i - 1 ∧ i - lm_ggml_endian_byte c 0 = i) ∨
          (i - lm_ggml_endian_byte c 1 = i ∧ i - lm_ggml_endian_byte c 0 = i - 1))) ∧
      (∀ a : Int, timesWritten ((List.range arr).flatMap (fun i =>
          POWER9.LM_GGML_F16_VEC_STORE_writes epr c (base + (i : Int) * epr) r i)) a
        = if base ≤ a ∧ a < base + step then 1 else 0) ∧
      (∀ (mem : HalfMem) (i : Nat),
        applyWrites mem
            (POWER9.LM_GGML_F16_VEC_STORE_writes epr c (base + (i : Int) * epr) r i)
          = LM_GGML_F16_VEC_STORE .POWER9 t.ARM_FEATURE_FP16_VECTOR_ARITHMETIC t.F16C t.NNPA
              epr c mem (base + (i : Int) * epr) r i) := by
  rw [LM_GGML_F16_ARR, simdEnv_of_select hsel, F16_ARR_branch] at ha
  rw [LM_GGML_F16_EPR, simdEnv_of_select hsel, F16_EPR_branch] at he
  rw [LM_GGML_F16_STEP, simdEnv_of_select hsel, F16_STEP_branch] at hs
  simp only [Option.some.injEq] at ha he hs
  subst ha he hs
  have hw := POWER9_writes_of_a_step c base r
  refine ⟨?_, ?_, ?_, ?_, ?_⟩
  · rw [hw]
    rfl
  · intro i _ hi
    have hi' : ¬ (i % 2 = 1) := by omega
    simp only [POWER9.LM_GGML_F16_VEC_STORE_writes, hi', if_false]
  · intro i _ hi
    constructor
    · have e : base + (i : Int) * ((4 : Nat) : Int) - ((4 : Nat) : Int)
          = base + ((i : Int) - 1) * ((4 : Nat) : Int) := by ring
      simp only [POWER9.LM_GGML_F16_VEC_STORE_writes, hi, if_true, e]
    · have hpos : 1 ≤ i := by omega
      rcases lm_ggml_endian_byte_pair c with ⟨h0, h1⟩ | ⟨h0, h1⟩
      · right
        rw [h0, h1]
        exact ⟨rfl, rfl⟩
      · left
        rw [h0, h1]
        exact ⟨rfl, rfl⟩
  · intro a
    rw [hw]
    simp only [timesWritten, List.countP_cons, List.countP_nil, decide_eq_true_eq]
    push_cast
    dsimp only [Addr] at *
    split_ifs <;> omega
  · intro mem i
    exact POWER9_writes_are_the_store 4 c mem _ r i

/-- Witness for C23: the POWER9 target and the example conversions, which pack in
memory order; the eight stores from address 100 write four times, and address 131,
the last of the step, is covered once. -/
theorem POWER9_stores_cover_a_step_witness :
    selectBackend power9Target = some .POWER9 ∧ LM_GGML_F16_ARR power9Target = some 8 ∧
      LM_GGML_F16_EPR power9Target = some 4 ∧ LM_GGML_F16_STEP power9Target = some 32 ∧
      ((List.range 8).flatMap (fun i =>
        POWER9.LM_GGML_F16_VEC_STORE_writes 4 exampleConversions (100 + (i : Int) * (4 : Nat))
          eightRegisters i)).length = 8 / 2 ∧
      timesWritten ((List.range 8).flatMap (fun i =>
        POWER9.LM_GGML_F16_VEC_STORE_writes 4 exampleConversions (100 + (i : Int) * (4 : Nat))
          eightRegisters i)) 131 = 1 :=
  ⟨by decide, by decide, by decide, by decide,
    (POWER9_stores_cover_a_step power9Target (by decide) 8 4 32 (by decide) (by decide)
      (by decide) exampleConversions 100 eightRegisters).1,
    ((POWER9_stores_cover_a_step power9Target (by decide) 8 4 32 (by decide) (by decide)
      (by decide) exampleConversions 100 eightRegisters).2.2.2.1 131).trans (by decide)⟩

/-! ## C24: the two directions of the conversion -/

/-- The two directions agree on every target except those of the NEON branch. -/
theorem directionsAgree_iff (t : Features) :
    directionsAgree t = true ↔ selectConvBranch t ≠ some .NEON := by
  have h : ∀ (b : Option ConvBranch) (msc : Bool),
      decide (decide ((convLookup (convEnvOf b msc) .LM_GGML_CPU_FP32_TO_FP16).map
            (fun d => d.body) = some (.alias .LM_GGML_CPU_COMPUTE_FP32_TO_FP16))
          = decide ((convLookup (convEnvOf b msc) .LM_GGML_CPU_FP16_TO_FP32).map
            (fun d => d.body) = some (.alias .LM_GGML_CPU_COMPUTE_FP16_TO_FP32))) = true
        ↔ b ≠ some .NEON := by
    decide
  exact h (selectConvBranch t) t.MSC_VER

/-- C24 (evaluation of the code). On an ARM NEON target `LM_GGML_CPU_FP16_TO_FP32` is
defined as `LM_GGML_CPU_COMPUTE_FP16_TO_FP32(x)` (line 42) and ends at
`neon_compute_fp16_to_fp32`, but the NEON branch has no definition of
`LM_GGML_CPU_FP32_TO_FP16`: line 162 binds it to `LM_GGML_COMPUTE_FP32_TO_FP16`, a name
from outside this header, and `neon_compute_fp32_to_fp16` stays bound to
`LM_GGML_CPU_COMPUTE_FP32_TO_FP16` only.  On the POWER9, RISC-V and NNPA targets both
names are aliases of their `COMPUTE` names. -/
theorem NEON_single_to_half_is_not_the_NEON_routine :
    selectConvBranch neonTarget = some .NEON ∧
      boundFP16_TO_FP32 neonTarget = some .neon_compute_fp16_to_fp32 ∧
      definedAsAlias neonTarget .LM_GGML_CPU_FP16_TO_FP32 .LM_GGML_CPU_COMPUTE_FP16_TO_FP32
        = true ∧
      convLookup (convEnv neonTarget) .LM_GGML_CPU_FP32_TO_FP16
        = some ⟨.LM_GGML_CPU_FP32_TO_FP16, .LM_GGML_COMPUTE_FP32_TO_FP16⟩ ∧
      definedAsAlias neonTarget .LM_GGML_CPU_FP32_TO_FP16 .LM_GGML_CPU_COMPUTE_FP32_TO_FP16
        = false ∧
      boundFP32_TO_FP16 neonTarget = some .LM_GGML_COMPUTE_FP32_TO_FP16 ∧
      convResolve (convEnv neonTarget) 4 .LM_GGML_CPU_COMPUTE_FP32_TO_FP16
        = some .neon_compute_fp32_to_fp16 ∧
      directionsAgree neonTarget = false ∧
      boundFP32_TO_FP16 power9Target = some .power_compute_fp32_to_fp16 ∧
      boundFP32_TO_FP16 riscvTarget = some .riscv_compute_fp32_to_fp16 ∧
      boundFP32_TO_FP16 nnpaTarget = some .nnpa_compute_fp32_to_fp16 ∧
      directionsAgree power9Target = true ∧ directionsAgree f16cTarget = true ∧
      directionsAgree noFeatures = true := by
  decide

